import Mathlib

/-!
# wayland-scroll-factor: the preload layer and the configuration module

A shallow embedding of `src/wsf_preload.c` and of `src/wsf_config.c`.  The C globals of the preload layer become the fields of `State`;
every C function takes the state and returns the new one next to its result.  What
the process sees of the outside (the dynamic linker, the configuration module, the
process table) is a `Host`; what the configuration module sees of the C library and
of the operating system is a `World`.

C `double` values are modelled by exact rationals: `==`, `*`, `+`, `-` are the
rational ones, rounding, infinities and NaN are not represented.

`State.trace` is a ghost field: it records, in order, every dynamic lookup, every
call into the real library, every line written to stderr and every query made to
the configuration and process modules.  No C code reads it.
-/

namespace Wsf

/-- A C `double` (exact rational model). -/
abbrev Double := ℚ

/-- Value of a `struct libinput_event_pointer *`: an address, 0 is NULL. -/
abbrev libinput_event_pointer := Nat

/-- Value of a `struct libinput_event_gesture *`: an address, 0 is NULL. -/
abbrev libinput_event_gesture := Nat

/-- Value of a `struct libinput_event *`: an address, 0 is NULL. -/
abbrev libinput_event := Nat

abbrev wsf_axis_t := Int
abbrev wsf_axis_source_t := Int
abbrev wsf_event_type_t := Int

abbrev wsf_scroll_value_fn := libinput_event_pointer → wsf_axis_t → Double
abbrev wsf_axis_source_fn := libinput_event_pointer → wsf_axis_source_t
abbrev wsf_gesture_value_fn := libinput_event_gesture → Double
abbrev wsf_base_event_fn := libinput_event_pointer → libinput_event
abbrev wsf_event_type_fn := libinput_event → wsf_event_type_t

def WSF_AXIS_SCROLL_VERTICAL : wsf_axis_t := 0
def WSF_AXIS_SCROLL_HORIZONTAL : wsf_axis_t := 1

def WSF_AXIS_SOURCE_WHEEL : wsf_axis_source_t := 1
def WSF_AXIS_SOURCE_FINGER : wsf_axis_source_t := 2
def WSF_AXIS_SOURCE_CONTINUOUS : wsf_axis_source_t := 3
def WSF_AXIS_SOURCE_WHEEL_TILT : wsf_axis_source_t := 4

def WSF_EVENT_POINTER_AXIS : wsf_event_type_t := 403
def WSF_EVENT_POINTER_SCROLL_WHEEL : wsf_event_type_t := 404
def WSF_EVENT_POINTER_SCROLL_FINGER : wsf_event_type_t := 405
def WSF_EVENT_POINTER_SCROLL_CONTINUOUS : wsf_event_type_t := 406

/-! ## `wsf_config.h` -/

def WSF_FACTOR_DEFAULT : Double := 1
def WSF_FACTOR_MIN : Double := 5 / 100
def WSF_FACTOR_MAX : Double := 5

structure wsf_effective_factors where
  scroll_vertical : Double
  scroll_horizontal : Double
  pinch_zoom : Double
  pinch_rotate : Double
  used_legacy_factor : Bool

inductive wsf_config_status
  | WSF_CONFIG_OK
  | WSF_CONFIG_MISSING
  | WSF_CONFIG_INVALID
  | WSF_CONFIG_ERROR
  deriving DecidableEq, Repr

/-! ## The nine symbols of the real library -/

/-- The nine names the module looks up with `dlsym(RTLD_NEXT, name)`. -/
inductive Symbol
  | scroll_value
  | scroll_value_v120
  | axis_value
  | axis_value_discrete
  | axis_source
  | base_event
  | event_type
  | gesture_scale
  | gesture_angle_delta
  deriving DecidableEq, Repr

/-- The string passed to `wsf_load_symbol` for each symbol. -/
def Symbol.name : Symbol → String
  | .scroll_value => "libinput_event_pointer_get_scroll_value"
  | .scroll_value_v120 => "libinput_event_pointer_get_scroll_value_v120"
  | .axis_value => "libinput_event_pointer_get_axis_value"
  | .axis_value_discrete => "libinput_event_pointer_get_axis_value_discrete"
  | .axis_source => "libinput_event_pointer_get_axis_source"
  | .base_event => "libinput_event_pointer_get_base_event"
  | .event_type => "libinput_event_get_type"
  | .gesture_scale => "libinput_event_gesture_get_scale"
  | .gesture_angle_delta => "libinput_event_gesture_get_angle_delta"

/-- The function-pointer type the looked-up address is cast to. -/
@[reducible] def Symbol.fn : Symbol → Type
  | .scroll_value => wsf_scroll_value_fn
  | .scroll_value_v120 => wsf_scroll_value_fn
  | .axis_value => wsf_scroll_value_fn
  | .axis_value_discrete => wsf_scroll_value_fn
  | .axis_source => wsf_axis_source_fn
  | .base_event => wsf_base_event_fn
  | .event_type => wsf_event_type_fn
  | .gesture_scale => wsf_gesture_value_fn
  | .gesture_angle_delta => wsf_gesture_value_fn

/-- Outcome of `dlerror(); symbol = dlsym(RTLD_NEXT, name); error = dlerror();`. -/
inductive dl_result (α : Type)
  /-- The answer `error == NULL` with a non-NULL address. -/
  | symbol (f : α)
  /-- The answer `error == NULL` with a NULL address. -/
  | null
  /-- The answer `error != NULL`. -/
  | error (msg : String)

/-- What the process environment answers at the time of a call. -/
structure Host where
  /-- Answer of the dynamic linker for each name. -/
  dlsym : (s : Symbol) → dl_result s.fn
  /-- Result of `wsf_debug_enabled()`. -/
  wsf_debug_enabled : Bool
  /-- Result of `wsf_effective_factors(&factors, debug)`: status and `factors`. -/
  wsf_effective_factors : Bool → wsf_config_status × wsf_effective_factors
  /-- Result of `wsf_proc_is_target(target)`. -/
  wsf_proc_is_target : String → Bool
  /-- Result of `wsf_proc_name(buf, len)`: `none` for `false`, else the name. -/
  wsf_proc_name : Option String

/-- An argument of a `wsf_debug_log` call. -/
inductive LogArg
  | str (s : String)
  | dbl (d : Double)
  deriving DecidableEq

/-- Entries of the ghost trace. -/
inductive Effect
  /-- One `dlsym(RTLD_NEXT, name)` made by `wsf_load_symbol`. -/
  | dlsym (s : Symbol)
  /-- One call through the cached pointer of a symbol. -/
  | call (s : Symbol)
  /-- One line written to stderr by `wsf_debug_log`. -/
  | stderr (fmt : String) (args : List LogArg)
  | debug_enabled
  | effective_factors
  | proc_is_target (target : String)
  | proc_name
  deriving DecidableEq

/-- The static variables of `wsf_preload.c`, and the ghost trace. -/
structure State where
  wsf_real_scroll_value : Option wsf_scroll_value_fn := none
  wsf_real_scroll_value_v120 : Option wsf_scroll_value_fn := none
  wsf_real_axis_value : Option wsf_scroll_value_fn := none
  wsf_real_axis_value_discrete : Option wsf_scroll_value_fn := none
  wsf_real_axis_source : Option wsf_axis_source_fn := none
  wsf_real_gesture_scale : Option wsf_gesture_value_fn := none
  wsf_real_gesture_angle_delta : Option wsf_gesture_value_fn := none
  wsf_real_base_event : Option wsf_base_event_fn := none
  wsf_real_event_type : Option wsf_event_type_fn := none
  wsf_debug : Bool := false
  wsf_active : Bool := false
  wsf_scroll_vertical_factor : Double := WSF_FACTOR_DEFAULT
  wsf_scroll_horizontal_factor : Double := WSF_FACTOR_DEFAULT
  wsf_pinch_zoom_factor : Double := WSF_FACTOR_DEFAULT
  wsf_pinch_rotate_factor : Double := WSF_FACTOR_DEFAULT
  wsf_init_done : Bool := false
  wsf_logged_missing_scroll : Bool := false
  wsf_logged_missing_scroll_v120 : Bool := false
  wsf_logged_missing_axis_value : Bool := false
  wsf_logged_missing_axis_value_discrete : Bool := false
  wsf_logged_missing_axis_source : Bool := false
  wsf_logged_missing_gesture_scale : Bool := false
  wsf_logged_missing_gesture_angle : Bool := false
  trace : List Effect := []

/-- Append one entry to the ghost trace. -/
def State.emit (st : State) (e : Effect) : State :=
  { st with trace := st.trace ++ [e] }

/-- The string printed for `flag ? "yes" : "no"`. -/
def yes_no (flag : Bool) : LogArg :=
  .str (if flag then "yes" else "no")

/-- `wsf_debug_log(fmt, ...)`. -/
def wsf_debug_log (fmt : String) (args : List LogArg) (st : State) : State :=
  if !st.wsf_debug then st
  else st.emit (.stderr fmt args)

/-- `wsf_load_symbol(name)`. -/
def wsf_load_symbol (h : Host) (s : Symbol) (st : State) : Option s.fn × State :=
  let st := st.emit (.dlsym s)
  match h.dlsym s with
  | .error msg =>
    (none, wsf_debug_log "symbol %s not found: %s" [.str s.name, .str msg] st)
  | .null => (none, st)
  | .symbol f => (some f, st)

/-- The five `wsf_debug_log` calls that end both branches of the report of
`wsf_init_internal` (the two branches differ in their first line only). -/
def wsf_init_report_rest (st : State) : State :=
  let st := wsf_debug_log "init: scroll_vertical=%.4f scroll_horizontal=%.4f"
    [.dbl st.wsf_scroll_vertical_factor, .dbl st.wsf_scroll_horizontal_factor] st
  let st := wsf_debug_log "init: axis_value=%s axis_discrete=%s"
    [yes_no st.wsf_real_axis_value.isSome, yes_no st.wsf_real_axis_value_discrete.isSome] st
  let st := wsf_debug_log "init: event_type=%s base_event=%s"
    [yes_no st.wsf_real_event_type.isSome, yes_no st.wsf_real_base_event.isSome] st
  let st := wsf_debug_log "init: axis_source=%s"
    [yes_no st.wsf_real_axis_source.isSome] st
  wsf_debug_log
    "init: gesture_scale=%s gesture_angle=%s pinch_zoom=%.4f pinch_rotate=%.4f"
    [yes_no st.wsf_real_gesture_scale.isSome, yes_no st.wsf_real_gesture_angle_delta.isSome,
      .dbl st.wsf_pinch_zoom_factor, .dbl st.wsf_pinch_rotate_factor] st

/-- `wsf_init_internal()`. -/
def wsf_init_internal (h : Host) (st : State) : State :=
  if st.wsf_init_done then st
  else
    let st := { st.emit .debug_enabled with wsf_debug := h.wsf_debug_enabled }
    let st := st.emit .effective_factors
    let r := h.wsf_effective_factors st.wsf_debug
    let factors : wsf_effective_factors :=
      if r.1 = .WSF_CONFIG_ERROR then
        { r.2 with
          scroll_vertical := WSF_FACTOR_DEFAULT
          scroll_horizontal := WSF_FACTOR_DEFAULT
          pinch_zoom := WSF_FACTOR_DEFAULT
          pinch_rotate := WSF_FACTOR_DEFAULT }
      else r.2
    let st := { st with wsf_scroll_vertical_factor := factors.scroll_vertical }
    let st := { st with wsf_scroll_horizontal_factor := factors.scroll_horizontal }
    let st := { st with wsf_pinch_zoom_factor := factors.pinch_zoom }
    let st := { st with wsf_pinch_rotate_factor := factors.pinch_rotate }
    let st := { st.emit (.proc_is_target "niri") with
      wsf_active := h.wsf_proc_is_target "niri" }
    let l := wsf_load_symbol h .scroll_value st
    let st := { l.2 with wsf_real_scroll_value := l.1 }
    let l := wsf_load_symbol h .scroll_value_v120 st
    let st := { l.2 with wsf_real_scroll_value_v120 := l.1 }
    let l := wsf_load_symbol h .axis_value st
    let st := { l.2 with wsf_real_axis_value := l.1 }
    let l := wsf_load_symbol h .axis_value_discrete st
    let st := { l.2 with wsf_real_axis_value_discrete := l.1 }
    let l := wsf_load_symbol h .axis_source st
    let st := { l.2 with wsf_real_axis_source := l.1 }
    let l := wsf_load_symbol h .base_event st
    let st := { l.2 with wsf_real_base_event := l.1 }
    let l := wsf_load_symbol h .event_type st
    let st := { l.2 with wsf_real_event_type := l.1 }
    let l := wsf_load_symbol h .gesture_scale st
    let st := { l.2 with wsf_real_gesture_scale := l.1 }
    let l := wsf_load_symbol h .gesture_angle_delta st
    let st := { l.2 with wsf_real_gesture_angle_delta := l.1 }
    let st := { st with wsf_init_done := true }
    let st := st.emit .proc_name
    match h.wsf_proc_name with
    | some proc_name =>
      let st := wsf_debug_log
        "init: process=%s active=%s scroll_vertical=%.4f scroll=%s v120=%s"
        [.str proc_name, yes_no st.wsf_active, .dbl st.wsf_scroll_vertical_factor,
          yes_no st.wsf_real_scroll_value.isSome,
          yes_no st.wsf_real_scroll_value_v120.isSome] st
      wsf_init_report_rest st
    | none =>
      let st := wsf_debug_log
        "init: process=unknown active=%s scroll_vertical=%.4f scroll=%s v120=%s"
        [yes_no st.wsf_active, .dbl st.wsf_scroll_vertical_factor,
          yes_no st.wsf_real_scroll_value.isSome,
          yes_no st.wsf_real_scroll_value_v120.isSome] st
      wsf_init_report_rest st

/-- `wsf_init()`, the load-time constructor. -/
def wsf_init (h : Host) (st : State) : State :=
  wsf_init_internal h st

/-- `wsf_ensure_init()`. -/
def wsf_ensure_init (h : Host) (st : State) : State :=
  if !st.wsf_init_done then wsf_init_internal h st
  else st

/-- `wsf_scroll_factor_for_axis(axis)`. -/
def wsf_scroll_factor_for_axis (st : State) (axis : wsf_axis_t) : Double :=
  if axis == WSF_AXIS_SCROLL_HORIZONTAL then st.wsf_scroll_horizontal_factor
  else st.wsf_scroll_vertical_factor

/-- Lines 317 to 338 of `wsf_should_scale_scroll`: the decision by axis source,
reached whenever the event type did not decide. -/
def wsf_should_scale_scroll_by_source (h : Host) (st : State)
    (event : libinput_event_pointer) : Bool × State :=
  let st :=
    if st.wsf_real_axis_source.isNone then
      let l := wsf_load_symbol h .axis_source st
      { l.2 with wsf_real_axis_source := l.1 }
    else st
  match st.wsf_real_axis_source with
  | none =>
    let st :=
      if st.wsf_debug && !st.wsf_logged_missing_axis_source then
        { wsf_debug_log "axis_source symbol missing; scroll scaling disabled" [] st with
          wsf_logged_missing_axis_source := true }
      else st
    (false, st)
  | some real_axis_source =>
    let source := real_axis_source event
    let st := st.emit (.call .axis_source)
    if source == WSF_AXIS_SOURCE_FINGER || source == WSF_AXIS_SOURCE_CONTINUOUS then
      (true, st)
    else (false, st)

/-- `wsf_should_scale_scroll(event, factor)`. -/
def wsf_should_scale_scroll (h : Host) (st : State)
    (event : libinput_event_pointer) (factor : Double) : Bool × State :=
  if !st.wsf_active || factor == 1 then (false, st)
  else
    let st :=
      if st.wsf_real_base_event.isNone then
        let l := wsf_load_symbol h .base_event st
        { l.2 with wsf_real_base_event := l.1 }
      else st
    let st :=
      if st.wsf_real_event_type.isNone then
        let l := wsf_load_symbol h .event_type st
        { l.2 with wsf_real_event_type := l.1 }
      else st
    match st.wsf_real_base_event, st.wsf_real_event_type with
    | some real_base_event, some real_event_type =>
      let base := real_base_event event
      let st := st.emit (.call .base_event)
      if base != 0 then
        let type := real_event_type base
        let st := st.emit (.call .event_type)
        if type == WSF_EVENT_POINTER_SCROLL_WHEEL then (false, st)
        else if type == WSF_EVENT_POINTER_SCROLL_FINGER ||
            type == WSF_EVENT_POINTER_SCROLL_CONTINUOUS then (true, st)
        else if type != WSF_EVENT_POINTER_AXIS then (false, st)
        else wsf_should_scale_scroll_by_source h st event
      else wsf_should_scale_scroll_by_source h st event
    | _, _ => wsf_should_scale_scroll_by_source h st event

/-- `libinput_event_pointer_get_axis_value(event, axis)`. -/
def libinput_event_pointer_get_axis_value (h : Host) (st : State)
    (event : libinput_event_pointer) (axis : wsf_axis_t) : Double × State :=
  let st := wsf_ensure_init h st
  let st :=
    if st.wsf_real_axis_value.isNone then
      let l := wsf_load_symbol h .axis_value st
      { l.2 with wsf_real_axis_value := l.1 }
    else st
  match st.wsf_real_axis_value with
  | none =>
    let st :=
      if st.wsf_debug && !st.wsf_logged_missing_axis_value then
        { wsf_debug_log "axis_value symbol missing; returning 0" [] st with
          wsf_logged_missing_axis_value := true }
      else st
    (0, st)
  | some real_axis_value =>
    let value := real_axis_value event axis
    let st := st.emit (.call .axis_value)
    let factor := wsf_scroll_factor_for_axis st axis
    let r := wsf_should_scale_scroll h st event factor
    if !r.1 then (value, r.2)
    else (value * factor, r.2)

/-- `libinput_event_pointer_get_axis_value_discrete(event, axis)`. -/
def libinput_event_pointer_get_axis_value_discrete (h : Host) (st : State)
    (event : libinput_event_pointer) (axis : wsf_axis_t) : Double × State :=
  let st := wsf_ensure_init h st
  let st :=
    if st.wsf_real_axis_value_discrete.isNone then
      let l := wsf_load_symbol h .axis_value_discrete st
      { l.2 with wsf_real_axis_value_discrete := l.1 }
    else st
  match st.wsf_real_axis_value_discrete with
  | none =>
    let st :=
      if st.wsf_debug && !st.wsf_logged_missing_axis_value_discrete then
        { wsf_debug_log "axis_value_discrete symbol missing; returning 0" [] st with
          wsf_logged_missing_axis_value_discrete := true }
      else st
    (0, st)
  | some real_axis_value_discrete =>
    let value := real_axis_value_discrete event axis
    let st := st.emit (.call .axis_value_discrete)
    let factor := wsf_scroll_factor_for_axis st axis
    let r := wsf_should_scale_scroll h st event factor
    if !r.1 then (value, r.2)
    else (value * factor, r.2)

/-- `libinput_event_pointer_get_scroll_value(event, axis)`. -/
def libinput_event_pointer_get_scroll_value (h : Host) (st : State)
    (event : libinput_event_pointer) (axis : wsf_axis_t) : Double × State :=
  let st := wsf_ensure_init h st
  let st :=
    if st.wsf_real_scroll_value.isNone then
      let l := wsf_load_symbol h .scroll_value st
      { l.2 with wsf_real_scroll_value := l.1 }
    else st
  match st.wsf_real_scroll_value with
  | none =>
    let st :=
      if st.wsf_debug && !st.wsf_logged_missing_scroll then
        { wsf_debug_log "scroll_value symbol missing; returning 0" [] st with
          wsf_logged_missing_scroll := true }
      else st
    (0, st)
  | some real_scroll_value =>
    let value := real_scroll_value event axis
    let st := st.emit (.call .scroll_value)
    let factor := wsf_scroll_factor_for_axis st axis
    let r := wsf_should_scale_scroll h st event factor
    if !r.1 then (value, r.2)
    else (value * factor, r.2)

/-- `libinput_event_pointer_get_scroll_value_v120(event, axis)`. -/
def libinput_event_pointer_get_scroll_value_v120 (h : Host) (st : State)
    (event : libinput_event_pointer) (axis : wsf_axis_t) : Double × State :=
  let st := wsf_ensure_init h st
  let st :=
    if st.wsf_real_scroll_value_v120.isNone then
      let l := wsf_load_symbol h .scroll_value_v120 st
      { l.2 with wsf_real_scroll_value_v120 := l.1 }
    else st
  match st.wsf_real_scroll_value_v120 with
  | none =>
    let st :=
      if st.wsf_debug && !st.wsf_logged_missing_scroll_v120 then
        { wsf_debug_log "scroll_value_v120 symbol missing; returning 0" [] st with
          wsf_logged_missing_scroll_v120 := true }
      else st
    (0, st)
  | some real_scroll_value_v120 =>
    let value := real_scroll_value_v120 event axis
    let st := st.emit (.call .scroll_value_v120)
    let factor := wsf_scroll_factor_for_axis st axis
    let r := wsf_should_scale_scroll h st event factor
    if !r.1 then (value, r.2)
    else (value * factor, r.2)

/-- `libinput_event_gesture_get_scale(event)`. -/
def libinput_event_gesture_get_scale (h : Host) (st : State)
    (event : libinput_event_gesture) : Double × State :=
  let st := wsf_ensure_init h st
  let st :=
    if st.wsf_real_gesture_scale.isNone then
      let l := wsf_load_symbol h .gesture_scale st
      { l.2 with wsf_real_gesture_scale := l.1 }
    else st
  match st.wsf_real_gesture_scale with
  | none =>
    let st :=
      if st.wsf_debug && !st.wsf_logged_missing_gesture_scale then
        { wsf_debug_log "gesture scale symbol missing; returning 1.0" [] st with
          wsf_logged_missing_gesture_scale := true }
      else st
    (1, st)
  | some real_gesture_scale =>
    let scale := real_gesture_scale event
    let st := st.emit (.call .gesture_scale)
    if !st.wsf_active || st.wsf_pinch_zoom_factor == 1 then (scale, st)
    else (1 + (scale - 1) * st.wsf_pinch_zoom_factor, st)

/-- `libinput_event_gesture_get_angle_delta(event)`. -/
def libinput_event_gesture_get_angle_delta (h : Host) (st : State)
    (event : libinput_event_gesture) : Double × State :=
  let st := wsf_ensure_init h st
  let st :=
    if st.wsf_real_gesture_angle_delta.isNone then
      let l := wsf_load_symbol h .gesture_angle_delta st
      { l.2 with wsf_real_gesture_angle_delta := l.1 }
    else st
  match st.wsf_real_gesture_angle_delta with
  | none =>
    let st :=
      if st.wsf_debug && !st.wsf_logged_missing_gesture_angle then
        { wsf_debug_log "gesture angle symbol missing; returning 0" [] st with
          wsf_logged_missing_gesture_angle := true }
      else st
    (0, st)
  | some real_gesture_angle_delta =>
    let delta := real_gesture_angle_delta event
    let st := st.emit (.call .gesture_angle_delta)
    if !st.wsf_active || st.wsf_pinch_rotate_factor == 1 then (delta, st)
    else (delta * st.wsf_pinch_rotate_factor, st)

/-! ## `wsf_config.c`

The configuration module.  What it asks of the C library and of the operating system
(environment, the configuration file, `strtod`) is a `World`.  A C string is the list
of its characters before the terminating NUL, one `Char` per byte.  The lines written
to stderr by the module's own `wsf_debug_log` are not modelled: no result depends on
them, and the `debug` parameters are kept for the signatures only. -/

/-- A C string: the characters before the terminating NUL. -/
abbrev c_string := List Char

/-- `isspace` in the C locale: space, `\t`, `\n`, `\v`, `\f`, `\r`. -/
def isspace (c : Char) : Bool :=
  c == ' ' || c == '\t' || c == '\n' || c == Char.ofNat 11 || c == Char.ofNat 12 || c == '\r'

/-- The C string held by a buffer: what precedes its first NUL. -/
def c_str (buf : List Char) : c_string :=
  buf.takeWhile (fun c => c != Char.ofNat 0)

/-- What `errno = 0; value = strtod(input, &end);` leaves behind. -/
structure strtod_result where
  /-- The returned `double`. -/
  value : Double
  /-- The distance `end - input`. -/
  consumed : Nat
  /-- Whether `errno == ERANGE` after the call. -/
  erange : Bool

/-- Outcome of `fopen(path, "r")` and of the reads that follow. -/
inductive fopen_result
  /-- The stream opened; `lines` are the buffers successive `getline` calls fill. -/
  | stream (lines : List (List Char))
  /-- The answer NULL with `errno == ENOENT`. -/
  | enoent
  /-- The answer NULL with another `errno`. -/
  | failure

/-- What the C library and the operating system answer to the configuration module. -/
structure World where
  getenv : String → Option c_string
  fopen_r : c_string → fopen_result
  strtod : c_string → strtod_result

def PATH_MAX : Nat := 4096

structure wsf_config_values where
  factor : Double
  scroll_vertical_factor : Double
  scroll_horizontal_factor : Double
  pinch_zoom_factor : Double
  pinch_rotate_factor : Double
  has_factor : Bool
  has_scroll_vertical : Bool
  has_scroll_horizontal : Bool
  has_pinch_zoom : Bool
  has_pinch_rotate : Bool

/-- `wsf_debug_enabled()`. -/
def wsf_debug_enabled (w : World) : Bool :=
  match w.getenv "WSF_DEBUG" with
  | none => false
  | some env => env.head? == some '1'

/-- `wsf_home()`. -/
def wsf_home (w : World) : Option c_string :=
  match w.getenv "HOME" with
  | none => none
  | some home => if home.isEmpty then none else some home

/-- `wsf_config_path()`. -/
def wsf_config_path (w : World) : Option c_string :=
  match wsf_home w with
  | none => none
  | some home =>
    let path := home ++ "/.config/wayland-scroll-factor/config".toList
    let written := path.length
    if written ≤ 0 || written ≥ PATH_MAX then none
    else some path

/-- `wsf_parse_factor_str(input, out_factor)`: the returned flag and the content of
`*out_factor` after the call, `out_factor` being its content before. -/
def wsf_parse_factor_str (w : World) (input : Option c_string) (out_factor : Double) :
    Bool × Double :=
  match input with
  | none => (false, out_factor)
  | some input =>
    let input := input.dropWhile isspace
    let r := w.strtod input
    if r.consumed == 0 || r.erange then (false, out_factor)
    else
      let e := (input.drop r.consumed).dropWhile isspace
      match e with
      | [] => (true, r.value)
      | c :: _ =>
        if c != '\n' && c != '#' then (false, out_factor)
        else (true, r.value)

/-- `wsf_factor_in_range(factor)`. -/
def wsf_factor_in_range (factor : Double) : Bool :=
  decide (factor ≥ WSF_FACTOR_MIN) && decide (factor ≤ WSF_FACTOR_MAX)

/-- `wsf_config_values_init(values)`. -/
def wsf_config_values_init : wsf_config_values :=
  { factor := WSF_FACTOR_DEFAULT
    scroll_vertical_factor := WSF_FACTOR_DEFAULT
    scroll_horizontal_factor := WSF_FACTOR_DEFAULT
    pinch_zoom_factor := WSF_FACTOR_DEFAULT
    pinch_rotate_factor := WSF_FACTOR_DEFAULT
    has_factor := false
    has_scroll_vertical := false
    has_scroll_horizontal := false
    has_pinch_zoom := false
    has_pinch_rotate := false }

/-- `wsf_trim(str)`: the first character left after the leading blanks is never
removed (`end > str`). -/
def wsf_trim (str : c_string) : c_string :=
  match str.dropWhile isspace with
  | [] => []
  | c :: rest => c :: (rest.reverse.dropWhile isspace).reverse

/-- The locals `out_values`, `found`, `invalid` of `wsf_config_read`. -/
structure wsf_config_read_locals where
  out_values : wsf_config_values
  found : Bool
  invalid : Bool

/-- Lines 162 to 183 of `wsf_config_read`: the `key` and `value` strings of a line, or
`none` when the loop body leaves by one of its first two `continue`. -/
def wsf_config_read_key_value (line : List Char) : Option (c_string × c_string) :=
  let cursor := (c_str line).dropWhile isspace
  match cursor with
  | [] => none
  | c :: _ =>
    if c == '#' || c == '\n' then none
    else if !cursor.contains '=' then none
    else
      let key := wsf_trim (cursor.takeWhile (fun c => c != '='))
      let value := wsf_trim ((cursor.dropWhile (fun c => c != '=')).drop 1)
      some (key, value)

/-- The five key strings `wsf_config_read` compares a key with. -/
def KEY_FACTOR : c_string := "factor".toList
def KEY_SCROLL_VERTICAL_FACTOR : c_string := "scroll_vertical_factor".toList
def KEY_SCROLL_HORIZONTAL_FACTOR : c_string := "scroll_horizontal_factor".toList
def KEY_PINCH_ZOOM_FACTOR : c_string := "pinch_zoom_factor".toList
def KEY_PINCH_ROTATE_FACTOR : c_string := "pinch_rotate_factor".toList

/-- Body of the `getline` loop of `wsf_config_read`, for one line. -/
def wsf_config_read_line (w : World) (line : List Char) (l : wsf_config_read_locals) :
    wsf_config_read_locals :=
  match wsf_config_read_key_value line with
  | none => l
  | some (key, value) =>
    if key == KEY_FACTOR then
      let p := wsf_parse_factor_str w (some value) 0
      if !p.1 || !wsf_factor_in_range p.2 then { l with invalid := true }
      else
        { l with
          out_values := { l.out_values with factor := p.2, has_factor := true }
          found := true }
    else if key == KEY_SCROLL_VERTICAL_FACTOR then
      let p := wsf_parse_factor_str w (some value) 0
      if !p.1 || !wsf_factor_in_range p.2 then { l with invalid := true }
      else
        { l with
          out_values :=
            { l.out_values with scroll_vertical_factor := p.2, has_scroll_vertical := true }
          found := true }
    else if key == KEY_SCROLL_HORIZONTAL_FACTOR then
      let p := wsf_parse_factor_str w (some value) 0
      if !p.1 || !wsf_factor_in_range p.2 then { l with invalid := true }
      else
        { l with
          out_values :=
            { l.out_values with
              scroll_horizontal_factor := p.2, has_scroll_horizontal := true }
          found := true }
    else if key == KEY_PINCH_ZOOM_FACTOR then
      let p := wsf_parse_factor_str w (some value) 0
      if !p.1 || !wsf_factor_in_range p.2 then { l with invalid := true }
      else
        { l with
          out_values := { l.out_values with pinch_zoom_factor := p.2, has_pinch_zoom := true }
          found := true }
    else if key == KEY_PINCH_ROTATE_FACTOR then
      let p := wsf_parse_factor_str w (some value) 0
      if !p.1 || !wsf_factor_in_range p.2 then { l with invalid := true }
      else
        { l with
          out_values :=
            { l.out_values with pinch_rotate_factor := p.2, has_pinch_rotate := true }
          found := true }
    else l

/-- The `getline` loop of `wsf_config_read`: the locals once the lines are read. -/
def wsf_config_read_loop (w : World) (lines : List (List Char))
    (l : wsf_config_read_locals) : wsf_config_read_locals :=
  lines.foldl (fun l line => wsf_config_read_line w line l) l

/-- `wsf_config_read(out_values, debug)`: the returned status and `*out_values`. -/
def wsf_config_read (w : World) (_debug : Bool) : wsf_config_status × wsf_config_values :=
  match wsf_config_path w with
  | none => (.WSF_CONFIG_ERROR, wsf_config_values_init)
  | some path =>
    match w.fopen_r path with
    | .enoent => (.WSF_CONFIG_MISSING, wsf_config_values_init)
    | .failure => (.WSF_CONFIG_ERROR, wsf_config_values_init)
    | .stream lines =>
      let l := wsf_config_read_loop w lines
        { out_values := wsf_config_values_init, found := false, invalid := false }
      if l.invalid then (.WSF_CONFIG_INVALID, l.out_values)
      else if !l.found then (.WSF_CONFIG_MISSING, l.out_values)
      else (.WSF_CONFIG_OK, l.out_values)

/-- `wsf_env_factor(name, out_factor, debug)`: the returned flag and the content of
`*out_factor` after the call. -/
def wsf_env_factor (w : World) (name : String) (out_factor : Double) (_debug : Bool) :
    Bool × Double :=
  match w.getenv name with
  | none => (false, out_factor)
  | some env =>
    if env.isEmpty then (false, out_factor)
    else
      let p := wsf_parse_factor_str w (some env) out_factor
      if p.1 && wsf_factor_in_range p.2 then (true, p.2)
      else (false, p.2)

/-- `wsf_effective_factors(out_factors, debug)`: the returned status and `*out_factors`
(the name `wsf_effective_factors` is the structure's). -/
def wsf_effective_factors_fn (w : World) (debug : Bool) :
    wsf_config_status × wsf_effective_factors :=
  let base_factor := WSF_FACTOR_DEFAULT
  let env_factor := WSF_FACTOR_DEFAULT
  let out_factors : wsf_effective_factors :=
    { scroll_vertical := WSF_FACTOR_DEFAULT
      scroll_horizontal := WSF_FACTOR_DEFAULT
      pinch_zoom := WSF_FACTOR_DEFAULT
      pinch_rotate := WSF_FACTOR_DEFAULT
      used_legacy_factor := false }
  let r := wsf_config_read w debug
  let status := r.1
  let cfg := r.2
  if status = .WSF_CONFIG_ERROR then (status, out_factors)
  else
    let base_factor := if cfg.has_factor then cfg.factor else base_factor
    let out_factors :=
      if cfg.has_factor then { out_factors with used_legacy_factor := true } else out_factors
    let out_factors :=
      { out_factors with
        scroll_vertical :=
          if cfg.has_scroll_vertical then cfg.scroll_vertical_factor else base_factor }
    let out_factors :=
      { out_factors with
        scroll_horizontal :=
          if cfg.has_scroll_horizontal then cfg.scroll_horizontal_factor else base_factor }
    let out_factors :=
      { out_factors with
        pinch_zoom := if cfg.has_pinch_zoom then cfg.pinch_zoom_factor else WSF_FACTOR_DEFAULT }
    let out_factors :=
      { out_factors with
        pinch_rotate :=
          if cfg.has_pinch_rotate then cfg.pinch_rotate_factor else WSF_FACTOR_DEFAULT }
    let e := wsf_env_factor w "WSF_FACTOR" env_factor debug
    let env_factor := e.2
    let out_factors :=
      if e.1 then
        { out_factors with
          scroll_vertical := env_factor
          scroll_horizontal := env_factor
          used_legacy_factor := true }
      else out_factors
    let e := wsf_env_factor w "WSF_SCROLL_VERTICAL_FACTOR" env_factor debug
    let env_factor := e.2
    let out_factors :=
      if e.1 then { out_factors with scroll_vertical := env_factor } else out_factors
    let e := wsf_env_factor w "WSF_SCROLL_HORIZONTAL_FACTOR" env_factor debug
    let env_factor := e.2
    let out_factors :=
      if e.1 then { out_factors with scroll_horizontal := env_factor } else out_factors
    let e := wsf_env_factor w "WSF_PINCH_ZOOM_FACTOR" env_factor debug
    let env_factor := e.2
    let out_factors :=
      if e.1 then { out_factors with pinch_zoom := env_factor } else out_factors
    let e := wsf_env_factor w "WSF_PINCH_ROTATE_FACTOR" env_factor debug
    let env_factor := e.2
    let out_factors :=
      if e.1 then { out_factors with pinch_rotate := env_factor } else out_factors
    (status, out_factors)

/-! ## The writing half of `wsf_config.c`

What the writing functions ask of the operating system is a `Disk`; what they change in
the file system is returned as a list of `FileOp`, in order. -/

/-- Outcome of `mkdir(path, 0700)`. -/
inductive mkdir_result
  /-- The answer 0: the directory was created. -/
  | created
  /-- The answer -1 with `errno == EEXIST`. -/
  | eexist
  /-- The answer -1 with another `errno`. -/
  | failure

/-- What the operating system and the C library answer to the writing functions. -/
structure Disk where
  mkdir : c_string → mkdir_result
  /-- Whether `fopen(path, "w")` yields a stream. -/
  fopen_w : c_string → Bool
  /-- The characters `fprintf` produces for the conversion `%.4f`. -/
  format_4f : Double → c_string

/-- One change made to the file system. -/
inductive FileOp
  /-- A directory created by `mkdir`. -/
  | mkdir (path : c_string)
  /-- A file created or truncated by a successful `fopen(path, "w")`. -/
  | truncate (path : c_string)
  /-- Characters appended to the open file by `fprintf`. -/
  | fprintf (text : c_string)
  | fclose
  deriving DecidableEq

/-- `wsf_mkdir(path, debug)`: the returned code and the changes made. -/
def wsf_mkdir (d : Disk) (path : c_string) (_debug : Bool) : Int × List FileOp :=
  match d.mkdir path with
  | .created => (0, [.mkdir path])
  | .eexist => (0, [])
  | .failure => (-1, [])

/-- `wsf_config_write_all(values, debug)`: the returned code and the changes made. -/
def wsf_config_write_all (w : World) (d : Disk) (values : wsf_config_values)
    (debug : Bool) : Int × List FileOp :=
  match wsf_home w, wsf_config_path w with
  | some home, some path =>
    let base_dir := home ++ "/.config".toList
    let written := base_dir.length
    if written ≤ 0 || written ≥ PATH_MAX then (-1, [])
    else
      let config_dir := home ++ "/.config/wayland-scroll-factor".toList
      let written := config_dir.length
      if written ≤ 0 || written ≥ PATH_MAX then (-1, [])
      else
        let m1 := wsf_mkdir d base_dir debug
        if m1.1 != 0 then (-1, m1.2)
        else
          let m2 := wsf_mkdir d config_dir debug
          let ops := m1.2 ++ m2.2
          if m2.1 != 0 then (-1, ops)
          else if !d.fopen_w path then (-1, ops)
          else
            let ops := ops ++ [.truncate path]
            let ops :=
              if values.has_factor then
                ops ++ [.fprintf ("factor=".toList ++ d.format_4f values.factor ++ ['\n'])]
              else ops
            let ops :=
              if values.has_scroll_vertical then
                ops ++ [.fprintf ("scroll_vertical_factor=".toList ++
                  d.format_4f values.scroll_vertical_factor ++ ['\n'])]
              else ops
            let ops :=
              if values.has_scroll_horizontal then
                ops ++ [.fprintf ("scroll_horizontal_factor=".toList ++
                  d.format_4f values.scroll_horizontal_factor ++ ['\n'])]
              else ops
            let ops :=
              if values.has_pinch_zoom then
                ops ++ [.fprintf ("pinch_zoom_factor=".toList ++
                  d.format_4f values.pinch_zoom_factor ++ ['\n'])]
              else ops
            let ops :=
              if values.has_pinch_rotate then
                ops ++ [.fprintf ("pinch_rotate_factor=".toList ++
                  d.format_4f values.pinch_rotate_factor ++ ['\n'])]
              else ops
            (0, ops ++ [.fclose])
  | _, _ => (-1, [])

/-- `wsf_config_write_updates(updates, debug)` for a non-NULL `updates`: the returned code
and the changes made. -/
def wsf_config_write_updates (w : World) (d : Disk) (updates : wsf_config_values)
    (debug : Bool) : Int × List FileOp :=
  let r := wsf_config_read w debug
  let values := if r.1 = .WSF_CONFIG_ERROR then wsf_config_values_init else r.2
  if updates.has_factor && !wsf_factor_in_range updates.factor then (-1, [])
  else
    let values :=
      if updates.has_factor then { values with factor := updates.factor, has_factor := true }
      else values
    if updates.has_scroll_vertical && !wsf_factor_in_range updates.scroll_vertical_factor then
      (-1, [])
    else
      let values :=
        if updates.has_scroll_vertical then
          { values with
            scroll_vertical_factor := updates.scroll_vertical_factor
            has_scroll_vertical := true }
        else values
      if updates.has_scroll_horizontal &&
          !wsf_factor_in_range updates.scroll_horizontal_factor then (-1, [])
      else
        let values :=
          if updates.has_scroll_horizontal then
            { values with
              scroll_horizontal_factor := updates.scroll_horizontal_factor
              has_scroll_horizontal := true }
          else values
        if updates.has_pinch_zoom && !wsf_factor_in_range updates.pinch_zoom_factor then
          (-1, [])
        else
          let values :=
            if updates.has_pinch_zoom then
              { values with
                pinch_zoom_factor := updates.pinch_zoom_factor
                has_pinch_zoom := true }
            else values
          if updates.has_pinch_rotate &&
              !wsf_factor_in_range updates.pinch_rotate_factor then (-1, [])
          else
            let values :=
              if updates.has_pinch_rotate then
                { values with
                  pinch_rotate_factor := updates.pinch_rotate_factor
                  has_pinch_rotate := true }
              else values
            wsf_config_write_all w d values debug

/-- `wsf_config_write(factor, debug)`: the returned code and the changes made. -/
def wsf_config_write (w : World) (d : Disk) (factor : Double) (debug : Bool) :
    Int × List FileOp :=
  if !wsf_factor_in_range factor then (-1, [])
  else
    let updates := { wsf_config_values_init with factor := factor, has_factor := true }
    wsf_config_write_updates w d updates debug

/-! ## Vocabulary of the statements -/

/-- The backing symbol `s` is resolved to `real` when the call needs it: the cached
pointer `cached` already holds `real`, or it is NULL and the lookup the call then
makes finds `real`. -/
def Resolved (h : Host) (s : Symbol) (cached : Option s.fn) (real : s.fn) : Prop :=
  cached = some real ∨ (cached = none ∧ h.dlsym s = .symbol real)

/-- The backing symbol `s` cannot be resolved: the cached pointer is NULL and the
lookup made at call time yields no address. -/
def Unresolved (h : Host) (s : Symbol) (cached : Option s.fn) : Prop :=
  cached = none ∧ ∀ f, h.dlsym s ≠ .symbol f

/-- The address a lookup leaves behind: NULL unless a symbol was found. -/
def dl_result.address {α : Type} : dl_result α → Option α
  | .symbol f => some f
  | .null => none
  | .error _ => none

/-- Value of a cached pointer after `if (p == NULL) { p = wsf_load_symbol(name); }`. -/
def resolve (h : Host) (s : Symbol) (cached : Option s.fn) : Option s.fn :=
  match cached with
  | some f => some f
  | none => (h.dlsym s).address

/-- The factors `wsf_init_internal` installs from the answer of `wsf_effective_factors`. -/
def installed_factors (r : wsf_config_status × wsf_effective_factors) : wsf_effective_factors :=
  if r.1 = .WSF_CONFIG_ERROR then
    { r.2 with
      scroll_vertical := WSF_FACTOR_DEFAULT
      scroll_horizontal := WSF_FACTOR_DEFAULT
      pinch_zoom := WSF_FACTOR_DEFAULT
      pinch_rotate := WSF_FACTOR_DEFAULT }
  else r.2

/-- The override variable `name` holds the valid value `e`: it is set, not empty, its
text is accepted by `wsf_parse_factor_str` with the value `e`, and `e` is within
[0.05, 5.0]. -/
def ValidOverride (w : World) (name : String) (e : Double) : Prop :=
  ∃ s, w.getenv name = some s ∧ s ≠ [] ∧
    wsf_parse_factor_str w (some s) WSF_FACTOR_DEFAULT = (true, e) ∧
    wsf_factor_in_range e = true

/-- The override variable `name` is set to a value that is empty, unparsable, or parsed
but outside [0.05, 5.0]. -/
def InvalidOverride (w : World) (name : String) : Prop :=
  ∃ s, w.getenv name = some s ∧
    (s = [] ∨
      (wsf_parse_factor_str w (some s) WSF_FACTOR_DEFAULT).1 = false ∨
      ((wsf_parse_factor_str w (some s) WSF_FACTOR_DEFAULT).1 = true ∧
        wsf_factor_in_range (wsf_parse_factor_str w (some s) WSF_FACTOR_DEFAULT).2 = false))

/-- The valid value the override variable `name` holds, if it holds one: what
`wsf_env_factor` accepts. -/
def env_override (w : World) (name : String) : Option Double :=
  if (wsf_env_factor w name WSF_FACTOR_DEFAULT false).1 then
    some (wsf_env_factor w name WSF_FACTOR_DEFAULT false).2
  else none

/-- The world `w` with the environment variable `name` unset. -/
def World.unsetenv (w : World) (name : String) : World :=
  { w with getenv := fun n => if n = name then none else w.getenv n }

/-- The factor lies within [`WSF_FACTOR_MIN`, `WSF_FACTOR_MAX`]. -/
def InRange (factor : Double) : Prop :=
  WSF_FACTOR_MIN ≤ factor ∧ factor ≤ WSF_FACTOR_MAX

/-- The five recognized keys of the configuration store. -/
def recognized_keys : List c_string :=
  [KEY_FACTOR, KEY_SCROLL_VERTICAL_FACTOR, KEY_SCROLL_HORIZONTAL_FACTOR,
    KEY_PINCH_ZOOM_FACTOR, KEY_PINCH_ROTATE_FACTOR]

/-- The presence flag of a recognized key in the values read. -/
def wsf_config_values.has (v : wsf_config_values) (key : c_string) : Bool :=
  if key = KEY_FACTOR then v.has_factor
  else if key = KEY_SCROLL_VERTICAL_FACTOR then v.has_scroll_vertical
  else if key = KEY_SCROLL_HORIZONTAL_FACTOR then v.has_scroll_horizontal
  else if key = KEY_PINCH_ZOOM_FACTOR then v.has_pinch_zoom
  else if key = KEY_PINCH_ROTATE_FACTOR then v.has_pinch_rotate
  else false

/-- The value of a recognized key in the values read. -/
def wsf_config_values.value (v : wsf_config_values) (key : c_string) : Double :=
  if key = KEY_FACTOR then v.factor
  else if key = KEY_SCROLL_VERTICAL_FACTOR then v.scroll_vertical_factor
  else if key = KEY_SCROLL_HORIZONTAL_FACTOR then v.scroll_horizontal_factor
  else if key = KEY_PINCH_ZOOM_FACTOR then v.pinch_zoom_factor
  else if key = KEY_PINCH_ROTATE_FACTOR then v.pinch_rotate_factor
  else WSF_FACTOR_DEFAULT

/-- The value the line validly gives to `key`, when the line is an entry for `key` whose
value parses and is within [0.05, 5.0]. -/
def entry_value (w : World) (key : c_string) (line : List Char) : Option Double :=
  match wsf_config_read_key_value line with
  | none => none
  | some (k, value) =>
    if k = key ∧ (wsf_parse_factor_str w (some value) 0).1 = true ∧
        wsf_factor_in_range (wsf_parse_factor_str w (some value) 0).2 = true then
      some (wsf_parse_factor_str w (some value) 0).2
    else none

/-- The line is an entry for `key` whose value is unparsable or outside [0.05, 5.0]. -/
def bad_entry (w : World) (key : c_string) (line : List Char) : Bool :=
  match wsf_config_read_key_value line with
  | none => false
  | some (k, value) =>
    decide (k = key) &&
      !((wsf_parse_factor_str w (some value) 0).1 &&
        wsf_factor_in_range (wsf_parse_factor_str w (some value) 0).2)

/-! ## Sample environments -/

/-- A library exporting all nine symbols: every scroll accessor reports 10, the gesture
scale 3/2, the angle delta 4; the base event of a pointer event sits at the same
address, the event at address `a` has type `400 + a`, every axis source is finger. -/
def sample_next : (s : Symbol) → dl_result s.fn
  | .scroll_value => .symbol (fun _ _ => 10)
  | .scroll_value_v120 => .symbol (fun _ _ => 10)
  | .axis_value => .symbol (fun _ _ => 10)
  | .axis_value_discrete => .symbol (fun _ _ => 10)
  | .axis_source => .symbol (fun _ => WSF_AXIS_SOURCE_FINGER)
  | .base_event => .symbol (fun event => event)
  | .event_type => .symbol (fun base => 400 + (base : Int))
  | .gesture_scale => .symbol (fun _ => 3 / 2)
  | .gesture_angle_delta => .symbol (fun _ => 4)

/-- The process `niri` with that library, debugging on, vertical factor 2, horizontal 3,
pinch zoom 1/2, pinch rotate 4. -/
def sample_host : Host :=
  { dlsym := sample_next
    wsf_debug_enabled := true
    wsf_effective_factors := fun _ =>
      (.WSF_CONFIG_OK,
        { scroll_vertical := 2, scroll_horizontal := 3, pinch_zoom := 1 / 2, pinch_rotate := 4,
          used_legacy_factor := false })
    wsf_proc_is_target := fun target => target == "niri"
    wsf_proc_name := some "niri" }

/-- The same process when the next object exports none of the nine symbols. -/
def bare_host : Host :=
  { sample_host with dlsym := fun _ => .error "undefined symbol" }

/-- Another process (`sway`) with the sample library and the same factors. -/
def other_host : Host :=
  { sample_host with
    wsf_proc_is_target := fun target => target == "sway"
    wsf_proc_name := some "sway" }

/-- The sample process when the library reports the gesture scale 1/10 and the
pinch-zoom factor is 5. -/
def shrink_host : Host :=
  { sample_host with
    dlsym := fun s =>
      match s with
      | .gesture_scale => .symbol (fun _ => 1 / 10)
      | s => sample_next s
    wsf_effective_factors := fun _ =>
      (.WSF_CONFIG_OK,
        { scroll_vertical := 1, scroll_horizontal := 1, pinch_zoom := 5, pinch_rotate := 1,
          used_legacy_factor := false }) }

/-- The sample process when the pinch-zoom factor is 2 (raw gesture scale 3/2). -/
def zoom_host : Host :=
  { sample_host with
    wsf_effective_factors := fun _ =>
      (.WSF_CONFIG_OK,
        { scroll_vertical := 1, scroll_horizontal := 1, pinch_zoom := 2, pinch_rotate := 1,
          used_legacy_factor := false }) }

/-- Reads the leading decimal digits of `s` onto the number `acc`: the number read, how
many digits it took, and what follows them. -/
def read_digits : List Char → Nat → Nat × Nat × List Char
  | [], acc => (acc, 0, [])
  | c :: rest, acc =>
    if c.isDigit then
      let r := read_digits rest (10 * acc + (c.toNat - 48))
      (r.1, r.2.1 + 1, r.2.2)
    else (acc, 0, c :: rest)

/-- A `strtod` for plain decimal literals: blanks, an optional sign, digits with an
optional fraction.  Exponents, hexadecimal literals, `inf` and `nan` are not read, and
no literal is out of range. -/
def strtod_decimal (input : c_string) : strtod_result :=
  let s := input.dropWhile isspace
  let blanks := input.length - s.length
  let negative := s.head? == some '-'
  let signed := s.head? == some '-' || s.head? == some '+'
  let s := if signed then s.drop 1 else s
  let i := read_digits s 0
  let f := if i.2.2.head? == some '.' then read_digits (i.2.2.drop 1) i.1 else (i.1, 0, i.2.2)
  let dot := if i.2.2.head? == some '.' then 1 else 0
  if i.2.1 + f.2.1 == 0 then { value := 0, consumed := 0, erange := false }
  else
    { value := mkRat (if negative then -(f.1 : Int) else f.1) (10 ^ f.2.1)
      consumed := blanks + (if signed then 1 else 0) + i.2.1 + dot + f.2.1
      erange := false }

/-- A world with home directory `/home/u`, the given environment on top of it, the given
store at the configuration path, and `strtod_decimal`. -/
def sample_world (env : String → Option c_string) (store : fopen_result) : World :=
  { getenv := fun name => if name == "HOME" then some "/home/u".toList else env name
    fopen_r := fun path =>
      if path == "/home/u/.config/wayland-scroll-factor/config".toList then store
      else .enoent
    strtod := strtod_decimal }

/-- The environment that sets the one variable `name` to `value`. -/
def setenv (name : String) (value : String) : String → Option c_string :=
  fun n => if n == name then some value.toList else none

/-- The empty environment. -/
def no_env : String → Option c_string :=
  fun _ => none

/-! ## Call sequences -/

/-- An entry into the module made by the host process, with its arguments: the load-time
constructor or one of the six interposed functions. -/
inductive Call
  | init
  | axis_value (event : libinput_event_pointer) (axis : wsf_axis_t)
  | axis_value_discrete (event : libinput_event_pointer) (axis : wsf_axis_t)
  | scroll_value (event : libinput_event_pointer) (axis : wsf_axis_t)
  | scroll_value_v120 (event : libinput_event_pointer) (axis : wsf_axis_t)
  | gesture_scale (event : libinput_event_gesture)
  | gesture_angle_delta (event : libinput_event_gesture)

/-- The state the call leaves, the environment answering as `h` while it runs. -/
def Call.run (h : Host) (st : State) : Call → State
  | .init => wsf_init h st
  | .axis_value event axis => (libinput_event_pointer_get_axis_value h st event axis).2
  | .axis_value_discrete event axis =>
    (libinput_event_pointer_get_axis_value_discrete h st event axis).2
  | .scroll_value event axis => (libinput_event_pointer_get_scroll_value h st event axis).2
  | .scroll_value_v120 event axis =>
    (libinput_event_pointer_get_scroll_value_v120 h st event axis).2
  | .gesture_scale event => (libinput_event_gesture_get_scale h st event).2
  | .gesture_angle_delta event => (libinput_event_gesture_get_angle_delta h st event).2

/-- The state a sequence of calls leaves, each call with the environment of its time. -/
def run_calls (st : State) : List (Host × Call) → State
  | [] => st
  | (h, c) :: rest => run_calls (c.run h st) rest

/-- What initialization installs: the activation flag, the four factors, and the
`wsf_init_done` flag. -/
def State.settings (st : State) : Bool × Double × Double × Double × Double × Bool :=
  (st.wsf_active, st.wsf_scroll_vertical_factor, st.wsf_scroll_horizontal_factor,
    st.wsf_pinch_zoom_factor, st.wsf_pinch_rotate_factor, st.wsf_init_done)

/-! ## Vocabulary of the statements on the symbol cache and the store -/

/-- The cached pointer of a symbol. -/
def State.cached (st : State) : (s : Symbol) → Option s.fn
  | .scroll_value => st.wsf_real_scroll_value
  | .scroll_value_v120 => st.wsf_real_scroll_value_v120
  | .axis_value => st.wsf_real_axis_value
  | .axis_value_discrete => st.wsf_real_axis_value_discrete
  | .axis_source => st.wsf_real_axis_source
  | .base_event => st.wsf_real_base_event
  | .event_type => st.wsf_real_event_type
  | .gesture_scale => st.wsf_real_gesture_scale
  | .gesture_angle_delta => st.wsf_real_gesture_angle_delta

/-- Number of dynamic lookups of the symbol `s` recorded in a trace. -/
def lookups (s : Symbol) (t : List Effect) : Nat :=
  t.count (.dlsym s)

/-- The seven diagnostics guarded by a `wsf_logged_missing_*` flag. -/
inductive Missing
  | scroll
  | scroll_v120
  | axis_value
  | axis_value_discrete
  | axis_source
  | gesture_scale
  | gesture_angle
  deriving DecidableEq

/-- The line each of them writes. -/
def Missing.fmt : Missing → String
  | .scroll => "scroll_value symbol missing; returning 0"
  | .scroll_v120 => "scroll_value_v120 symbol missing; returning 0"
  | .axis_value => "axis_value symbol missing; returning 0"
  | .axis_value_discrete => "axis_value_discrete symbol missing; returning 0"
  | .axis_source => "axis_source symbol missing; scroll scaling disabled"
  | .gesture_scale => "gesture scale symbol missing; returning 1.0"
  | .gesture_angle => "gesture angle symbol missing; returning 0"

/-- The flag that guards each of them. -/
def Missing.logged (st : State) : Missing → Bool
  | .scroll => st.wsf_logged_missing_scroll
  | .scroll_v120 => st.wsf_logged_missing_scroll_v120
  | .axis_value => st.wsf_logged_missing_axis_value
  | .axis_value_discrete => st.wsf_logged_missing_axis_value_discrete
  | .axis_source => st.wsf_logged_missing_axis_source
  | .gesture_scale => st.wsf_logged_missing_gesture_scale
  | .gesture_angle => st.wsf_logged_missing_gesture_angle

/-- Number of times the diagnostic `m` was written, according to a trace. -/
def emitted (m : Missing) (t : List Effect) : Nat :=
  t.count (.stderr m.fmt [])

/-- The diagnostic `m` was written at most once, and not at all while its flag is
clear. -/
def OneShot (m : Missing) (st : State) : Prop :=
  emitted m st.trace ≤ 1 ∧ (m.logged st = false → emitted m st.trace = 0)

/-- The state `st'` comes from `st` by steps made under the environment `h` after
initialization: same settings and debug flag, a cached pointer changes only from NULL to
what the lookup finds, no lookup is made for a symbol already cached, and the one-shot
diagnostics stay one-shot. -/
def Evolves (h : Host) (st st' : State) : Prop :=
  st'.settings = st.settings ∧ st'.wsf_debug = st.wsf_debug ∧
  (∀ s, st'.cached s = st.cached s ∨
    (st.cached s = none ∧ st'.cached s = (h.dlsym s).address)) ∧
  (∀ s, st.cached s ≠ none → lookups s st'.trace = lookups s st.trace) ∧
  (∀ m, OneShot m st → OneShot m st')

/-- Number of times `wsf_load_symbol` reported the symbol `s` as not found with the
message `msg`, according to a trace. -/
def not_found (s : Symbol) (msg : String) (t : List Effect) : Nat :=
  t.count (.stderr "symbol %s not found: %s" [.str s.name, .str msg])

/-- The loop of `wsf_config_read` has nothing to take from the line: it is blank, its
first non-blank character is `#`, it has no `=`, or its key is none of the recognized
ones. -/
def IgnoredLine (line : List Char) : Prop :=
  (∀ c ∈ c_str line, isspace c = true) ∨
  ((c_str line).dropWhile isspace).head? = some '#' ∨
  '=' ∉ c_str line ∨
  ∃ key value, wsf_config_read_key_value line = some (key, value) ∧ key ∉ recognized_keys

/-- The symbol an entry point forwards to; `wsf_init` forwards to none. -/
def Call.symbol : Call → Option Symbol
  | .init => none
  | .axis_value _ _ => some .axis_value
  | .axis_value_discrete _ _ => some .axis_value_discrete
  | .scroll_value _ _ => some .scroll_value
  | .scroll_value_v120 _ _ => some .scroll_value_v120
  | .gesture_scale _ => some .gesture_scale
  | .gesture_angle_delta _ => some .gesture_angle_delta

/-- The value the lines of a store give to `key`: that of the last line that validly
gives it one, if there is such a line. -/
def store_value (w : World) (key : c_string) (lines : List (List Char)) : Option Double :=
  (lines.filterMap (entry_value w key)).getLast?

/-! ## Sample worlds -/

/-- The world `w` whose configuration store holds the lines `lines`. -/
def World.with_store (w : World) (lines : List (List Char)) : World :=
  { w with fopen_r := fun _ => .stream lines }

/-- The host `h` when its configuration module runs in the world `w`. -/
def host_in (w : World) (h : Host) : Host :=
  { h with
    wsf_debug_enabled := wsf_debug_enabled w
    wsf_effective_factors := wsf_effective_factors_fn w }

/-- Store `scroll_vertical_factor=2.0`, environment `WSF_FACTOR=3.0`. -/
def legacy_override_world : World :=
  sample_world (setenv "WSF_FACTOR" "3.0") (.stream ["scroll_vertical_factor=2.0\n".toList])

/-- Store `factor=1.5`, no override. -/
def legacy_key_world : World :=
  sample_world no_env (.stream ["factor=1.5\n".toList])

/-- Store `factor=1.5`, environment setting the one variable `name` to `0.5`. -/
def specific_override_world (name : String) : World :=
  sample_world (setenv name "0.5") (.stream ["factor=1.5\n".toList])

/-- Store `scroll_vertical_factor=2.0`, environment `WSF_FACTOR=9.9`. -/
def invalid_override_world : World :=
  sample_world (setenv "WSF_FACTOR" "9.9") (.stream ["scroll_vertical_factor=2.0\n".toList])

/-- Store `pinch_zoom_factor=9.9`, no override. -/
def invalid_store_world : World :=
  sample_world no_env (.stream ["pinch_zoom_factor=9.9\n".toList])

/-- Store `pinch_zoom_factor=2.0` then `pinch_zoom_factor=9.9`, no override. -/
def repeated_key_world : World :=
  sample_world no_env
    (.stream ["pinch_zoom_factor=2.0\n".toList, "pinch_zoom_factor=9.9\n".toList])

/-- No `HOME`, environment `WSF_FACTOR=3.0`, and `strtod_decimal`. -/
def no_home_world : World :=
  { getenv := setenv "WSF_FACTOR" "3.0"
    fopen_r := fun _ => .enoent
    strtod := strtod_decimal }

/-- Store holding the one comment line `# scroll settings`, no override. -/
def comment_only_world : World :=
  sample_world no_env (.stream ["# scroll settings\n".toList])

/-- Store `# scroll settings` then `factor=1.5`, no override. -/
def commented_store_world : World :=
  sample_world no_env (.stream ["# scroll settings\n".toList, "factor=1.5\n".toList])

/-- A disk where both directories exist, the file opens, and `%.4f` of the factors used
in the samples prints as below. -/
def sample_disk : Disk :=
  { mkdir := fun _ => .eexist
    fopen_w := fun _ => true
    format_4f := fun x => if x = 2 then "2.0000".toList else "1.0000".toList }

/-- An update asking for pinch zoom 2 (valid) and pinch rotate 9 (out of range). -/
def mixed_update : wsf_config_values :=
  { wsf_config_values_init with
    pinch_zoom_factor := 2
    has_pinch_zoom := true
    pinch_rotate_factor := 9
    has_pinch_rotate := true }

/-! ## Auxiliary lemmas -/

theorem wsf_load_symbol_fst (h : Host) (s : Symbol) (st : State) :
    (wsf_load_symbol h s st).1 = (h.dlsym s).address := by
  unfold wsf_load_symbol
  cases h.dlsym s <;> rfl

/-- `wsf_load_symbol` writes to the trace only. -/
theorem wsf_load_symbol_snd (h : Host) (s : Symbol) (st : State) :
    ∃ t, (wsf_load_symbol h s st).2 = { st with trace := t } := by
  unfold wsf_load_symbol wsf_debug_log State.emit
  cases h.dlsym s <;> simp only [] <;> (try split) <;> exact ⟨_, rfl⟩

theorem wsf_debug_log_eq (fmt : String) (args : List LogArg) (st : State) :
    ∃ t, wsf_debug_log fmt args st = { st with trace := t } := by
  unfold wsf_debug_log State.emit
  split <;> exact ⟨_, rfl⟩

/-- Frame of `wsf_load_symbol`: every C variable keeps its value. -/
theorem wsf_load_symbol_frame (h : Host) (s : Symbol) (st : State) :
    (wsf_load_symbol h s st).2.wsf_real_scroll_value = st.wsf_real_scroll_value ∧
    (wsf_load_symbol h s st).2.wsf_real_scroll_value_v120 = st.wsf_real_scroll_value_v120 ∧
    (wsf_load_symbol h s st).2.wsf_real_axis_value = st.wsf_real_axis_value ∧
    (wsf_load_symbol h s st).2.wsf_real_axis_value_discrete = st.wsf_real_axis_value_discrete ∧
    (wsf_load_symbol h s st).2.wsf_real_axis_source = st.wsf_real_axis_source ∧
    (wsf_load_symbol h s st).2.wsf_real_gesture_scale = st.wsf_real_gesture_scale ∧
    (wsf_load_symbol h s st).2.wsf_real_gesture_angle_delta = st.wsf_real_gesture_angle_delta ∧
    (wsf_load_symbol h s st).2.wsf_real_base_event = st.wsf_real_base_event ∧
    (wsf_load_symbol h s st).2.wsf_real_event_type = st.wsf_real_event_type ∧
    (wsf_load_symbol h s st).2.wsf_debug = st.wsf_debug ∧
    (wsf_load_symbol h s st).2.wsf_active = st.wsf_active ∧
    (wsf_load_symbol h s st).2.wsf_scroll_vertical_factor = st.wsf_scroll_vertical_factor ∧
    (wsf_load_symbol h s st).2.wsf_scroll_horizontal_factor = st.wsf_scroll_horizontal_factor ∧
    (wsf_load_symbol h s st).2.wsf_pinch_zoom_factor = st.wsf_pinch_zoom_factor ∧
    (wsf_load_symbol h s st).2.wsf_pinch_rotate_factor = st.wsf_pinch_rotate_factor ∧
    (wsf_load_symbol h s st).2.wsf_init_done = st.wsf_init_done ∧
    (wsf_load_symbol h s st).2.wsf_logged_missing_scroll = st.wsf_logged_missing_scroll ∧
    (wsf_load_symbol h s st).2.wsf_logged_missing_scroll_v120 = st.wsf_logged_missing_scroll_v120 ∧
    (wsf_load_symbol h s st).2.wsf_logged_missing_axis_value = st.wsf_logged_missing_axis_value ∧
    (wsf_load_symbol h s st).2.wsf_logged_missing_axis_value_discrete = st.wsf_logged_missing_axis_value_discrete ∧
    (wsf_load_symbol h s st).2.wsf_logged_missing_axis_source = st.wsf_logged_missing_axis_source ∧
    (wsf_load_symbol h s st).2.wsf_logged_missing_gesture_scale = st.wsf_logged_missing_gesture_scale ∧
    (wsf_load_symbol h s st).2.wsf_logged_missing_gesture_angle = st.wsf_logged_missing_gesture_angle := by
  obtain ⟨t, ht⟩ := wsf_load_symbol_snd h s st
  rw [ht]
  exact ⟨rfl, rfl, rfl, rfl, rfl, rfl, rfl, rfl, rfl, rfl, rfl, rfl, rfl, rfl, rfl, rfl, rfl, rfl, rfl, rfl, rfl, rfl, rfl⟩

/-- Frame of `wsf_debug_log`: every C variable keeps its value. -/
theorem wsf_debug_log_frame (fmt : String) (args : List LogArg) (st : State) :
    (wsf_debug_log fmt args st).wsf_real_scroll_value = st.wsf_real_scroll_value ∧
    (wsf_debug_log fmt args st).wsf_real_scroll_value_v120 = st.wsf_real_scroll_value_v120 ∧
    (wsf_debug_log fmt args st).wsf_real_axis_value = st.wsf_real_axis_value ∧
    (wsf_debug_log fmt args st).wsf_real_axis_value_discrete = st.wsf_real_axis_value_discrete ∧
    (wsf_debug_log fmt args st).wsf_real_axis_source = st.wsf_real_axis_source ∧
    (wsf_debug_log fmt args st).wsf_real_gesture_scale = st.wsf_real_gesture_scale ∧
    (wsf_debug_log fmt args st).wsf_real_gesture_angle_delta = st.wsf_real_gesture_angle_delta ∧
    (wsf_debug_log fmt args st).wsf_real_base_event = st.wsf_real_base_event ∧
    (wsf_debug_log fmt args st).wsf_real_event_type = st.wsf_real_event_type ∧
    (wsf_debug_log fmt args st).wsf_debug = st.wsf_debug ∧
    (wsf_debug_log fmt args st).wsf_active = st.wsf_active ∧
    (wsf_debug_log fmt args st).wsf_scroll_vertical_factor = st.wsf_scroll_vertical_factor ∧
    (wsf_debug_log fmt args st).wsf_scroll_horizontal_factor = st.wsf_scroll_horizontal_factor ∧
    (wsf_debug_log fmt args st).wsf_pinch_zoom_factor = st.wsf_pinch_zoom_factor ∧
    (wsf_debug_log fmt args st).wsf_pinch_rotate_factor = st.wsf_pinch_rotate_factor ∧
    (wsf_debug_log fmt args st).wsf_init_done = st.wsf_init_done ∧
    (wsf_debug_log fmt args st).wsf_logged_missing_scroll = st.wsf_logged_missing_scroll ∧
    (wsf_debug_log fmt args st).wsf_logged_missing_scroll_v120 = st.wsf_logged_missing_scroll_v120 ∧
    (wsf_debug_log fmt args st).wsf_logged_missing_axis_value = st.wsf_logged_missing_axis_value ∧
    (wsf_debug_log fmt args st).wsf_logged_missing_axis_value_discrete = st.wsf_logged_missing_axis_value_discrete ∧
    (wsf_debug_log fmt args st).wsf_logged_missing_axis_source = st.wsf_logged_missing_axis_source ∧
    (wsf_debug_log fmt args st).wsf_logged_missing_gesture_scale = st.wsf_logged_missing_gesture_scale ∧
    (wsf_debug_log fmt args st).wsf_logged_missing_gesture_angle = st.wsf_logged_missing_gesture_angle := by
  obtain ⟨t, ht⟩ := wsf_debug_log_eq fmt args st
  rw [ht]
  exact ⟨rfl, rfl, rfl, rfl, rfl, rfl, rfl, rfl, rfl, rfl, rfl, rfl, rfl, rfl, rfl, rfl, rfl, rfl, rfl, rfl, rfl, rfl, rfl⟩

theorem by_source_fst (h : Host) (st : State) (event : libinput_event_pointer) :
    (wsf_should_scale_scroll_by_source h st event).1 =
      match resolve h .axis_source st.wsf_real_axis_source with
      | none => false
      | some real =>
        (real event == WSF_AXIS_SOURCE_FINGER || real event == WSF_AXIS_SOURCE_CONTINUOUS) := by
  unfold wsf_should_scale_scroll_by_source resolve
  obtain ⟨t, ht⟩ := wsf_load_symbol_snd h .axis_source st
  cases hc : st.wsf_real_axis_source with
  | some f => simp [hc]; split <;> simp_all
  | none =>
    simp only [hc, Option.isNone_none, if_true, wsf_load_symbol_fst]
    cases hd : (h.dlsym Symbol.axis_source).address with
    | none => simp
    | some f => simp; split <;> simp_all

theorem by_source_congr (h : Host) (st st' : State) (event : libinput_event_pointer)
    (hs : st'.wsf_real_axis_source = st.wsf_real_axis_source) :
    (wsf_should_scale_scroll_by_source h st' event).1 =
      (wsf_should_scale_scroll_by_source h st event).1 := by
  rw [by_source_fst, by_source_fst, hs]

theorem should_scale_fst (h : Host) (st : State) (event : libinput_event_pointer)
    (factor : Double) :
    (wsf_should_scale_scroll h st event factor).1 =
      if !st.wsf_active || factor == 1 then false
      else
        match resolve h .base_event st.wsf_real_base_event,
          resolve h .event_type st.wsf_real_event_type with
        | some real_base_event, some real_event_type =>
          if real_base_event event != 0 then
            if real_event_type (real_base_event event) == WSF_EVENT_POINTER_SCROLL_WHEEL then
              false
            else if real_event_type (real_base_event event) == WSF_EVENT_POINTER_SCROLL_FINGER ||
                real_event_type (real_base_event event) == WSF_EVENT_POINTER_SCROLL_CONTINUOUS then
              true
            else if real_event_type (real_base_event event) != WSF_EVENT_POINTER_AXIS then false
            else (wsf_should_scale_scroll_by_source h st event).1
          else (wsf_should_scale_scroll_by_source h st event).1
        | _, _ => (wsf_should_scale_scroll_by_source h st event).1 := by
  unfold wsf_should_scale_scroll
  by_cases hg : (!st.wsf_active || factor == 1) = true
  · simp only [hg, if_true]
  · simp only [hg, if_false]
    cases hb : st.wsf_real_base_event <;> cases he : st.wsf_real_event_type <;>
      simp only [resolve, Option.isNone_none, Option.isNone_some, if_true, if_false,
        wsf_load_symbol_fst, wsf_load_symbol_frame, State.emit, Bool.false_eq_true, hb, he]
    all_goals (try (cases hdb : (h.dlsym Symbol.base_event).address))
    all_goals (try (cases hde : (h.dlsym Symbol.event_type).address))
    all_goals try simp only []
    all_goals
      (try split_ifs) <;>
        first
        | rfl
        | exact by_source_congr h st _ event (by simp only [wsf_load_symbol_frame])

theorem should_scale_congr (h : Host) (st st' : State) (event : libinput_event_pointer)
    (factor : Double) (ha : st'.wsf_active = st.wsf_active)
    (hb : st'.wsf_real_base_event = st.wsf_real_base_event)
    (he : st'.wsf_real_event_type = st.wsf_real_event_type)
    (hs : st'.wsf_real_axis_source = st.wsf_real_axis_source) :
    (wsf_should_scale_scroll h st' event factor).1 =
      (wsf_should_scale_scroll h st event factor).1 := by
  rw [should_scale_fst, should_scale_fst, by_source_congr h st st' event hs, ha, hb, he]

theorem axis_value_fst (h : Host) (st : State) (event : libinput_event_pointer)
    (axis : wsf_axis_t) :
    (libinput_event_pointer_get_axis_value h st event axis).1 =
      match resolve h .axis_value (wsf_ensure_init h st).wsf_real_axis_value with
      | none => 0
      | some real =>
        if !(wsf_should_scale_scroll h (wsf_ensure_init h st) event
            (wsf_scroll_factor_for_axis (wsf_ensure_init h st) axis)).1 then real event axis
        else real event axis * wsf_scroll_factor_for_axis (wsf_ensure_init h st) axis := by
  unfold libinput_event_pointer_get_axis_value
  generalize wsf_ensure_init h st = st1
  cases hc : st1.wsf_real_axis_value <;>
    simp only [resolve, Option.isNone_none, Option.isNone_some, if_true, if_false,
      wsf_load_symbol_fst, wsf_load_symbol_frame, State.emit, Bool.false_eq_true, hc]
  · cases hd : (h.dlsym Symbol.axis_value).address
    · simp only []
    · simp only [wsf_scroll_factor_for_axis]
      rw [should_scale_congr h st1] <;> first | rfl | (split_ifs <;> rfl)
  · simp only [wsf_scroll_factor_for_axis]
    rw [should_scale_congr h st1] <;> first | rfl | (split_ifs <;> rfl)

theorem axis_value_discrete_fst (h : Host) (st : State) (event : libinput_event_pointer)
    (axis : wsf_axis_t) :
    (libinput_event_pointer_get_axis_value_discrete h st event axis).1 =
      match resolve h .axis_value_discrete (wsf_ensure_init h st).wsf_real_axis_value_discrete with
      | none => 0
      | some real =>
        if !(wsf_should_scale_scroll h (wsf_ensure_init h st) event
            (wsf_scroll_factor_for_axis (wsf_ensure_init h st) axis)).1 then real event axis
        else real event axis * wsf_scroll_factor_for_axis (wsf_ensure_init h st) axis := by
  unfold libinput_event_pointer_get_axis_value_discrete
  generalize wsf_ensure_init h st = st1
  cases hc : st1.wsf_real_axis_value_discrete <;>
    simp only [resolve, Option.isNone_none, Option.isNone_some, if_true, if_false,
      wsf_load_symbol_fst, wsf_load_symbol_frame, State.emit, Bool.false_eq_true, hc]
  · cases hd : (h.dlsym Symbol.axis_value_discrete).address
    · simp only []
    · simp only [wsf_scroll_factor_for_axis]
      rw [should_scale_congr h st1] <;> first | rfl | (split_ifs <;> rfl)
  · simp only [wsf_scroll_factor_for_axis]
    rw [should_scale_congr h st1] <;> first | rfl | (split_ifs <;> rfl)

theorem scroll_value_fst (h : Host) (st : State) (event : libinput_event_pointer)
    (axis : wsf_axis_t) :
    (libinput_event_pointer_get_scroll_value h st event axis).1 =
      match resolve h .scroll_value (wsf_ensure_init h st).wsf_real_scroll_value with
      | none => 0
      | some real =>
        if !(wsf_should_scale_scroll h (wsf_ensure_init h st) event
            (wsf_scroll_factor_for_axis (wsf_ensure_init h st) axis)).1 then real event axis
        else real event axis * wsf_scroll_factor_for_axis (wsf_ensure_init h st) axis := by
  unfold libinput_event_pointer_get_scroll_value
  generalize wsf_ensure_init h st = st1
  cases hc : st1.wsf_real_scroll_value <;>
    simp only [resolve, Option.isNone_none, Option.isNone_some, if_true, if_false,
      wsf_load_symbol_fst, wsf_load_symbol_frame, State.emit, Bool.false_eq_true, hc]
  · cases hd : (h.dlsym Symbol.scroll_value).address
    · simp only []
    · simp only [wsf_scroll_factor_for_axis]
      rw [should_scale_congr h st1] <;> first | rfl | (split_ifs <;> rfl)
  · simp only [wsf_scroll_factor_for_axis]
    rw [should_scale_congr h st1] <;> first | rfl | (split_ifs <;> rfl)

theorem scroll_value_v120_fst (h : Host) (st : State) (event : libinput_event_pointer)
    (axis : wsf_axis_t) :
    (libinput_event_pointer_get_scroll_value_v120 h st event axis).1 =
      match resolve h .scroll_value_v120 (wsf_ensure_init h st).wsf_real_scroll_value_v120 with
      | none => 0
      | some real =>
        if !(wsf_should_scale_scroll h (wsf_ensure_init h st) event
            (wsf_scroll_factor_for_axis (wsf_ensure_init h st) axis)).1 then real event axis
        else real event axis * wsf_scroll_factor_for_axis (wsf_ensure_init h st) axis := by
  unfold libinput_event_pointer_get_scroll_value_v120
  generalize wsf_ensure_init h st = st1
  cases hc : st1.wsf_real_scroll_value_v120 <;>
    simp only [resolve, Option.isNone_none, Option.isNone_some, if_true, if_false,
      wsf_load_symbol_fst, wsf_load_symbol_frame, State.emit, Bool.false_eq_true, hc]
  · cases hd : (h.dlsym Symbol.scroll_value_v120).address
    · simp only []
    · simp only [wsf_scroll_factor_for_axis]
      rw [should_scale_congr h st1] <;> first | rfl | (split_ifs <;> rfl)
  · simp only [wsf_scroll_factor_for_axis]
    rw [should_scale_congr h st1] <;> first | rfl | (split_ifs <;> rfl)

theorem gesture_scale_fst (h : Host) (st : State) (event : libinput_event_gesture) :
    (libinput_event_gesture_get_scale h st event).1 =
      match resolve h .gesture_scale (wsf_ensure_init h st).wsf_real_gesture_scale with
      | none => 1
      | some real =>
        if !(wsf_ensure_init h st).wsf_active ||
            (wsf_ensure_init h st).wsf_pinch_zoom_factor == 1 then real event
        else 1 + (real event - 1) * (wsf_ensure_init h st).wsf_pinch_zoom_factor := by
  unfold libinput_event_gesture_get_scale
  generalize wsf_ensure_init h st = st1
  cases hc : st1.wsf_real_gesture_scale <;>
    simp only [resolve, Option.isNone_none, Option.isNone_some, if_true, if_false,
      wsf_load_symbol_fst, wsf_load_symbol_frame, State.emit, Bool.false_eq_true, hc]
  · cases hd : (h.dlsym Symbol.gesture_scale).address
    · simp only []
    · simp only []
      split_ifs <;> rfl
  · split_ifs <;> rfl

theorem gesture_angle_delta_fst (h : Host) (st : State) (event : libinput_event_gesture) :
    (libinput_event_gesture_get_angle_delta h st event).1 =
      match resolve h .gesture_angle_delta
        (wsf_ensure_init h st).wsf_real_gesture_angle_delta with
      | none => 0
      | some real =>
        if !(wsf_ensure_init h st).wsf_active ||
            (wsf_ensure_init h st).wsf_pinch_rotate_factor == 1 then real event
        else real event * (wsf_ensure_init h st).wsf_pinch_rotate_factor := by
  unfold libinput_event_gesture_get_angle_delta
  generalize wsf_ensure_init h st = st1
  cases hc : st1.wsf_real_gesture_angle_delta <;>
    simp only [resolve, Option.isNone_none, Option.isNone_some, if_true, if_false,
      wsf_load_symbol_fst, wsf_load_symbol_frame, State.emit, Bool.false_eq_true, hc]
  · cases hd : (h.dlsym Symbol.gesture_angle_delta).address
    · simp only []
    · simp only []
      split_ifs <;> rfl
  · split_ifs <;> rfl

theorem resolved_iff (h : Host) (s : Symbol) (cached : Option s.fn) (real : s.fn) :
    Resolved h s cached real ↔ resolve h s cached = some real := by
  unfold Resolved resolve
  cases cached with
  | some f => simp
  | none =>
    cases hd : h.dlsym s <;> simp [dl_result.address]

theorem unresolved_iff (h : Host) (s : Symbol) (cached : Option s.fn) :
    Unresolved h s cached ↔ resolve h s cached = none := by
  unfold Unresolved resolve
  cases cached with
  | some f => simp
  | none =>
    cases hd : h.dlsym s <;> simp [dl_result.address]

theorem wsf_init_report_rest_eq (st : State) :
    ∃ t, wsf_init_report_rest st = { st with trace := t } := by
  unfold wsf_init_report_rest
  simp only [wsf_debug_log, State.emit]
  split_ifs <;> exact ⟨_, rfl⟩

theorem wsf_init_report_eq (h : Host) (S : State) :
    ∃ t, (match h.wsf_proc_name with
    | some proc_name =>
      wsf_init_report_rest (wsf_debug_log
        "init: process=%s active=%s scroll_vertical=%.4f scroll=%s v120=%s"
        [.str proc_name, yes_no S.wsf_active, .dbl S.wsf_scroll_vertical_factor,
          yes_no S.wsf_real_scroll_value.isSome,
          yes_no S.wsf_real_scroll_value_v120.isSome] S)
    | none =>
      wsf_init_report_rest (wsf_debug_log
        "init: process=unknown active=%s scroll_vertical=%.4f scroll=%s v120=%s"
        [yes_no S.wsf_active, .dbl S.wsf_scroll_vertical_factor,
          yes_no S.wsf_real_scroll_value.isSome,
          yes_no S.wsf_real_scroll_value_v120.isSome] S)) = { S with trace := t } := by
  cases h.wsf_proc_name <;> simp only [] <;>
  · obtain ⟨t, ht⟩ := wsf_init_report_rest_eq (wsf_debug_log _ _ S)
    obtain ⟨u, hu⟩ := wsf_debug_log_eq _ _ S
    rw [ht, hu]
    exact ⟨_, rfl⟩

/-- What a first initialization leaves in the C variables. -/
theorem wsf_init_internal_eq (h : Host) (st : State) (hd : st.wsf_init_done = false) :
    ∃ t, wsf_init_internal h st =
      { st with
        wsf_real_scroll_value := (h.dlsym .scroll_value).address
        wsf_real_scroll_value_v120 := (h.dlsym .scroll_value_v120).address
        wsf_real_axis_value := (h.dlsym .axis_value).address
        wsf_real_axis_value_discrete := (h.dlsym .axis_value_discrete).address
        wsf_real_axis_source := (h.dlsym .axis_source).address
        wsf_real_gesture_scale := (h.dlsym .gesture_scale).address
        wsf_real_gesture_angle_delta := (h.dlsym .gesture_angle_delta).address
        wsf_real_base_event := (h.dlsym .base_event).address
        wsf_real_event_type := (h.dlsym .event_type).address
        wsf_debug := h.wsf_debug_enabled
        wsf_active := h.wsf_proc_is_target "niri"
        wsf_scroll_vertical_factor :=
          (installed_factors (h.wsf_effective_factors h.wsf_debug_enabled)).scroll_vertical
        wsf_scroll_horizontal_factor :=
          (installed_factors (h.wsf_effective_factors h.wsf_debug_enabled)).scroll_horizontal
        wsf_pinch_zoom_factor :=
          (installed_factors (h.wsf_effective_factors h.wsf_debug_enabled)).pinch_zoom
        wsf_pinch_rotate_factor :=
          (installed_factors (h.wsf_effective_factors h.wsf_debug_enabled)).pinch_rotate
        wsf_init_done := true
        trace := t } := by
  unfold wsf_init_internal
  rw [if_neg (by simp [hd])]
  obtain ⟨t, ht⟩ := wsf_init_report_eq h _
  refine ⟨t, ht.trans ?_⟩
  simp only [wsf_load_symbol_fst, wsf_load_symbol_frame, State.emit, installed_factors]

/-! ## Lemmas shared by the claims -/

/-- A pointer that is NULL and whose lookup fails is still NULL once initialization is
ensured. -/
theorem wsf_ensure_init_unresolved (h : Host) (st : State) :
    (Unresolved h .axis_value st.wsf_real_axis_value →
      Unresolved h .axis_value (wsf_ensure_init h st).wsf_real_axis_value) ∧
    (Unresolved h .axis_value_discrete st.wsf_real_axis_value_discrete →
      Unresolved h .axis_value_discrete (wsf_ensure_init h st).wsf_real_axis_value_discrete) ∧
    (Unresolved h .scroll_value st.wsf_real_scroll_value →
      Unresolved h .scroll_value (wsf_ensure_init h st).wsf_real_scroll_value) ∧
    (Unresolved h .scroll_value_v120 st.wsf_real_scroll_value_v120 →
      Unresolved h .scroll_value_v120 (wsf_ensure_init h st).wsf_real_scroll_value_v120) ∧
    (Unresolved h .gesture_scale st.wsf_real_gesture_scale →
      Unresolved h .gesture_scale (wsf_ensure_init h st).wsf_real_gesture_scale) ∧
    (Unresolved h .gesture_angle_delta st.wsf_real_gesture_angle_delta →
      Unresolved h .gesture_angle_delta (wsf_ensure_init h st).wsf_real_gesture_angle_delta) := by
  unfold wsf_ensure_init
  cases hd : st.wsf_init_done
  · obtain ⟨t, ht⟩ := wsf_init_internal_eq h st hd
    simp only [Bool.not_false, if_true, ht, unresolved_iff, resolve]
    refine ⟨?_, ?_, ?_, ?_, ?_, ?_⟩ <;> intro hu <;> split at hu <;> simp_all
  · simp

/-- The classifier refuses as soon as the process is inactive or the factor is 1. -/
theorem should_scale_guard (h : Host) (st : State) (event : libinput_event_pointer)
    (factor : Double) (hg : st.wsf_active = false ∨ factor = 1) :
    wsf_should_scale_scroll h st event factor = (false, st) := by
  unfold wsf_should_scale_scroll
  rcases hg with hg | hg <;> simp [hg]

/-- In `bare_host` no symbol can be resolved from a NULL pointer. -/
theorem bare_host_unresolved (s : Symbol) : Unresolved bare_host s none :=
  ⟨rfl, fun _ hf => by simp [bare_host] at hf⟩

/-! ## The claims -/

/-- Claim C1. For each of the four scroll/axis entry points, every event and every axis:
when the classifier `wsf_should_scale_scroll`, asked in the state the call has once
initialization is ensured and with the factor of the requested axis, answers true, and
the backing symbol is resolved to `real`, the entry point returns `real event axis`
multiplied by the factor of the requested axis.  That factor is the vertical factor for
the vertical axis and the horizontal factor for the horizontal axis. -/
theorem scroll_entry_points_scale (h : Host) (st : State) (event : libinput_event_pointer)
    (axis : wsf_axis_t)
    (hscale : (wsf_should_scale_scroll h (wsf_ensure_init h st) event
      (wsf_scroll_factor_for_axis (wsf_ensure_init h st) axis)).1 = true) :
    (∀ real, Resolved h .axis_value (wsf_ensure_init h st).wsf_real_axis_value real →
      (libinput_event_pointer_get_axis_value h st event axis).1 =
        real event axis * wsf_scroll_factor_for_axis (wsf_ensure_init h st) axis) ∧
    (∀ real, Resolved h .axis_value_discrete
        (wsf_ensure_init h st).wsf_real_axis_value_discrete real →
      (libinput_event_pointer_get_axis_value_discrete h st event axis).1 =
        real event axis * wsf_scroll_factor_for_axis (wsf_ensure_init h st) axis) ∧
    (∀ real, Resolved h .scroll_value (wsf_ensure_init h st).wsf_real_scroll_value real →
      (libinput_event_pointer_get_scroll_value h st event axis).1 =
        real event axis * wsf_scroll_factor_for_axis (wsf_ensure_init h st) axis) ∧
    (∀ real, Resolved h .scroll_value_v120
        (wsf_ensure_init h st).wsf_real_scroll_value_v120 real →
      (libinput_event_pointer_get_scroll_value_v120 h st event axis).1 =
        real event axis * wsf_scroll_factor_for_axis (wsf_ensure_init h st) axis) ∧
    wsf_scroll_factor_for_axis (wsf_ensure_init h st) WSF_AXIS_SCROLL_VERTICAL =
      (wsf_ensure_init h st).wsf_scroll_vertical_factor ∧
    wsf_scroll_factor_for_axis (wsf_ensure_init h st) WSF_AXIS_SCROLL_HORIZONTAL =
      (wsf_ensure_init h st).wsf_scroll_horizontal_factor := by
  refine ⟨?_, ?_, ?_, ?_, rfl, rfl⟩
  · intro real hr
    rw [axis_value_fst, (resolved_iff _ _ _ _).1 hr]
    simp only [hscale, Bool.not_true, Bool.false_eq_true, if_false]
  · intro real hr
    rw [axis_value_discrete_fst, (resolved_iff _ _ _ _).1 hr]
    simp only [hscale, Bool.not_true, Bool.false_eq_true, if_false]
  · intro real hr
    rw [scroll_value_fst, (resolved_iff _ _ _ _).1 hr]
    simp only [hscale, Bool.not_true, Bool.false_eq_true, if_false]
  · intro real hr
    rw [scroll_value_v120_fst, (resolved_iff _ _ _ _).1 hr]
    simp only [hscale, Bool.not_true, Bool.false_eq_true, if_false]

/-- Witness of C1: a raw value 10 on a finger-scroll event, vertical factor 2, gives 20
(horizontal factor 3 gives 30). -/
theorem scroll_entry_points_scale_witness :
    (libinput_event_pointer_get_axis_value sample_host {} 5 WSF_AXIS_SCROLL_VERTICAL).1 = 20 ∧
    (libinput_event_pointer_get_axis_value_discrete sample_host {} 5
      WSF_AXIS_SCROLL_HORIZONTAL).1 = 30 ∧
    (libinput_event_pointer_get_scroll_value sample_host {} 5 WSF_AXIS_SCROLL_VERTICAL).1 = 20 ∧
    (libinput_event_pointer_get_scroll_value_v120 sample_host {} 5
      WSF_AXIS_SCROLL_VERTICAL).1 = 20 :=
  ⟨((scroll_entry_points_scale sample_host {} 5 WSF_AXIS_SCROLL_VERTICAL rfl).1
      (fun _ _ => 10) (Or.inl rfl)).trans (show (10 : ℚ) * 2 = 20 by norm_num),
   ((scroll_entry_points_scale sample_host {} 5 WSF_AXIS_SCROLL_HORIZONTAL rfl).2.1
      (fun _ _ => 10) (Or.inl rfl)).trans (show (10 : ℚ) * 3 = 30 by norm_num),
   ((scroll_entry_points_scale sample_host {} 5 WSF_AXIS_SCROLL_VERTICAL rfl).2.2.1
      (fun _ _ => 10) (Or.inl rfl)).trans (show (10 : ℚ) * 2 = 20 by norm_num),
   ((scroll_entry_points_scale sample_host {} 5 WSF_AXIS_SCROLL_VERTICAL rfl).2.2.2.1
      (fun _ _ => 10) (Or.inl rfl)).trans (show (10 : ℚ) * 2 = 20 by norm_num)⟩

/-- Claim C2. For each of the six entry points, when the backing symbol is resolved to
`real` and scaling does not apply (the process is not the activation target, or the
applicable factor is exactly 1, or, for the four scroll/axis entry points, the classifier
answers false), the entry point returns exactly what `real` returned for the same
arguments. -/
theorem entry_points_pass_through (h : Host) (st : State) (event : libinput_event_pointer)
    (gesture : libinput_event_gesture) (axis : wsf_axis_t) :
    (∀ real, Resolved h .axis_value (wsf_ensure_init h st).wsf_real_axis_value real →
      ((wsf_ensure_init h st).wsf_active = false ∨
        wsf_scroll_factor_for_axis (wsf_ensure_init h st) axis = 1 ∨
        (wsf_should_scale_scroll h (wsf_ensure_init h st) event
          (wsf_scroll_factor_for_axis (wsf_ensure_init h st) axis)).1 = false) →
      (libinput_event_pointer_get_axis_value h st event axis).1 = real event axis) ∧
    (∀ real, Resolved h .axis_value_discrete
        (wsf_ensure_init h st).wsf_real_axis_value_discrete real →
      ((wsf_ensure_init h st).wsf_active = false ∨
        wsf_scroll_factor_for_axis (wsf_ensure_init h st) axis = 1 ∨
        (wsf_should_scale_scroll h (wsf_ensure_init h st) event
          (wsf_scroll_factor_for_axis (wsf_ensure_init h st) axis)).1 = false) →
      (libinput_event_pointer_get_axis_value_discrete h st event axis).1 = real event axis) ∧
    (∀ real, Resolved h .scroll_value (wsf_ensure_init h st).wsf_real_scroll_value real →
      ((wsf_ensure_init h st).wsf_active = false ∨
        wsf_scroll_factor_for_axis (wsf_ensure_init h st) axis = 1 ∨
        (wsf_should_scale_scroll h (wsf_ensure_init h st) event
          (wsf_scroll_factor_for_axis (wsf_ensure_init h st) axis)).1 = false) →
      (libinput_event_pointer_get_scroll_value h st event axis).1 = real event axis) ∧
    (∀ real, Resolved h .scroll_value_v120
        (wsf_ensure_init h st).wsf_real_scroll_value_v120 real →
      ((wsf_ensure_init h st).wsf_active = false ∨
        wsf_scroll_factor_for_axis (wsf_ensure_init h st) axis = 1 ∨
        (wsf_should_scale_scroll h (wsf_ensure_init h st) event
          (wsf_scroll_factor_for_axis (wsf_ensure_init h st) axis)).1 = false) →
      (libinput_event_pointer_get_scroll_value_v120 h st event axis).1 = real event axis) ∧
    (∀ real, Resolved h .gesture_scale (wsf_ensure_init h st).wsf_real_gesture_scale real →
      ((wsf_ensure_init h st).wsf_active = false ∨
        (wsf_ensure_init h st).wsf_pinch_zoom_factor = 1) →
      (libinput_event_gesture_get_scale h st gesture).1 = real gesture) ∧
    (∀ real, Resolved h .gesture_angle_delta
        (wsf_ensure_init h st).wsf_real_gesture_angle_delta real →
      ((wsf_ensure_init h st).wsf_active = false ∨
        (wsf_ensure_init h st).wsf_pinch_rotate_factor = 1) →
      (libinput_event_gesture_get_angle_delta h st gesture).1 = real gesture) := by
  have hcl : ((wsf_ensure_init h st).wsf_active = false ∨
        wsf_scroll_factor_for_axis (wsf_ensure_init h st) axis = 1 ∨
        (wsf_should_scale_scroll h (wsf_ensure_init h st) event
          (wsf_scroll_factor_for_axis (wsf_ensure_init h st) axis)).1 = false) →
      (wsf_should_scale_scroll h (wsf_ensure_init h st) event
          (wsf_scroll_factor_for_axis (wsf_ensure_init h st) axis)).1 = false := by
    rintro (ha | hf | hc)
    · rw [should_scale_guard h _ event _ (Or.inl ha)]
    · rw [should_scale_guard h _ event _ (Or.inr hf)]
    · exact hc
  refine ⟨?_, ?_, ?_, ?_, ?_, ?_⟩
  · intro real hr hn
    rw [axis_value_fst, (resolved_iff _ _ _ _).1 hr]
    simp only [hcl hn, Bool.not_false, if_true]
  · intro real hr hn
    rw [axis_value_discrete_fst, (resolved_iff _ _ _ _).1 hr]
    simp only [hcl hn, Bool.not_false, if_true]
  · intro real hr hn
    rw [scroll_value_fst, (resolved_iff _ _ _ _).1 hr]
    simp only [hcl hn, Bool.not_false, if_true]
  · intro real hr hn
    rw [scroll_value_v120_fst, (resolved_iff _ _ _ _).1 hr]
    simp only [hcl hn, Bool.not_false, if_true]
  · intro real hr hn
    rw [gesture_scale_fst, (resolved_iff _ _ _ _).1 hr]
    rcases hn with hn | hn <;> simp [hn]
  · intro real hr hn
    rw [gesture_angle_delta_fst, (resolved_iff _ _ _ _).1 hr]
    rcases hn with hn | hn <;> simp [hn]

/-- Witness of C2: in a process that is not the target the raw values come back
unchanged; so does the raw value of a wheel event in the target process. -/
theorem entry_points_pass_through_witness :
    (libinput_event_pointer_get_axis_value other_host {} 5 WSF_AXIS_SCROLL_VERTICAL).1 = 10 ∧
    (libinput_event_pointer_get_axis_value_discrete sample_host {} 4
      WSF_AXIS_SCROLL_VERTICAL).1 = 10 ∧
    (libinput_event_pointer_get_scroll_value sample_host {} 4 WSF_AXIS_SCROLL_VERTICAL).1 = 10 ∧
    (libinput_event_pointer_get_scroll_value_v120 other_host {} 5
      WSF_AXIS_SCROLL_HORIZONTAL).1 = 10 ∧
    (libinput_event_gesture_get_scale other_host {} 7).1 = 3 / 2 ∧
    (libinput_event_gesture_get_angle_delta other_host {} 7).1 = 4 :=
  ⟨(entry_points_pass_through other_host {} 5 7 WSF_AXIS_SCROLL_VERTICAL).1
      (fun _ _ => 10) (Or.inl rfl) (Or.inl rfl),
   (entry_points_pass_through sample_host {} 4 7 WSF_AXIS_SCROLL_VERTICAL).2.1
      (fun _ _ => 10) (Or.inl rfl) (Or.inr (Or.inr rfl)),
   (entry_points_pass_through sample_host {} 4 7 WSF_AXIS_SCROLL_VERTICAL).2.2.1
      (fun _ _ => 10) (Or.inl rfl) (Or.inr (Or.inr rfl)),
   (entry_points_pass_through other_host {} 5 7 WSF_AXIS_SCROLL_HORIZONTAL).2.2.2.1
      (fun _ _ => 10) (Or.inl rfl) (Or.inl rfl),
   (entry_points_pass_through other_host {} 5 7 WSF_AXIS_SCROLL_VERTICAL).2.2.2.2.1
      (fun _ => 3 / 2) (Or.inl rfl) (Or.inl rfl),
   (entry_points_pass_through other_host {} 5 7 WSF_AXIS_SCROLL_VERTICAL).2.2.2.2.2
      (fun _ => 4) (Or.inl rfl) (Or.inl rfl)⟩

/-- Claim C3. With the gesture-scale symbol resolved to `real`: when the process is the
activation target and the pinch-zoom factor `f` is not 1, `libinput_event_gesture_get_scale`
returns `1 + (s - 1) * f` for the raw scale `s = real event`; a raw scale of 1 is returned
as 1 in every state and for any factor; a factor of 1 returns `s`. -/
theorem gesture_scale_affine (h : Host) (st : State) (event : libinput_event_gesture)
    (real : wsf_gesture_value_fn)
    (hres : Resolved h .gesture_scale (wsf_ensure_init h st).wsf_real_gesture_scale real) :
    ((wsf_ensure_init h st).wsf_active = true →
      (wsf_ensure_init h st).wsf_pinch_zoom_factor ≠ 1 →
      (libinput_event_gesture_get_scale h st event).1 =
        1 + (real event - 1) * (wsf_ensure_init h st).wsf_pinch_zoom_factor) ∧
    (real event = 1 → (libinput_event_gesture_get_scale h st event).1 = 1) ∧
    ((wsf_ensure_init h st).wsf_pinch_zoom_factor = 1 →
      (libinput_event_gesture_get_scale h st event).1 = real event) := by
  rw [gesture_scale_fst, (resolved_iff _ _ _ _).1 hres]
  refine ⟨?_, ?_, ?_⟩
  · intro ha hf
    simp [ha, hf]
  · intro h1
    simp only [h1]
    split_ifs <;> simp
  · intro hf
    simp [hf]

/-- Witness of C3: raw scale 3/2 with pinch-zoom factor 1/2 gives 5/4. -/
theorem gesture_scale_affine_witness :
    (libinput_event_gesture_get_scale sample_host {} 7).1 = 5 / 4 :=
  ((gesture_scale_affine sample_host {} 7 (fun _ => 3 / 2) (Or.inl rfl)).1 rfl
    (show (1 / 2 : ℚ) ≠ 1 by norm_num)).trans
    (show (1 : ℚ) + (3 / 2 - 1) * (1 / 2) = 5 / 4 by norm_num)

/-- Claim C4. With the angle-delta symbol resolved to `real`, the process being the
activation target and the pinch-rotate factor `f` not 1,
`libinput_event_gesture_get_angle_delta` returns `d * f` for the raw delta `d = real event`,
where `f` is the pinch-rotate factor. -/
theorem gesture_angle_linear (h : Host) (st : State) (event : libinput_event_gesture)
    (real : wsf_gesture_value_fn)
    (hres : Resolved h .gesture_angle_delta
      (wsf_ensure_init h st).wsf_real_gesture_angle_delta real)
    (hact : (wsf_ensure_init h st).wsf_active = true)
    (hf : (wsf_ensure_init h st).wsf_pinch_rotate_factor ≠ 1) :
    (libinput_event_gesture_get_angle_delta h st event).1 =
      real event * (wsf_ensure_init h st).wsf_pinch_rotate_factor := by
  rw [gesture_angle_delta_fst, (resolved_iff _ _ _ _).1 hres]
  simp [hact, hf]

/-- Witness of C4: raw angle delta 4 with pinch-rotate factor 4 gives 16. -/
theorem gesture_angle_linear_witness :
    (libinput_event_gesture_get_angle_delta sample_host {} 7).1 = 16 :=
  (gesture_angle_linear sample_host {} 7 (fun _ => 4) (Or.inl rfl) rfl
    (show (4 : ℚ) ≠ 1 by norm_num)).trans (show (4 : ℚ) * 4 = 16 by norm_num)

/-- Claim C5. If the backing symbol of an entry point cannot be resolved (its pointer
is NULL, as a failed lookup at initialization leaves it, and the lookup at call time
yields no address), the entry point returns the neutral value whatever the factors, the
activation state and the arguments: 0 for the four scroll/axis entry points and for the
gesture angle delta, 1 for the gesture scale. -/
theorem unresolved_symbol_neutral (h : Host) (st : State) (event : libinput_event_pointer)
    (gesture : libinput_event_gesture) (axis : wsf_axis_t) :
    (Unresolved h .axis_value st.wsf_real_axis_value →
      (libinput_event_pointer_get_axis_value h st event axis).1 = 0) ∧
    (Unresolved h .axis_value_discrete st.wsf_real_axis_value_discrete →
      (libinput_event_pointer_get_axis_value_discrete h st event axis).1 = 0) ∧
    (Unresolved h .scroll_value st.wsf_real_scroll_value →
      (libinput_event_pointer_get_scroll_value h st event axis).1 = 0) ∧
    (Unresolved h .scroll_value_v120 st.wsf_real_scroll_value_v120 →
      (libinput_event_pointer_get_scroll_value_v120 h st event axis).1 = 0) ∧
    (Unresolved h .gesture_angle_delta st.wsf_real_gesture_angle_delta →
      (libinput_event_gesture_get_angle_delta h st gesture).1 = 0) ∧
    (Unresolved h .gesture_scale st.wsf_real_gesture_scale →
      (libinput_event_gesture_get_scale h st gesture).1 = 1) := by
  obtain ⟨h1, h2, h3, h4, h5, h6⟩ := wsf_ensure_init_unresolved h st
  refine ⟨?_, ?_, ?_, ?_, ?_, ?_⟩
  · intro hu
    rw [axis_value_fst, (unresolved_iff _ _ _).1 (h1 hu)]
  · intro hu
    rw [axis_value_discrete_fst, (unresolved_iff _ _ _).1 (h2 hu)]
  · intro hu
    rw [scroll_value_fst, (unresolved_iff _ _ _).1 (h3 hu)]
  · intro hu
    rw [scroll_value_v120_fst, (unresolved_iff _ _ _).1 (h4 hu)]
  · intro hu
    rw [gesture_angle_delta_fst, (unresolved_iff _ _ _).1 (h6 hu)]
  · intro hu
    rw [gesture_scale_fst, (unresolved_iff _ _ _).1 (h5 hu)]

/-- Witness of C5: with no symbol exported every entry point returns its neutral value. -/
theorem unresolved_symbol_neutral_witness :
    (libinput_event_pointer_get_axis_value bare_host {} 5 WSF_AXIS_SCROLL_VERTICAL).1 = 0 ∧
    (libinput_event_pointer_get_axis_value_discrete bare_host {} 5
      WSF_AXIS_SCROLL_VERTICAL).1 = 0 ∧
    (libinput_event_pointer_get_scroll_value bare_host {} 5 WSF_AXIS_SCROLL_VERTICAL).1 = 0 ∧
    (libinput_event_pointer_get_scroll_value_v120 bare_host {} 5
      WSF_AXIS_SCROLL_VERTICAL).1 = 0 ∧
    (libinput_event_gesture_get_angle_delta bare_host {} 7).1 = 0 ∧
    (libinput_event_gesture_get_scale bare_host {} 7).1 = 1 :=
  ⟨(unresolved_symbol_neutral bare_host {} 5 7 WSF_AXIS_SCROLL_VERTICAL).1
      (bare_host_unresolved _),
   (unresolved_symbol_neutral bare_host {} 5 7 WSF_AXIS_SCROLL_VERTICAL).2.1
      (bare_host_unresolved _),
   (unresolved_symbol_neutral bare_host {} 5 7 WSF_AXIS_SCROLL_VERTICAL).2.2.1
      (bare_host_unresolved _),
   (unresolved_symbol_neutral bare_host {} 5 7 WSF_AXIS_SCROLL_VERTICAL).2.2.2.1
      (bare_host_unresolved _),
   (unresolved_symbol_neutral bare_host {} 5 7 WSF_AXIS_SCROLL_VERTICAL).2.2.2.2.1
      (bare_host_unresolved _),
   (unresolved_symbol_neutral bare_host {} 5 7 WSF_AXIS_SCROLL_VERTICAL).2.2.2.2.2
      (bare_host_unresolved _)⟩

/-- Claim C6. In `wsf_should_scale_scroll`, for an active process and a factor other
than 1, when the type of the base event can be determined (both symbols resolved, base
event not NULL): the type SCROLL_WHEEL yields false, the types SCROLL_FINGER and
SCROLL_CONTINUOUS yield true, whatever the axis source is and whether or not the
axis-source symbol is available. -/
theorem event_type_decides (h : Host) (st : State) (event : libinput_event_pointer)
    (factor : Double) (real_base_event : wsf_base_event_fn)
    (real_event_type : wsf_event_type_fn)
    (hact : st.wsf_active = true) (hf : factor ≠ 1)
    (hb : Resolved h .base_event st.wsf_real_base_event real_base_event)
    (ht : Resolved h .event_type st.wsf_real_event_type real_event_type)
    (hbase : real_base_event event ≠ 0) :
    (real_event_type (real_base_event event) = WSF_EVENT_POINTER_SCROLL_WHEEL →
      (wsf_should_scale_scroll h st event factor).1 = false) ∧
    (real_event_type (real_base_event event) = WSF_EVENT_POINTER_SCROLL_FINGER ∨
        real_event_type (real_base_event event) = WSF_EVENT_POINTER_SCROLL_CONTINUOUS →
      (wsf_should_scale_scroll h st event factor).1 = true) := by
  rw [should_scale_fst, (resolved_iff _ _ _ _).1 hb, (resolved_iff _ _ _ _).1 ht]
  constructor
  · intro hty
    simp [hact, hf, hbase, hty]
  · rintro (hty | hty) <;>
      simp [hact, hf, hbase, hty, WSF_EVENT_POINTER_SCROLL_FINGER,
        WSF_EVENT_POINTER_SCROLL_CONTINUOUS, WSF_EVENT_POINTER_SCROLL_WHEEL]

/-- Witness of C6: in the initialized sample process with factor 2, the wheel event
(type 404) is refused, the finger (405) and continuous (406) events are accepted. -/
theorem event_type_decides_witness :
    (wsf_should_scale_scroll sample_host (wsf_init sample_host {}) 4 2).1 = false ∧
    (wsf_should_scale_scroll sample_host (wsf_init sample_host {}) 5 2).1 = true ∧
    (wsf_should_scale_scroll sample_host (wsf_init sample_host {}) 6 2).1 = true :=
  ⟨(event_type_decides sample_host (wsf_init sample_host {}) 4 2 (fun event => event)
      (fun base => 400 + (base : Int)) rfl (by norm_num) (Or.inl rfl) (Or.inl rfl)
      (by decide)).1 rfl,
   (event_type_decides sample_host (wsf_init sample_host {}) 5 2 (fun event => event)
      (fun base => 400 + (base : Int)) rfl (by norm_num) (Or.inl rfl) (Or.inl rfl)
      (by decide)).2 (Or.inl rfl),
   (event_type_decides sample_host (wsf_init sample_host {}) 6 2 (fun event => event)
      (fun base => 400 + (base : Int)) rfl (by norm_num) (Or.inl rfl) (Or.inl rfl)
      (by decide)).2 (Or.inr rfl)⟩

/-- Claim C7. In `wsf_should_scale_scroll`, for an active process and a factor other
than 1, an event whose determined type is POINTER_AXIS is decided by its axis source: with
the axis-source symbol resolved the result is true exactly when the source is finger or
continuous, and false for every other source. -/
theorem axis_type_decided_by_source (h : Host) (st : State) (event : libinput_event_pointer)
    (factor : Double) (real_base_event : wsf_base_event_fn)
    (real_event_type : wsf_event_type_fn) (real_axis_source : wsf_axis_source_fn)
    (hact : st.wsf_active = true) (hf : factor ≠ 1)
    (hb : Resolved h .base_event st.wsf_real_base_event real_base_event)
    (ht : Resolved h .event_type st.wsf_real_event_type real_event_type)
    (hbase : real_base_event event ≠ 0)
    (hty : real_event_type (real_base_event event) = WSF_EVENT_POINTER_AXIS)
    (hs : Resolved h .axis_source st.wsf_real_axis_source real_axis_source) :
    ((wsf_should_scale_scroll h st event factor).1 = true ↔
      (real_axis_source event = WSF_AXIS_SOURCE_FINGER ∨
        real_axis_source event = WSF_AXIS_SOURCE_CONTINUOUS)) ∧
    (real_axis_source event ≠ WSF_AXIS_SOURCE_FINGER →
      real_axis_source event ≠ WSF_AXIS_SOURCE_CONTINUOUS →
      (wsf_should_scale_scroll h st event factor).1 = false) := by
  rw [should_scale_fst, by_source_fst, (resolved_iff _ _ _ _).1 hb,
    (resolved_iff _ _ _ _).1 ht, (resolved_iff _ _ _ _).1 hs]
  constructor
  · simp [hact, hf, hbase, hty, WSF_EVENT_POINTER_SCROLL_FINGER,
      WSF_EVENT_POINTER_SCROLL_CONTINUOUS, WSF_EVENT_POINTER_SCROLL_WHEEL,
      WSF_EVENT_POINTER_AXIS]
  · intro h1 h2
    simp [hact, hf, hbase, hty, h1, h2, WSF_EVENT_POINTER_SCROLL_FINGER,
      WSF_EVENT_POINTER_SCROLL_CONTINUOUS, WSF_EVENT_POINTER_SCROLL_WHEEL,
      WSF_EVENT_POINTER_AXIS]

/-- Witness of C7: the axis-style event (type 403) with a finger source is accepted. -/
theorem axis_type_decided_by_source_witness :
    (wsf_should_scale_scroll sample_host (wsf_init sample_host {}) 3 2).1 = true :=
  ((axis_type_decided_by_source sample_host (wsf_init sample_host {}) 3 2
    (fun event => event) (fun base => 400 + (base : Int)) (fun _ => WSF_AXIS_SOURCE_FINGER)
    rfl (by norm_num) (Or.inl rfl) (Or.inl rfl) (by decide) rfl (Or.inl rfl)).1).2
    (Or.inl rfl)

/-- Counterexample to C8 as stated: in the initialized sample process, with factor 2,
the event at address 2 has the determined type 402, none of the four named types, the
axis-source symbol is available and reports finger, yet the classifier returns false. -/
theorem other_type_falls_through_counterexample :
    ¬ ∀ (h : Host) (st : State) (event : libinput_event_pointer) (factor : Double)
      (real_base_event : wsf_base_event_fn) (real_event_type : wsf_event_type_fn)
      (real_axis_source : wsf_axis_source_fn),
      st.wsf_active = true → factor ≠ 1 →
      Resolved h .base_event st.wsf_real_base_event real_base_event →
      Resolved h .event_type st.wsf_real_event_type real_event_type →
      real_base_event event ≠ 0 →
      real_event_type (real_base_event event) ≠ WSF_EVENT_POINTER_SCROLL_WHEEL →
      real_event_type (real_base_event event) ≠ WSF_EVENT_POINTER_SCROLL_FINGER →
      real_event_type (real_base_event event) ≠ WSF_EVENT_POINTER_SCROLL_CONTINUOUS →
      real_event_type (real_base_event event) ≠ WSF_EVENT_POINTER_AXIS →
      Resolved h .axis_source st.wsf_real_axis_source real_axis_source →
      ((wsf_should_scale_scroll h st event factor).1 = true ↔
        (real_axis_source event = WSF_AXIS_SOURCE_FINGER ∨
          real_axis_source event = WSF_AXIS_SOURCE_CONTINUOUS)) := by
  intro hall
  have hiff := hall sample_host (wsf_init sample_host {}) 2 2 (fun event => event)
    (fun base => 400 + (base : Int)) (fun _ => WSF_AXIS_SOURCE_FINGER)
    rfl (by norm_num) (Or.inl rfl) (Or.inl rfl)
    (by decide) (by decide) (by decide) (by decide) (by decide) (Or.inl rfl)
  have htrue := hiff.2 (Or.inl rfl)
  have hfalse : (wsf_should_scale_scroll sample_host (wsf_init sample_host {}) 2 2).1 = false :=
    rfl
  rw [hfalse] at htrue
  exact Bool.noConfusion htrue

/-- Claim C8, amended. In `wsf_should_scale_scroll`, for an active process and a
factor other than 1, an event whose determined type is none of SCROLL_WHEEL,
SCROLL_FINGER, SCROLL_CONTINUOUS and POINTER_AXIS is never scaled: the result is false
whatever the axis source. -/
theorem other_type_never_scales (h : Host) (st : State) (event : libinput_event_pointer)
    (factor : Double) (real_base_event : wsf_base_event_fn)
    (real_event_type : wsf_event_type_fn)
    (hact : st.wsf_active = true) (hf : factor ≠ 1)
    (hb : Resolved h .base_event st.wsf_real_base_event real_base_event)
    (ht : Resolved h .event_type st.wsf_real_event_type real_event_type)
    (hbase : real_base_event event ≠ 0)
    (hw : real_event_type (real_base_event event) ≠ WSF_EVENT_POINTER_SCROLL_WHEEL)
    (hfi : real_event_type (real_base_event event) ≠ WSF_EVENT_POINTER_SCROLL_FINGER)
    (hco : real_event_type (real_base_event event) ≠ WSF_EVENT_POINTER_SCROLL_CONTINUOUS)
    (hax : real_event_type (real_base_event event) ≠ WSF_EVENT_POINTER_AXIS) :
    (wsf_should_scale_scroll h st event factor).1 = false := by
  rw [should_scale_fst, (resolved_iff _ _ _ _).1 hb, (resolved_iff _ _ _ _).1 ht]
  simp [hact, hf, hbase, hw, hfi, hco, hax]

/-- Witness of the amended C8: the event of type 402 is refused. -/
theorem other_type_never_scales_witness :
    (wsf_should_scale_scroll sample_host (wsf_init sample_host {}) 2 2).1 = false :=
  other_type_never_scales sample_host (wsf_init sample_host {}) 2 2 (fun event => event)
    (fun base => 400 + (base : Int)) rfl (by norm_num) (Or.inl rfl) (Or.inl rfl)
    (by decide) (by decide) (by decide) (by decide) (by decide)

/-- Claim C9. In `wsf_should_scale_scroll`, for an active process and a factor other
than 1, when the event type cannot be determined (the base-event symbol or the event-type
symbol is unresolved, or the base event is NULL) the decision is that of the axis source
alone: true exactly for finger or continuous when the axis-source symbol is resolved,
false when it is unresolved as well. -/
theorem undetermined_type_uses_source (h : Host) (st : State) (event : libinput_event_pointer)
    (factor : Double) (hact : st.wsf_active = true) (hf : factor ≠ 1)
    (hund : Unresolved h .base_event st.wsf_real_base_event ∨
      Unresolved h .event_type st.wsf_real_event_type ∨
      ∃ real_base_event, Resolved h .base_event st.wsf_real_base_event real_base_event ∧
        real_base_event event = 0) :
    (∀ real_axis_source, Resolved h .axis_source st.wsf_real_axis_source real_axis_source →
      ((wsf_should_scale_scroll h st event factor).1 = true ↔
        (real_axis_source event = WSF_AXIS_SOURCE_FINGER ∨
          real_axis_source event = WSF_AXIS_SOURCE_CONTINUOUS))) ∧
    (Unresolved h .axis_source st.wsf_real_axis_source →
      (wsf_should_scale_scroll h st event factor).1 = false) := by
  have key : (wsf_should_scale_scroll h st event factor).1 =
      (wsf_should_scale_scroll_by_source h st event).1 := by
    rw [should_scale_fst]
    simp only [hact, hf, Bool.not_true, Bool.false_or, beq_iff_eq, if_false]
    rcases hund with hu | hu | ⟨rb, hr, h0⟩
    · rw [(unresolved_iff _ _ _).1 hu]
    · rw [(unresolved_iff _ _ _).1 hu]
      split <;> simp_all
    · rw [(resolved_iff _ _ _ _).1 hr]
      split
      · simp_all
      · rfl
  rw [key, by_source_fst]
  constructor
  · intro rs hs
    rw [(resolved_iff _ _ _ _).1 hs]
    simp
  · intro hu
    rw [(unresolved_iff _ _ _).1 hu]

/-- Witness of C9: a pointer event whose base event is NULL is decided by its finger
source; with no symbol exported at all the classifier refuses. -/
theorem undetermined_type_uses_source_witness :
    (wsf_should_scale_scroll sample_host (wsf_init sample_host {}) 0 2).1 = true ∧
    (wsf_should_scale_scroll bare_host (wsf_init bare_host {}) 5 2).1 = false :=
  ⟨(((undetermined_type_uses_source sample_host (wsf_init sample_host {}) 0 2 rfl
      (by norm_num) (Or.inr (Or.inr ⟨fun event => event, Or.inl rfl, rfl⟩))).1
      (fun _ => WSF_AXIS_SOURCE_FINGER) (Or.inl rfl))).2 (Or.inl rfl),
   (undetermined_type_uses_source bare_host (wsf_init bare_host {}) 5 2 rfl
      (by norm_num) (Or.inl (bare_host_unresolved _))).2 (bare_host_unresolved _)⟩

/-- Claim C10. `wsf_should_scale_scroll` returns false whenever the process is not the
activation target or the factor is exactly 1, and returns the state it was given: no
pointer changes, and the trace gains no lookup and no call of the base-event, event-type
or axis-source function. -/
theorem fast_path_leaves_state (h : Host) (st : State) (event : libinput_event_pointer)
    (factor : Double) (hg : st.wsf_active = false ∨ factor = 1) :
    wsf_should_scale_scroll h st event factor = (false, st) ∧
    (wsf_should_scale_scroll h st event factor).2.trace = st.trace := by
  rw [should_scale_guard h st event factor hg]
  exact ⟨rfl, rfl⟩

/-- Witness of C10: in a process that is not the target, and in the target process with
factor 1, the classifier returns false and the state it was given. -/
theorem fast_path_leaves_state_witness :
    wsf_should_scale_scroll other_host (wsf_init other_host {}) 5 2 =
      (false, wsf_init other_host {}) ∧
    wsf_should_scale_scroll sample_host (wsf_init sample_host {}) 5 1 =
      (false, wsf_init sample_host {}) :=
  ⟨(fast_path_leaves_state other_host (wsf_init other_host {}) 5 2 (Or.inl rfl)).1,
   (fast_path_leaves_state sample_host (wsf_init sample_host {}) 5 1 (Or.inr rfl)).1⟩

/-! ## Lemmas on the configuration module -/

/-- `wsf_parse_factor_str` writes `*out_factor` only when it accepts, and whether it
accepts does not depend on what `*out_factor` held. -/
theorem wsf_parse_factor_str_eq (w : World) (input : Option c_string) (d d' : Double) :
    wsf_parse_factor_str w input d =
      if (wsf_parse_factor_str w input d').1 then (true, (wsf_parse_factor_str w input d').2)
      else (false, d) := by
  unfold wsf_parse_factor_str
  cases input with
  | none => simp
  | some s =>
    simp only []
    by_cases h1 : ((w.strtod (s.dropWhile isspace)).consumed == 0 ||
        (w.strtod (s.dropWhile isspace)).erange) = true
    · simp [h1]
    · simp only [h1, if_false]
      cases ((s.dropWhile isspace).drop (w.strtod (s.dropWhile isspace)).consumed).dropWhile
          isspace with
      | nil => simp
      | cons c t =>
        simp only []
        by_cases h2 : (c != '\n' && c != '#') = true <;> simp [h2]

theorem wsf_env_factor_fst (w : World) (name : String) (d : Double) (dbg : Bool) :
    (wsf_env_factor w name d dbg).1 = (env_override w name).isSome := by
  unfold env_override wsf_env_factor
  cases w.getenv name with
  | none => simp
  | some s =>
    simp only []
    by_cases hs : s.isEmpty = true
    · simp [hs]
    · simp only [hs, if_false]
      rw [wsf_parse_factor_str_eq w (some s) d WSF_FACTOR_DEFAULT]
      split_ifs <;> simp_all

theorem wsf_env_factor_some (w : World) (name : String) (d e : Double) (dbg : Bool)
    (he : env_override w name = some e) : wsf_env_factor w name d dbg = (true, e) := by
  unfold env_override wsf_env_factor at *
  cases hg : w.getenv name with
  | none => simp [hg] at he
  | some s =>
    simp only [hg] at he ⊢
    by_cases hs : s.isEmpty = true
    · simp [hs] at he
    · simp only [hs, if_false] at he ⊢
      rw [wsf_parse_factor_str_eq w (some s) d WSF_FACTOR_DEFAULT]
      split_ifs at he ⊢ <;> simp_all

theorem validOverride_iff (w : World) (name : String) (e : Double) :
    ValidOverride w name e ↔ env_override w name = some e := by
  unfold ValidOverride env_override wsf_env_factor
  constructor
  · rintro ⟨s, hg, hs, hp, hr⟩
    simp [hg, hs, hp, hr]
  · intro he
    cases hg : w.getenv name with
    | none => simp [hg] at he
    | some s =>
      simp only [hg] at he
      by_cases hs : s.isEmpty = true
      · simp [hs] at he
      · simp only [hs, if_false] at he
        refine ⟨s, rfl, by simpa using hs, ?_⟩
        generalize wsf_parse_factor_str w (some s) WSF_FACTOR_DEFAULT = p at he ⊢
        obtain ⟨b, v⟩ := p
        cases b <;> cases hr : wsf_factor_in_range v <;> simp_all

theorem invalidOverride_none (w : World) (name : String) (hi : InvalidOverride w name) :
    env_override w name = none := by
  obtain ⟨s, hg, hbad⟩ := hi
  unfold env_override wsf_env_factor
  simp only [hg]
  rcases hbad with hs | hp | ⟨hp, hr⟩
  · simp [hs]
  · by_cases hs : s.isEmpty = true <;> simp [hs, hp]
  · by_cases hs : s.isEmpty = true <;> simp [hs, hp, hr]

theorem unset_none (w : World) (name : String) (hg : w.getenv name = none) :
    env_override w name = none := by
  simp [env_override, wsf_env_factor, hg]

theorem wsf_env_factor_none (w : World) (name : String) (d : Double) (dbg : Bool)
    (he : env_override w name = none) : (wsf_env_factor w name d dbg).1 = false := by
  rw [wsf_env_factor_fst, he]
  rfl

/-- What `wsf_effective_factors` returns when the store read is not an error, in terms
of the values read and of the valid overrides. -/
theorem wsf_effective_factors_fn_eq (w : World) (dbg : Bool)
    (hs : (wsf_config_read w dbg).1 ≠ .WSF_CONFIG_ERROR) :
    wsf_effective_factors_fn w dbg =
      ((wsf_config_read w dbg).1,
        { scroll_vertical :=
            (env_override w "WSF_SCROLL_VERTICAL_FACTOR").getD
              ((env_override w "WSF_FACTOR").getD
                (if (wsf_config_read w dbg).2.has_scroll_vertical then
                  (wsf_config_read w dbg).2.scroll_vertical_factor
                else if (wsf_config_read w dbg).2.has_factor then
                  (wsf_config_read w dbg).2.factor
                else WSF_FACTOR_DEFAULT))
          scroll_horizontal :=
            (env_override w "WSF_SCROLL_HORIZONTAL_FACTOR").getD
              ((env_override w "WSF_FACTOR").getD
                (if (wsf_config_read w dbg).2.has_scroll_horizontal then
                  (wsf_config_read w dbg).2.scroll_horizontal_factor
                else if (wsf_config_read w dbg).2.has_factor then
                  (wsf_config_read w dbg).2.factor
                else WSF_FACTOR_DEFAULT))
          pinch_zoom :=
            (env_override w "WSF_PINCH_ZOOM_FACTOR").getD
              (if (wsf_config_read w dbg).2.has_pinch_zoom then
                (wsf_config_read w dbg).2.pinch_zoom_factor
              else WSF_FACTOR_DEFAULT)
          pinch_rotate :=
            (env_override w "WSF_PINCH_ROTATE_FACTOR").getD
              (if (wsf_config_read w dbg).2.has_pinch_rotate then
                (wsf_config_read w dbg).2.pinch_rotate_factor
              else WSF_FACTOR_DEFAULT)
          used_legacy_factor :=
            (wsf_config_read w dbg).2.has_factor || (env_override w "WSF_FACTOR").isSome }) := by
  unfold wsf_effective_factors_fn
  generalize wsf_config_read w dbg = r at hs ⊢
  obtain ⟨status, cfg⟩ := r
  simp only [] at hs
  simp only [hs, if_false]
  have e1 : (∃ e, env_override w "WSF_FACTOR" = some e ∧
      ∀ d, wsf_env_factor w "WSF_FACTOR" d dbg = (true, e)) ∨
      (env_override w "WSF_FACTOR" = none ∧ ∀ d, (wsf_env_factor w "WSF_FACTOR" d dbg).1 = false) := by
    cases h : env_override w "WSF_FACTOR" with
    | none => exact Or.inr ⟨rfl, fun d => wsf_env_factor_none w _ d dbg h⟩
    | some e => exact Or.inl ⟨e, rfl, fun d => wsf_env_factor_some w _ d e dbg h⟩
  have e2 : (∃ e, env_override w "WSF_SCROLL_VERTICAL_FACTOR" = some e ∧
      ∀ d, wsf_env_factor w "WSF_SCROLL_VERTICAL_FACTOR" d dbg = (true, e)) ∨
      (env_override w "WSF_SCROLL_VERTICAL_FACTOR" = none ∧ ∀ d, (wsf_env_factor w "WSF_SCROLL_VERTICAL_FACTOR" d dbg).1 = false) := by
    cases h : env_override w "WSF_SCROLL_VERTICAL_FACTOR" with
    | none => exact Or.inr ⟨rfl, fun d => wsf_env_factor_none w _ d dbg h⟩
    | some e => exact Or.inl ⟨e, rfl, fun d => wsf_env_factor_some w _ d e dbg h⟩
  have e3 : (∃ e, env_override w "WSF_SCROLL_HORIZONTAL_FACTOR" = some e ∧
      ∀ d, wsf_env_factor w "WSF_SCROLL_HORIZONTAL_FACTOR" d dbg = (true, e)) ∨
      (env_override w "WSF_SCROLL_HORIZONTAL_FACTOR" = none ∧ ∀ d, (wsf_env_factor w "WSF_SCROLL_HORIZONTAL_FACTOR" d dbg).1 = false) := by
    cases h : env_override w "WSF_SCROLL_HORIZONTAL_FACTOR" with
    | none => exact Or.inr ⟨rfl, fun d => wsf_env_factor_none w _ d dbg h⟩
    | some e => exact Or.inl ⟨e, rfl, fun d => wsf_env_factor_some w _ d e dbg h⟩
  have e4 : (∃ e, env_override w "WSF_PINCH_ZOOM_FACTOR" = some e ∧
      ∀ d, wsf_env_factor w "WSF_PINCH_ZOOM_FACTOR" d dbg = (true, e)) ∨
      (env_override w "WSF_PINCH_ZOOM_FACTOR" = none ∧ ∀ d, (wsf_env_factor w "WSF_PINCH_ZOOM_FACTOR" d dbg).1 = false) := by
    cases h : env_override w "WSF_PINCH_ZOOM_FACTOR" with
    | none => exact Or.inr ⟨rfl, fun d => wsf_env_factor_none w _ d dbg h⟩
    | some e => exact Or.inl ⟨e, rfl, fun d => wsf_env_factor_some w _ d e dbg h⟩
  have e5 : (∃ e, env_override w "WSF_PINCH_ROTATE_FACTOR" = some e ∧
      ∀ d, wsf_env_factor w "WSF_PINCH_ROTATE_FACTOR" d dbg = (true, e)) ∨
      (env_override w "WSF_PINCH_ROTATE_FACTOR" = none ∧ ∀ d, (wsf_env_factor w "WSF_PINCH_ROTATE_FACTOR" d dbg).1 = false) := by
    cases h : env_override w "WSF_PINCH_ROTATE_FACTOR" with
    | none => exact Or.inr ⟨rfl, fun d => wsf_env_factor_none w _ d dbg h⟩
    | some e => exact Or.inl ⟨e, rfl, fun d => wsf_env_factor_some w _ d e dbg h⟩
  rcases e1 with ⟨v1, h1, e1⟩ | ⟨h1, e1⟩ <;> rcases e2 with ⟨v2, h2, e2⟩ | ⟨h2, e2⟩ <;>
  rcases e3 with ⟨v3, h3, e3⟩ | ⟨h3, e3⟩ <;> rcases e4 with ⟨v4, h4, e4⟩ | ⟨h4, e4⟩ <;>
  rcases e5 with ⟨v5, h5, e5⟩ | ⟨h5, e5⟩ <;>
  simp only [h1, h2, h3, h4, h5, e1, e2, e3, e4, e5, Option.getD_none, Option.getD_some,
    Option.isSome_none, Option.isSome_some, Bool.or_false, Bool.or_true, if_true, if_false,
    Bool.false_eq_true] <;>
  cases cfg.has_factor <;> simp

theorem wsf_effective_factors_fn_error (w : World) (dbg : Bool)
    (hs : (wsf_config_read w dbg).1 = .WSF_CONFIG_ERROR) :
    wsf_effective_factors_fn w dbg =
      (.WSF_CONFIG_ERROR,
        { scroll_vertical := WSF_FACTOR_DEFAULT
          scroll_horizontal := WSF_FACTOR_DEFAULT
          pinch_zoom := WSF_FACTOR_DEFAULT
          pinch_rotate := WSF_FACTOR_DEFAULT
          used_legacy_factor := false }) := by
  unfold wsf_effective_factors_fn
  simp [hs]

theorem keys_ne :
    KEY_FACTOR ≠ KEY_SCROLL_VERTICAL_FACTOR ∧
    KEY_FACTOR ≠ KEY_SCROLL_HORIZONTAL_FACTOR ∧
    KEY_FACTOR ≠ KEY_PINCH_ZOOM_FACTOR ∧
    KEY_FACTOR ≠ KEY_PINCH_ROTATE_FACTOR ∧
    KEY_SCROLL_VERTICAL_FACTOR ≠ KEY_SCROLL_HORIZONTAL_FACTOR ∧
    KEY_SCROLL_VERTICAL_FACTOR ≠ KEY_PINCH_ZOOM_FACTOR ∧
    KEY_SCROLL_VERTICAL_FACTOR ≠ KEY_PINCH_ROTATE_FACTOR ∧
    KEY_SCROLL_HORIZONTAL_FACTOR ≠ KEY_PINCH_ZOOM_FACTOR ∧
    KEY_SCROLL_HORIZONTAL_FACTOR ≠ KEY_PINCH_ROTATE_FACTOR ∧
    KEY_PINCH_ZOOM_FACTOR ≠ KEY_PINCH_ROTATE_FACTOR := by
  unfold KEY_FACTOR KEY_SCROLL_VERTICAL_FACTOR KEY_SCROLL_HORIZONTAL_FACTOR
    KEY_PINCH_ZOOM_FACTOR KEY_PINCH_ROTATE_FACTOR
  decide

/-- Effect of one line on the presence flag and value of a recognized key. -/
theorem wsf_config_read_line_key (w : World) (line : List Char) (l : wsf_config_read_locals)
    (key : c_string) (hk : key ∈ recognized_keys) :
    (wsf_config_read_line w line l).out_values.has key =
        (l.out_values.has key || (entry_value w key line).isSome) ∧
    (wsf_config_read_line w line l).out_values.value key =
        (entry_value w key line).getD (l.out_values.value key) := by
  obtain ⟨n1, n2, n3, n4, n5, n6, n7, n8, n9, n10⟩ := keys_ne
  have m1 := Ne.symm n1
  have m2 := Ne.symm n2
  have m3 := Ne.symm n3
  have m4 := Ne.symm n4
  have m5 := Ne.symm n5
  have m6 := Ne.symm n6
  have m7 := Ne.symm n7
  have m8 := Ne.symm n8
  have m9 := Ne.symm n9
  have m10 := Ne.symm n10
  unfold wsf_config_read_line entry_value
  cases hkv : wsf_config_read_key_value line with
  | none => simp
  | some kv =>
    obtain ⟨k, value⟩ := kv
    simp only []
    generalize wsf_parse_factor_str w (some value) 0 = p
    obtain ⟨b, v⟩ := p
    simp only [recognized_keys, List.mem_cons, List.mem_singleton, List.not_mem_nil,
      or_false] at hk
    have hb : ∀ a : c_string, (k == a) = decide (k = a) := fun a => by
      by_cases h : k = a <;> simp [h]
    simp only [hb]
    by_cases h1 : k = KEY_FACTOR
    · subst h1
      rcases hk with rfl | rfl | rfl | rfl | rfl <;> cases b <;>
        cases hr : wsf_factor_in_range v <;>
        simp_all [wsf_config_values.has, wsf_config_values.value]
    by_cases h2 : k = KEY_SCROLL_VERTICAL_FACTOR
    · subst h2
      rcases hk with rfl | rfl | rfl | rfl | rfl <;> cases b <;>
        cases hr : wsf_factor_in_range v <;>
        simp_all [wsf_config_values.has, wsf_config_values.value]
    by_cases h3 : k = KEY_SCROLL_HORIZONTAL_FACTOR
    · subst h3
      rcases hk with rfl | rfl | rfl | rfl | rfl <;> cases b <;>
        cases hr : wsf_factor_in_range v <;>
        simp_all [wsf_config_values.has, wsf_config_values.value]
    by_cases h4 : k = KEY_PINCH_ZOOM_FACTOR
    · subst h4
      rcases hk with rfl | rfl | rfl | rfl | rfl <;> cases b <;>
        cases hr : wsf_factor_in_range v <;>
        simp_all [wsf_config_values.has, wsf_config_values.value]
    by_cases h5 : k = KEY_PINCH_ROTATE_FACTOR
    · subst h5
      rcases hk with rfl | rfl | rfl | rfl | rfl <;> cases b <;>
        cases hr : wsf_factor_in_range v <;>
        simp_all [wsf_config_values.has, wsf_config_values.value]
    · rcases hk with rfl | rfl | rfl | rfl | rfl <;>
        simp_all [wsf_config_values.has, wsf_config_values.value]

theorem wsf_config_read_loop_nil (w : World) (l : wsf_config_read_locals) :
    wsf_config_read_loop w [] l = l := rfl

theorem wsf_config_read_loop_cons (w : World) (line : List Char) (lines : List (List Char))
    (l : wsf_config_read_locals) :
    wsf_config_read_loop w (line :: lines) l =
      wsf_config_read_loop w lines (wsf_config_read_line w line l) := rfl

theorem wsf_config_read_loop_append (w : World) (pre post : List (List Char))
    (l : wsf_config_read_locals) :
    wsf_config_read_loop w (pre ++ post) l =
      wsf_config_read_loop w post (wsf_config_read_loop w pre l) := by
  unfold wsf_config_read_loop
  rw [List.foldl_append]

/-- Effect of the lines on the presence flag of a recognized key. -/
theorem wsf_config_read_loop_has (w : World) (lines : List (List Char))
    (l : wsf_config_read_locals) (key : c_string) (hk : key ∈ recognized_keys) :
    (wsf_config_read_loop w lines l).out_values.has key =
      (l.out_values.has key || lines.any (fun line => (entry_value w key line).isSome)) := by
  induction lines generalizing l with
  | nil => simp [wsf_config_read_loop_nil]
  | cons line lines ih =>
    rw [wsf_config_read_loop_cons, ih, (wsf_config_read_line_key w line l key hk).1]
    simp [Bool.or_assoc]

/-- Lines that give `key` no valid value leave its value alone. -/
theorem wsf_config_read_loop_value (w : World) (lines : List (List Char))
    (l : wsf_config_read_locals) (key : c_string) (hk : key ∈ recognized_keys)
    (hn : ∀ line ∈ lines, entry_value w key line = none) :
    (wsf_config_read_loop w lines l).out_values.value key = l.out_values.value key := by
  induction lines generalizing l with
  | nil => rfl
  | cons line lines ih =>
    rw [wsf_config_read_loop_cons, ih _ (fun x hx => hn x (List.mem_cons_of_mem _ hx)),
      (wsf_config_read_line_key w line l key hk).2, hn line (List.mem_cons_self _ _)]
    rfl

theorem wsf_factor_in_range_iff (factor : Double) :
    wsf_factor_in_range factor = true ↔ InRange factor := by
  simp [wsf_factor_in_range, InRange]

theorem entry_value_inRange (w : World) (key : c_string) (line : List Char) (v : Double)
    (hv : entry_value w key line = some v) : InRange v := by
  unfold entry_value at hv
  cases hkv : wsf_config_read_key_value line with
  | none => simp [hkv] at hv
  | some kv =>
    obtain ⟨k, value⟩ := kv
    simp only [hkv] at hv
    split_ifs at hv with hc
    · cases hv
      exact (wsf_factor_in_range_iff _).1 hc.2.2

/-- Every line keeps the value of a recognized key within [0.05, 5.0]. -/
theorem wsf_config_read_loop_inRange (w : World) (lines : List (List Char))
    (l : wsf_config_read_locals) (key : c_string) (hk : key ∈ recognized_keys)
    (hl : InRange (l.out_values.value key)) :
    InRange ((wsf_config_read_loop w lines l).out_values.value key) := by
  induction lines generalizing l with
  | nil => exact hl
  | cons line lines ih =>
    rw [wsf_config_read_loop_cons]
    apply ih
    rw [(wsf_config_read_line_key w line l key hk).2]
    cases hv : entry_value w key line with
    | none => exact hl
    | some v => exact entry_value_inRange w key line v hv

/-- Setting `invalid` before a line is read or after it comes to the same. -/
theorem wsf_config_read_line_invalid (w : World) (line : List Char)
    (l : wsf_config_read_locals) :
    wsf_config_read_line w line { l with invalid := true } =
      { wsf_config_read_line w line l with invalid := true } := by
  unfold wsf_config_read_line
  cases wsf_config_read_key_value line with
  | none => rfl
  | some kv =>
    obtain ⟨k, value⟩ := kv
    simp only []
    split_ifs <;> rfl

theorem wsf_config_read_loop_invalid (w : World) (lines : List (List Char))
    (l : wsf_config_read_locals) :
    wsf_config_read_loop w lines { l with invalid := true } =
      { wsf_config_read_loop w lines l with invalid := true } := by
  induction lines generalizing l with
  | nil => rfl
  | cons line lines ih =>
    rw [wsf_config_read_loop_cons, wsf_config_read_loop_cons, wsf_config_read_line_invalid, ih]

/-- A bad entry for a recognized key sets `invalid` and nothing else. -/
theorem wsf_config_read_line_bad (w : World) (line : List Char) (l : wsf_config_read_locals)
    (key : c_string) (hk : key ∈ recognized_keys) (hb : bad_entry w key line = true) :
    wsf_config_read_line w line l = { l with invalid := true } := by
  unfold bad_entry at hb
  unfold wsf_config_read_line
  cases hkv : wsf_config_read_key_value line with
  | none => simp [hkv] at hb
  | some kv =>
    obtain ⟨k, value⟩ := kv
    simp only [hkv, Bool.and_eq_true, decide_eq_true_eq] at hb
    obtain ⟨rfl, hbad⟩ := hb
    simp only [recognized_keys, List.mem_cons, List.mem_singleton, List.not_mem_nil,
      or_false] at hk
    have hbad' : (!(wsf_parse_factor_str w (some value) 0).1 ||
        !wsf_factor_in_range (wsf_parse_factor_str w (some value) 0).2) = true := by
      rw [← Bool.not_and]
      exact hbad
    simp only [hbad', if_true]
    split_ifs <;> first | rfl | (rcases hk with h | h | h | h | h <;> simp_all)

/-! ## Lemmas on factor resolution -/

theorem wsf_config_read_unsetenv (w : World) (name : String) (dbg : Bool)
    (hn : name ≠ "HOME") : wsf_config_read (w.unsetenv name) dbg = wsf_config_read w dbg := by
  have hh : (w.unsetenv name).getenv "HOME" = w.getenv "HOME" := by
    simp [World.unsetenv, Ne.symm hn]
  unfold wsf_config_read wsf_config_path wsf_home
  rw [hh]
  rfl

theorem env_override_unsetenv_self (w : World) (name : String) :
    env_override (w.unsetenv name) name = none := by
  simp [env_override, wsf_env_factor, World.unsetenv]

theorem env_override_unsetenv_ne (w : World) (name n : String) (hn : n ≠ name) :
    env_override (w.unsetenv name) n = env_override w n := by
  have hg : (w.unsetenv name).getenv n = w.getenv n := by
    simp [World.unsetenv, hn]
  unfold env_override wsf_env_factor
  rw [hg]
  rfl

/-- What `wsf_effective_factors` returns once the variable `name` is unset. -/
theorem wsf_effective_factors_fn_unsetenv (w : World) (dbg : Bool)
    (hs : (wsf_config_read w dbg).1 ≠ .WSF_CONFIG_ERROR) (name : String)
    (hn : name ≠ "HOME") :
    wsf_effective_factors_fn (w.unsetenv name) dbg =
      ((wsf_config_read w dbg).1,
        { scroll_vertical :=
            (env_override (w.unsetenv name) "WSF_SCROLL_VERTICAL_FACTOR").getD
              ((env_override (w.unsetenv name) "WSF_FACTOR").getD
                (if (wsf_config_read w dbg).2.has_scroll_vertical then
                  (wsf_config_read w dbg).2.scroll_vertical_factor
                else if (wsf_config_read w dbg).2.has_factor then
                  (wsf_config_read w dbg).2.factor
                else WSF_FACTOR_DEFAULT))
          scroll_horizontal :=
            (env_override (w.unsetenv name) "WSF_SCROLL_HORIZONTAL_FACTOR").getD
              ((env_override (w.unsetenv name) "WSF_FACTOR").getD
                (if (wsf_config_read w dbg).2.has_scroll_horizontal then
                  (wsf_config_read w dbg).2.scroll_horizontal_factor
                else if (wsf_config_read w dbg).2.has_factor then
                  (wsf_config_read w dbg).2.factor
                else WSF_FACTOR_DEFAULT))
          pinch_zoom :=
            (env_override (w.unsetenv name) "WSF_PINCH_ZOOM_FACTOR").getD
              (if (wsf_config_read w dbg).2.has_pinch_zoom then
                (wsf_config_read w dbg).2.pinch_zoom_factor
              else WSF_FACTOR_DEFAULT)
          pinch_rotate :=
            (env_override (w.unsetenv name) "WSF_PINCH_ROTATE_FACTOR").getD
              (if (wsf_config_read w dbg).2.has_pinch_rotate then
                (wsf_config_read w dbg).2.pinch_rotate_factor
              else WSF_FACTOR_DEFAULT)
          used_legacy_factor :=
            (wsf_config_read w dbg).2.has_factor ||
              (env_override (w.unsetenv name) "WSF_FACTOR").isSome }) := by
  have hr := wsf_config_read_unsetenv w name dbg hn
  rw [wsf_effective_factors_fn_eq (w.unsetenv name) dbg (by rw [hr]; exact hs), hr]

/-- Claim C11. For every store whose read status is not Error and every environment in
which `WSF_FACTOR` holds a valid value `e` and neither axis-specific scroll override is
set, `wsf_effective_factors` yields `scroll_vertical = e`, `scroll_horizontal = e` and
`used_legacy_factor = true`, whatever the store says. -/
theorem legacy_override_sets_both_scroll_factors (w : World) (dbg : Bool) (e : Double)
    (hs : (wsf_config_read w dbg).1 ≠ .WSF_CONFIG_ERROR)
    (he : ValidOverride w "WSF_FACTOR" e)
    (hv : w.getenv "WSF_SCROLL_VERTICAL_FACTOR" = none)
    (hh : w.getenv "WSF_SCROLL_HORIZONTAL_FACTOR" = none) :
    (wsf_effective_factors_fn w dbg).2.scroll_vertical = e ∧
    (wsf_effective_factors_fn w dbg).2.scroll_horizontal = e ∧
    (wsf_effective_factors_fn w dbg).2.used_legacy_factor = true := by
  rw [wsf_effective_factors_fn_eq w dbg hs, (validOverride_iff _ _ _).1 he,
    unset_none w _ hv, unset_none w _ hh]
  simp

/-- Claim C12. For each of the four specific overrides and every store whose read
status is not Error: if the variable holds a valid value `e`, its own field of the result
is `e` whatever the store and `WSF_FACTOR` say, and the other three factors,
`used_legacy_factor` and the status are those obtained with that variable unset. -/
theorem specific_override_own_field_only (w : World) (dbg : Bool) (e : Double)
    (hs : (wsf_config_read w dbg).1 ≠ .WSF_CONFIG_ERROR) :
    (ValidOverride w "WSF_SCROLL_VERTICAL_FACTOR" e →
      (wsf_effective_factors_fn w dbg).2.scroll_vertical = e ∧
      (wsf_effective_factors_fn w dbg).2.scroll_horizontal =
        (wsf_effective_factors_fn (w.unsetenv "WSF_SCROLL_VERTICAL_FACTOR")
          dbg).2.scroll_horizontal ∧
      (wsf_effective_factors_fn w dbg).2.pinch_zoom =
        (wsf_effective_factors_fn (w.unsetenv "WSF_SCROLL_VERTICAL_FACTOR") dbg).2.pinch_zoom ∧
      (wsf_effective_factors_fn w dbg).2.pinch_rotate =
        (wsf_effective_factors_fn (w.unsetenv "WSF_SCROLL_VERTICAL_FACTOR") dbg).2.pinch_rotate ∧
      (wsf_effective_factors_fn w dbg).2.used_legacy_factor =
        (wsf_effective_factors_fn (w.unsetenv "WSF_SCROLL_VERTICAL_FACTOR")
          dbg).2.used_legacy_factor ∧
      (wsf_effective_factors_fn w dbg).1 =
        (wsf_effective_factors_fn (w.unsetenv "WSF_SCROLL_VERTICAL_FACTOR") dbg).1) ∧
    (ValidOverride w "WSF_SCROLL_HORIZONTAL_FACTOR" e →
      (wsf_effective_factors_fn w dbg).2.scroll_horizontal = e ∧
      (wsf_effective_factors_fn w dbg).2.scroll_vertical =
        (wsf_effective_factors_fn (w.unsetenv "WSF_SCROLL_HORIZONTAL_FACTOR")
          dbg).2.scroll_vertical ∧
      (wsf_effective_factors_fn w dbg).2.pinch_zoom =
        (wsf_effective_factors_fn (w.unsetenv "WSF_SCROLL_HORIZONTAL_FACTOR") dbg).2.pinch_zoom ∧
      (wsf_effective_factors_fn w dbg).2.pinch_rotate =
        (wsf_effective_factors_fn (w.unsetenv "WSF_SCROLL_HORIZONTAL_FACTOR")
          dbg).2.pinch_rotate ∧
      (wsf_effective_factors_fn w dbg).2.used_legacy_factor =
        (wsf_effective_factors_fn (w.unsetenv "WSF_SCROLL_HORIZONTAL_FACTOR")
          dbg).2.used_legacy_factor ∧
      (wsf_effective_factors_fn w dbg).1 =
        (wsf_effective_factors_fn (w.unsetenv "WSF_SCROLL_HORIZONTAL_FACTOR") dbg).1) ∧
    (ValidOverride w "WSF_PINCH_ZOOM_FACTOR" e →
      (wsf_effective_factors_fn w dbg).2.pinch_zoom = e ∧
      (wsf_effective_factors_fn w dbg).2.scroll_vertical =
        (wsf_effective_factors_fn (w.unsetenv "WSF_PINCH_ZOOM_FACTOR") dbg).2.scroll_vertical ∧
      (wsf_effective_factors_fn w dbg).2.scroll_horizontal =
        (wsf_effective_factors_fn (w.unsetenv "WSF_PINCH_ZOOM_FACTOR") dbg).2.scroll_horizontal ∧
      (wsf_effective_factors_fn w dbg).2.pinch_rotate =
        (wsf_effective_factors_fn (w.unsetenv "WSF_PINCH_ZOOM_FACTOR") dbg).2.pinch_rotate ∧
      (wsf_effective_factors_fn w dbg).2.used_legacy_factor =
        (wsf_effective_factors_fn (w.unsetenv "WSF_PINCH_ZOOM_FACTOR")
          dbg).2.used_legacy_factor ∧
      (wsf_effective_factors_fn w dbg).1 =
        (wsf_effective_factors_fn (w.unsetenv "WSF_PINCH_ZOOM_FACTOR") dbg).1) ∧
    (ValidOverride w "WSF_PINCH_ROTATE_FACTOR" e →
      (wsf_effective_factors_fn w dbg).2.pinch_rotate = e ∧
      (wsf_effective_factors_fn w dbg).2.scroll_vertical =
        (wsf_effective_factors_fn (w.unsetenv "WSF_PINCH_ROTATE_FACTOR") dbg).2.scroll_vertical ∧
      (wsf_effective_factors_fn w dbg).2.scroll_horizontal =
        (wsf_effective_factors_fn (w.unsetenv "WSF_PINCH_ROTATE_FACTOR")
          dbg).2.scroll_horizontal ∧
      (wsf_effective_factors_fn w dbg).2.pinch_zoom =
        (wsf_effective_factors_fn (w.unsetenv "WSF_PINCH_ROTATE_FACTOR") dbg).2.pinch_zoom ∧
      (wsf_effective_factors_fn w dbg).2.used_legacy_factor =
        (wsf_effective_factors_fn (w.unsetenv "WSF_PINCH_ROTATE_FACTOR")
          dbg).2.used_legacy_factor ∧
      (wsf_effective_factors_fn w dbg).1 =
        (wsf_effective_factors_fn (w.unsetenv "WSF_PINCH_ROTATE_FACTOR") dbg).1) := by
  refine ⟨?_, ?_, ?_, ?_⟩ <;> intro he <;>
    rw [wsf_effective_factors_fn_unsetenv w dbg hs _ (by decide),
      wsf_effective_factors_fn_eq w dbg hs,
      (validOverride_iff _ _ _).1 he] <;>
    simp [env_override_unsetenv_self, env_override_unsetenv_ne]

/-- Claim C14. For every store whose read status is not Error and every environment,
`used_legacy_factor` is true if and only if the read reports the legacy `factor` key
present or `WSF_FACTOR` holds a valid value; and for a store that opens, the read
reports `factor` present exactly when some line gives it a valid value. -/
theorem used_legacy_factor_iff (w : World) (dbg : Bool)
    (hs : (wsf_config_read w dbg).1 ≠ .WSF_CONFIG_ERROR) :
    ((wsf_effective_factors_fn w dbg).2.used_legacy_factor = true ↔
      ((wsf_config_read w dbg).2.has_factor = true ∨ ∃ e, ValidOverride w "WSF_FACTOR" e)) ∧
    (∀ path lines, wsf_config_path w = some path → w.fopen_r path = .stream lines →
      ((wsf_config_read w dbg).2.has_factor = true ↔
        ∃ line ∈ lines, ∃ v, entry_value w KEY_FACTOR line = some v)) := by
  constructor
  · rw [wsf_effective_factors_fn_eq w dbg hs]
    simp only [Bool.or_eq_true, validOverride_iff, Option.isSome_iff_exists]
  · intro path lines hp hf
    have hv : (wsf_config_read w dbg).2 =
        (wsf_config_read_loop w lines
          { out_values := wsf_config_values_init, found := false, invalid := false }).out_values := by
      unfold wsf_config_read
      simp only [hp, hf]
      split_ifs <;> rfl
    have hk : KEY_FACTOR ∈ recognized_keys := by simp [recognized_keys]
    have hh := wsf_config_read_loop_has w lines
      { out_values := wsf_config_values_init, found := false, invalid := false } KEY_FACTOR hk
    have hf' : ∀ v : wsf_config_values, v.has KEY_FACTOR = v.has_factor := fun v => by
      simp [wsf_config_values.has]
    rw [hv, ← hf', hh, hf']
    simp [wsf_config_values_init, Option.isSome_iff_exists]

/-- Claim C15. For each of the five override variables, a value that is empty,
unparsable or outside [0.05, 5.0] is ignored: the status, the four factors and
`used_legacy_factor` returned by `wsf_effective_factors` are those obtained with that
variable unset. -/
theorem invalid_override_ignored (w : World) (dbg : Bool) (name : String)
    (hn : name = "WSF_FACTOR" ∨ name = "WSF_SCROLL_VERTICAL_FACTOR" ∨
      name = "WSF_SCROLL_HORIZONTAL_FACTOR" ∨ name = "WSF_PINCH_ZOOM_FACTOR" ∨
      name = "WSF_PINCH_ROTATE_FACTOR")
    (hi : InvalidOverride w name) :
    wsf_effective_factors_fn w dbg = wsf_effective_factors_fn (w.unsetenv name) dbg := by
  have hne : name ≠ "HOME" := by
    rcases hn with rfl | rfl | rfl | rfl | rfl <;> decide
  have hr := wsf_config_read_unsetenv w name dbg hne
  have ho := invalidOverride_none w name hi
  by_cases hs : (wsf_config_read w dbg).1 = .WSF_CONFIG_ERROR
  · rw [wsf_effective_factors_fn_error w dbg hs,
      wsf_effective_factors_fn_error (w.unsetenv name) dbg (by rw [hr]; exact hs)]
  · rw [wsf_effective_factors_fn_unsetenv w dbg hs name hne,
      wsf_effective_factors_fn_eq w dbg hs]
    rcases hn with rfl | rfl | rfl | rfl | rfl <;>
      simp [env_override_unsetenv_self, env_override_unsetenv_ne, ho]

theorem inRange_default : InRange WSF_FACTOR_DEFAULT := by
  unfold InRange WSF_FACTOR_DEFAULT WSF_FACTOR_MIN WSF_FACTOR_MAX
  norm_num

theorem env_override_inRange (w : World) (name : String) (e : Double)
    (he : env_override w name = some e) : InRange e := by
  obtain ⟨s, _, _, _, hr⟩ := (validOverride_iff w name e).2 he
  exact (wsf_factor_in_range_iff e).1 hr

/-- What `wsf_config_read` returns for a store that opens. -/
theorem wsf_config_read_stream (w : World) (dbg : Bool) (path : c_string)
    (lines : List (List Char)) (hp : wsf_config_path w = some path)
    (hf : w.fopen_r path = .stream lines) :
    wsf_config_read w dbg =
      ((if (wsf_config_read_loop w lines
            { out_values := wsf_config_values_init, found := false, invalid := false }).invalid
        then .WSF_CONFIG_INVALID
        else if !(wsf_config_read_loop w lines
            { out_values := wsf_config_values_init, found := false, invalid := false }).found
        then .WSF_CONFIG_MISSING
        else .WSF_CONFIG_OK),
        (wsf_config_read_loop w lines
          { out_values := wsf_config_values_init, found := false,
            invalid := false }).out_values) := by
  unfold wsf_config_read
  simp only [hp, hf]
  split_ifs <;> rfl

/-- The values read are `wsf_config_values_init` or come from the loop. -/
theorem wsf_config_read_values (w : World) (dbg : Bool) :
    (wsf_config_read w dbg).2 = wsf_config_values_init ∨
    ∃ lines, (wsf_config_read w dbg).2 =
      (wsf_config_read_loop w lines
        { out_values := wsf_config_values_init, found := false,
          invalid := false }).out_values := by
  cases hp : wsf_config_path w with
  | none => left; simp [wsf_config_read, hp]
  | some path =>
    cases hf : w.fopen_r path with
    | enoent => left; simp [wsf_config_read, hp, hf]
    | failure => left; simp [wsf_config_read, hp, hf]
    | stream lines =>
      right
      exact ⟨lines, by rw [wsf_config_read_stream w dbg path lines hp hf]⟩

/-- Every value `wsf_config_read` reports lies within [0.05, 5.0]. -/
theorem wsf_config_read_inRange (w : World) (dbg : Bool) (key : c_string)
    (hk : key ∈ recognized_keys) : InRange ((wsf_config_read w dbg).2.value key) := by
  have h0 : InRange (wsf_config_values_init.value key) := by
    have : wsf_config_values_init.value key = WSF_FACTOR_DEFAULT := by
      unfold wsf_config_values.value wsf_config_values_init
      split_ifs <;> rfl
    rw [this]
    exact inRange_default
  rcases wsf_config_read_values w dbg with h | ⟨lines, h⟩
  · rw [h]; exact h0
  · rw [h]
    exact wsf_config_read_loop_inRange w lines _ key hk h0

theorem wsf_config_read_fields_inRange (w : World) (dbg : Bool) :
    InRange (wsf_config_read w dbg).2.factor ∧
    InRange (wsf_config_read w dbg).2.scroll_vertical_factor ∧
    InRange (wsf_config_read w dbg).2.scroll_horizontal_factor ∧
    InRange (wsf_config_read w dbg).2.pinch_zoom_factor ∧
    InRange (wsf_config_read w dbg).2.pinch_rotate_factor := by
  obtain ⟨n1, n2, n3, n4, n5, n6, n7, n8, n9, n10⟩ := keys_ne
  have h1 := wsf_config_read_inRange w dbg KEY_FACTOR (by simp [recognized_keys])
  have h2 := wsf_config_read_inRange w dbg KEY_SCROLL_VERTICAL_FACTOR
    (by simp [recognized_keys])
  have h3 := wsf_config_read_inRange w dbg KEY_SCROLL_HORIZONTAL_FACTOR
    (by simp [recognized_keys])
  have h4 := wsf_config_read_inRange w dbg KEY_PINCH_ZOOM_FACTOR (by simp [recognized_keys])
  have h5 := wsf_config_read_inRange w dbg KEY_PINCH_ROTATE_FACTOR (by simp [recognized_keys])
  simp only [wsf_config_values.value, Ne.symm n1, Ne.symm n2, Ne.symm n3, Ne.symm n4,
    Ne.symm n5, Ne.symm n6, Ne.symm n7, Ne.symm n8, Ne.symm n9, Ne.symm n10, if_true,
    if_false] at h1 h2 h3 h4 h5
  exact ⟨h1, h2, h3, h4, h5⟩

theorem wsf_effective_factors_fn_inRange (w : World) (dbg : Bool) :
    InRange (wsf_effective_factors_fn w dbg).2.scroll_vertical ∧
    InRange (wsf_effective_factors_fn w dbg).2.scroll_horizontal ∧
    InRange (wsf_effective_factors_fn w dbg).2.pinch_zoom ∧
    InRange (wsf_effective_factors_fn w dbg).2.pinch_rotate := by
  by_cases hs : (wsf_config_read w dbg).1 = .WSF_CONFIG_ERROR
  · rw [wsf_effective_factors_fn_error w dbg hs]
    exact ⟨inRange_default, inRange_default, inRange_default, inRange_default⟩
  · obtain ⟨c1, c2, c3, c4, c5⟩ := wsf_config_read_fields_inRange w dbg
    have hd := inRange_default
    rw [wsf_effective_factors_fn_eq w dbg hs]
    refine ⟨?_, ?_, ?_, ?_⟩
    · cases h2 : env_override w "WSF_SCROLL_VERTICAL_FACTOR" with
      | some e => exact env_override_inRange w _ e h2
      | none =>
        cases h1 : env_override w "WSF_FACTOR" with
        | some e => exact env_override_inRange w _ e h1
        | none => simp only [Option.getD_none]; split_ifs <;> assumption
    · cases h2 : env_override w "WSF_SCROLL_HORIZONTAL_FACTOR" with
      | some e => exact env_override_inRange w _ e h2
      | none =>
        cases h1 : env_override w "WSF_FACTOR" with
        | some e => exact env_override_inRange w _ e h1
        | none => simp only [Option.getD_none]; split_ifs <;> assumption
    · cases h2 : env_override w "WSF_PINCH_ZOOM_FACTOR" with
      | some e => exact env_override_inRange w _ e h2
      | none => simp only [Option.getD_none]; split_ifs <;> assumption
    · cases h2 : env_override w "WSF_PINCH_ROTATE_FACTOR" with
      | some e => exact env_override_inRange w _ e h2
      | none => simp only [Option.getD_none]; split_ifs <;> assumption

/-- Claim C16. For every store and every environment, each of the four factors
produced by `wsf_effective_factors` lies within [0.05, 5.0], and so does each factor a
first initialization installs from it. -/
theorem factors_always_in_range (w : World) (dbg : Bool) :
    (InRange (wsf_effective_factors_fn w dbg).2.scroll_vertical ∧
      InRange (wsf_effective_factors_fn w dbg).2.scroll_horizontal ∧
      InRange (wsf_effective_factors_fn w dbg).2.pinch_zoom ∧
      InRange (wsf_effective_factors_fn w dbg).2.pinch_rotate) ∧
    (∀ (h : Host) (st : State),
      h.wsf_effective_factors h.wsf_debug_enabled = wsf_effective_factors_fn w dbg →
      st.wsf_init_done = false →
      InRange (wsf_init_internal h st).wsf_scroll_vertical_factor ∧
      InRange (wsf_init_internal h st).wsf_scroll_horizontal_factor ∧
      InRange (wsf_init_internal h st).wsf_pinch_zoom_factor ∧
      InRange (wsf_init_internal h st).wsf_pinch_rotate_factor) := by
  refine ⟨wsf_effective_factors_fn_inRange w dbg, ?_⟩
  intro h st he hd
  obtain ⟨t, ht⟩ := wsf_init_internal_eq h st hd
  obtain ⟨r1, r2, r3, r4⟩ := wsf_effective_factors_fn_inRange w dbg
  rw [ht, he]
  simp only [installed_factors]
  split_ifs
  · exact ⟨inRange_default, inRange_default, inRange_default, inRange_default⟩
  · exact ⟨r1, r2, r3, r4⟩

theorem wsf_config_read_with_store (w : World) (dbg : Bool) (path : c_string)
    (lines : List (List Char)) (hp : wsf_config_path w = some path) :
    (wsf_config_read (w.with_store lines) dbg).2 =
      (wsf_config_read_loop w lines
        { out_values := wsf_config_values_init, found := false,
          invalid := false }).out_values := by
  have hp' : wsf_config_path (w.with_store lines) = some path := hp
  rw [wsf_config_read_stream (w.with_store lines) dbg path lines hp' rfl]
  rfl

/-- What `wsf_config_read` does with a bad entry.  For a store that opens and in which a
line gives a recognized key an unparsable or out-of-range value, it returns Invalid and
skips that line: every recognized key, the one of the bad line included, has the value
and presence it has in the store without that line; when no other line gives the key a
valid value it is reported absent with value 1. -/
theorem bad_entry_is_skipped (w : World) (dbg : Bool) (path : c_string)
    (pre post : List (List Char)) (bad : List Char) (key : c_string)
    (hp : wsf_config_path w = some path)
    (hf : w.fopen_r path = .stream (pre ++ bad :: post))
    (hk : key ∈ recognized_keys) (hb : bad_entry w key bad = true) :
    (wsf_config_read w dbg).1 = .WSF_CONFIG_INVALID ∧
    (wsf_config_read w dbg).2 = (wsf_config_read (w.with_store (pre ++ post)) dbg).2 ∧
    ((∀ line ∈ pre ++ post, entry_value w key line = none) →
      (wsf_config_read w dbg).2.has key = false ∧
      (wsf_config_read w dbg).2.value key = 1) := by
  have hl : wsf_config_read_loop w (pre ++ bad :: post)
      { out_values := wsf_config_values_init, found := false, invalid := false } =
      { wsf_config_read_loop w (pre ++ post)
          { out_values := wsf_config_values_init, found := false, invalid := false } with
        invalid := true } := by
    rw [wsf_config_read_loop_append, wsf_config_read_loop_cons,
      wsf_config_read_line_bad w bad _ key hk hb, wsf_config_read_loop_invalid,
      wsf_config_read_loop_append]
  rw [wsf_config_read_stream w dbg path _ hp hf, hl,
    wsf_config_read_with_store w dbg path _ hp]
  refine ⟨by simp, rfl, ?_⟩
  intro hn
  constructor
  · rw [wsf_config_read_loop_has w _ _ key hk]
    have h0 : wsf_config_values_init.has key = false := by
      unfold wsf_config_values.has wsf_config_values_init
      split_ifs <;> rfl
    simp only [h0, Bool.false_or]
    rw [List.any_eq_false]
    intro line hline
    simp [hn line hline]
  · rw [wsf_config_read_loop_value w _ _ key hk hn]
    unfold wsf_config_values.value wsf_config_values_init WSF_FACTOR_DEFAULT
    split_ifs <;> rfl

/-- Claim C18. When the store read reports Error, `wsf_effective_factors` returns Error
with all four factors 1 and `used_legacy_factor` false whatever the overrides are, and a
first initialization installs 1 for the four factors.  When it reports Missing or
Invalid, the returned status is the read status and valid overrides are applied.  The
read reports Error when `HOME` is unset or empty, when the path does not fit `PATH_MAX`,
and when the file cannot be opened for a reason other than absence. -/
theorem read_error_gives_defaults (w : World) (dbg : Bool) :
    ((wsf_config_read w dbg).1 = .WSF_CONFIG_ERROR →
      wsf_effective_factors_fn w dbg =
        (.WSF_CONFIG_ERROR,
          { scroll_vertical := 1, scroll_horizontal := 1, pinch_zoom := 1, pinch_rotate := 1,
            used_legacy_factor := false }) ∧
      ∀ (h : Host) (st : State),
        h.wsf_effective_factors h.wsf_debug_enabled = wsf_effective_factors_fn w dbg →
        st.wsf_init_done = false →
        (wsf_init_internal h st).wsf_scroll_vertical_factor = 1 ∧
        (wsf_init_internal h st).wsf_scroll_horizontal_factor = 1 ∧
        (wsf_init_internal h st).wsf_pinch_zoom_factor = 1 ∧
        (wsf_init_internal h st).wsf_pinch_rotate_factor = 1) ∧
    ((wsf_config_read w dbg).1 = .WSF_CONFIG_MISSING ∨
        (wsf_config_read w dbg).1 = .WSF_CONFIG_INVALID →
      (wsf_effective_factors_fn w dbg).1 = (wsf_config_read w dbg).1 ∧
      (∀ e, ValidOverride w "WSF_SCROLL_VERTICAL_FACTOR" e →
        (wsf_effective_factors_fn w dbg).2.scroll_vertical = e) ∧
      (∀ e, ValidOverride w "WSF_SCROLL_HORIZONTAL_FACTOR" e →
        (wsf_effective_factors_fn w dbg).2.scroll_horizontal = e) ∧
      (∀ e, ValidOverride w "WSF_PINCH_ZOOM_FACTOR" e →
        (wsf_effective_factors_fn w dbg).2.pinch_zoom = e) ∧
      (∀ e, ValidOverride w "WSF_PINCH_ROTATE_FACTOR" e →
        (wsf_effective_factors_fn w dbg).2.pinch_rotate = e) ∧
      (∀ e, ValidOverride w "WSF_FACTOR" e →
        (wsf_effective_factors_fn w dbg).2.used_legacy_factor = true ∧
        (w.getenv "WSF_SCROLL_VERTICAL_FACTOR" = none →
          (wsf_effective_factors_fn w dbg).2.scroll_vertical = e) ∧
        (w.getenv "WSF_SCROLL_HORIZONTAL_FACTOR" = none →
          (wsf_effective_factors_fn w dbg).2.scroll_horizontal = e))) ∧
    ((w.getenv "HOME" = none ∨ w.getenv "HOME" = some [] ∨
        (∃ home, w.getenv "HOME" = some home ∧
          PATH_MAX ≤ (home ++ "/.config/wayland-scroll-factor/config".toList).length) ∨
        (∃ path, wsf_config_path w = some path ∧ w.fopen_r path = .failure)) →
      (wsf_config_read w dbg).1 = .WSF_CONFIG_ERROR) := by
  refine ⟨?_, ?_, ?_⟩
  · intro hs
    refine ⟨wsf_effective_factors_fn_error w dbg hs, ?_⟩
    intro h st he hd
    obtain ⟨t, ht⟩ := wsf_init_internal_eq h st hd
    rw [ht, he, wsf_effective_factors_fn_error w dbg hs]
    simp [installed_factors, WSF_FACTOR_DEFAULT]
  · intro hs
    have hs' : (wsf_config_read w dbg).1 ≠ .WSF_CONFIG_ERROR := by
      rcases hs with h | h <;> rw [h] <;> decide
    rw [wsf_effective_factors_fn_eq w dbg hs']
    refine ⟨rfl, ?_, ?_, ?_, ?_, ?_⟩
    · intro e he
      simp [(validOverride_iff _ _ _).1 he]
    · intro e he
      simp [(validOverride_iff _ _ _).1 he]
    · intro e he
      simp [(validOverride_iff _ _ _).1 he]
    · intro e he
      simp [(validOverride_iff _ _ _).1 he]
    · intro e he
      refine ⟨by simp [(validOverride_iff _ _ _).1 he], ?_, ?_⟩
      · intro hv
        simp [(validOverride_iff _ _ _).1 he, unset_none w _ hv]
      · intro hv
        simp [(validOverride_iff _ _ _).1 he, unset_none w _ hv]
  · rintro (hh | hh | ⟨home, hh, hlen⟩ | ⟨path, hp, hf⟩)
    · simp [wsf_config_read, wsf_config_path, wsf_home, hh]
    · simp [wsf_config_read, wsf_config_path, wsf_home, hh]
    · unfold wsf_config_read wsf_config_path wsf_home
      simp only [hh]
      by_cases he : home.isEmpty = true
      · simp [he]
      · have hlen2 : PATH_MAX ≤ home.length + 37 := by simpa using hlen
        simp [he, hlen2]
    · simp [wsf_config_read, hp, hf]

/-- Claim C19. `wsf_parse_factor_str` accepts a string if and only if, after the
leading blanks, `strtod` reads a literal (it consumes at least one character) without
range error and what follows the literal, after blanks, is empty or begins with a newline
or `#`; on acceptance the output is the value of the literal, on rejection the output
location keeps its content. -/
theorem parse_factor_str_accepts_iff (w : World) (s : c_string) (out_factor : Double) :
    ((wsf_parse_factor_str w (some s) out_factor).1 = true ↔
      ((w.strtod (s.dropWhile isspace)).consumed ≠ 0 ∧
        (w.strtod (s.dropWhile isspace)).erange = false ∧
        ((((s.dropWhile isspace).drop (w.strtod (s.dropWhile isspace)).consumed).dropWhile
            isspace) = [] ∨
          (((s.dropWhile isspace).drop (w.strtod (s.dropWhile isspace)).consumed).dropWhile
            isspace).head? = some '\n' ∨
          (((s.dropWhile isspace).drop (w.strtod (s.dropWhile isspace)).consumed).dropWhile
            isspace).head? = some '#'))) ∧
    ((wsf_parse_factor_str w (some s) out_factor).1 = true →
      (wsf_parse_factor_str w (some s) out_factor).2 =
        (w.strtod (s.dropWhile isspace)).value) ∧
    ((wsf_parse_factor_str w (some s) out_factor).1 = false →
      (wsf_parse_factor_str w (some s) out_factor).2 = out_factor) := by
  unfold wsf_parse_factor_str
  simp only []
  by_cases h1 : ((w.strtod (s.dropWhile isspace)).consumed == 0 ||
      (w.strtod (s.dropWhile isspace)).erange) = true
  · simp only [h1, if_true]
    simp only [Bool.or_eq_true, beq_iff_eq] at h1
    refine ⟨?_, by simp, by simp⟩
    constructor
    · intro h; cases h
    · rintro ⟨hc, he, _⟩
      rcases h1 with h | h
      · exact absurd h hc
      · rw [he] at h; cases h
  · simp only [h1, if_false]
    simp only [Bool.or_eq_true, beq_iff_eq, not_or, Bool.not_eq_true] at h1
    cases hr : ((s.dropWhile isspace).drop (w.strtod (s.dropWhile isspace)).consumed).dropWhile
        isspace with
    | nil => simp [h1.1, h1.2]
    | cons c t =>
      simp only [List.head?_cons, Option.some.injEq]
      by_cases h2 : (c != '\n' && c != '#') = true
      · simp only [h2, if_true]
        simp only [Bool.and_eq_true, bne_iff_ne, ne_eq] at h2
        simp [h2.1, h2.2]
      · simp only [h2, if_false]
        simp only [Bool.and_eq_true, bne_iff_ne, ne_eq, not_and, not_not] at h2
        refine ⟨⟨fun _ => ⟨h1.1, h1.2, ?_⟩, fun _ => rfl⟩, fun _ => rfl, by simp⟩
        by_cases hc : c = '\n'
        · exact Or.inr (Or.inl hc)
        · exact Or.inr (Or.inr (h2 hc))

theorem by_source_settings (h : Host) (st : State) (event : libinput_event_pointer) :
    (wsf_should_scale_scroll_by_source h st event).2.settings = st.settings := by
  unfold wsf_should_scale_scroll_by_source State.settings
  cases hc : st.wsf_real_axis_source <;>
    simp only [Option.isNone_none, Option.isNone_some, if_true, if_false,
      wsf_load_symbol_fst, wsf_load_symbol_frame, State.emit, Bool.false_eq_true, hc]
  · cases hd : (h.dlsym Symbol.axis_source).address <;> simp only []
    · split_ifs <;> simp only [wsf_debug_log_frame, wsf_load_symbol_frame]
    · split_ifs <;> simp only [wsf_load_symbol_frame]
  · split_ifs <;> rfl

theorem should_scale_settings (h : Host) (st : State) (event : libinput_event_pointer)
    (factor : Double) :
    (wsf_should_scale_scroll h st event factor).2.settings = st.settings := by
  unfold wsf_should_scale_scroll
  by_cases hg : (!st.wsf_active || factor == 1) = true
  · simp only [hg, if_true]
  · simp only [hg, if_false]
    cases hb : st.wsf_real_base_event <;> cases he : st.wsf_real_event_type <;>
      simp only [Option.isNone_none, Option.isNone_some, if_true, if_false,
        wsf_load_symbol_fst, wsf_load_symbol_frame, State.emit, Bool.false_eq_true, hb, he]
    all_goals (try (cases hdb : (h.dlsym Symbol.base_event).address))
    all_goals (try (cases hde : (h.dlsym Symbol.event_type).address))
    all_goals try simp only []
    all_goals
      (try split_ifs) <;>
        first
        | rfl
        | (rw [by_source_settings]; simp only [State.settings, wsf_load_symbol_frame])

theorem axis_value_settings (h : Host) (st : State) (event : libinput_event_pointer)
    (axis : wsf_axis_t) :
    (libinput_event_pointer_get_axis_value h st event axis).2.settings =
      (wsf_ensure_init h st).settings := by
  unfold libinput_event_pointer_get_axis_value
  generalize wsf_ensure_init h st = st1
  cases hc : st1.wsf_real_axis_value <;>
    simp only [Option.isNone_none, Option.isNone_some, if_true, if_false,
      wsf_load_symbol_fst, wsf_load_symbol_frame, State.emit, Bool.false_eq_true, hc]
  · cases hd : (h.dlsym Symbol.axis_value).address <;> simp only []
    · split_ifs <;> simp only [State.settings, wsf_debug_log_frame, wsf_load_symbol_frame]
    · split_ifs <;> rw [should_scale_settings] <;>
        simp only [State.settings, wsf_load_symbol_frame]
  · split_ifs <;> rw [should_scale_settings] <;> rfl

theorem axis_value_discrete_settings (h : Host) (st : State) (event : libinput_event_pointer)
    (axis : wsf_axis_t) :
    (libinput_event_pointer_get_axis_value_discrete h st event axis).2.settings =
      (wsf_ensure_init h st).settings := by
  unfold libinput_event_pointer_get_axis_value_discrete
  generalize wsf_ensure_init h st = st1
  cases hc : st1.wsf_real_axis_value_discrete <;>
    simp only [Option.isNone_none, Option.isNone_some, if_true, if_false,
      wsf_load_symbol_fst, wsf_load_symbol_frame, State.emit, Bool.false_eq_true, hc]
  · cases hd : (h.dlsym Symbol.axis_value_discrete).address <;> simp only []
    · split_ifs <;> simp only [State.settings, wsf_debug_log_frame, wsf_load_symbol_frame]
    · split_ifs <;> rw [should_scale_settings] <;>
        simp only [State.settings, wsf_load_symbol_frame]
  · split_ifs <;> rw [should_scale_settings] <;> rfl

theorem scroll_value_settings (h : Host) (st : State) (event : libinput_event_pointer)
    (axis : wsf_axis_t) :
    (libinput_event_pointer_get_scroll_value h st event axis).2.settings =
      (wsf_ensure_init h st).settings := by
  unfold libinput_event_pointer_get_scroll_value
  generalize wsf_ensure_init h st = st1
  cases hc : st1.wsf_real_scroll_value <;>
    simp only [Option.isNone_none, Option.isNone_some, if_true, if_false,
      wsf_load_symbol_fst, wsf_load_symbol_frame, State.emit, Bool.false_eq_true, hc]
  · cases hd : (h.dlsym Symbol.scroll_value).address <;> simp only []
    · split_ifs <;> simp only [State.settings, wsf_debug_log_frame, wsf_load_symbol_frame]
    · split_ifs <;> rw [should_scale_settings] <;>
        simp only [State.settings, wsf_load_symbol_frame]
  · split_ifs <;> rw [should_scale_settings] <;> rfl

theorem scroll_value_v120_settings (h : Host) (st : State) (event : libinput_event_pointer)
    (axis : wsf_axis_t) :
    (libinput_event_pointer_get_scroll_value_v120 h st event axis).2.settings =
      (wsf_ensure_init h st).settings := by
  unfold libinput_event_pointer_get_scroll_value_v120
  generalize wsf_ensure_init h st = st1
  cases hc : st1.wsf_real_scroll_value_v120 <;>
    simp only [Option.isNone_none, Option.isNone_some, if_true, if_false,
      wsf_load_symbol_fst, wsf_load_symbol_frame, State.emit, Bool.false_eq_true, hc]
  · cases hd : (h.dlsym Symbol.scroll_value_v120).address <;> simp only []
    · split_ifs <;> simp only [State.settings, wsf_debug_log_frame, wsf_load_symbol_frame]
    · split_ifs <;> rw [should_scale_settings] <;>
        simp only [State.settings, wsf_load_symbol_frame]
  · split_ifs <;> rw [should_scale_settings] <;> rfl

theorem gesture_scale_settings (h : Host) (st : State) (event : libinput_event_gesture) :
    (libinput_event_gesture_get_scale h st event).2.settings =
      (wsf_ensure_init h st).settings := by
  unfold libinput_event_gesture_get_scale
  generalize wsf_ensure_init h st = st1
  cases hc : st1.wsf_real_gesture_scale <;>
    simp only [Option.isNone_none, Option.isNone_some, if_true, if_false,
      wsf_load_symbol_fst, wsf_load_symbol_frame, State.emit, Bool.false_eq_true, hc]
  · cases hd : (h.dlsym Symbol.gesture_scale).address <;> simp only []
    · split_ifs <;> simp only [State.settings, wsf_debug_log_frame, wsf_load_symbol_frame]
    · split_ifs <;> simp only [State.settings, wsf_load_symbol_frame]
  · split_ifs <;> rfl

theorem gesture_angle_delta_settings (h : Host) (st : State) (event : libinput_event_gesture) :
    (libinput_event_gesture_get_angle_delta h st event).2.settings =
      (wsf_ensure_init h st).settings := by
  unfold libinput_event_gesture_get_angle_delta
  generalize wsf_ensure_init h st = st1
  cases hc : st1.wsf_real_gesture_angle_delta <;>
    simp only [Option.isNone_none, Option.isNone_some, if_true, if_false,
      wsf_load_symbol_fst, wsf_load_symbol_frame, State.emit, Bool.false_eq_true, hc]
  · cases hd : (h.dlsym Symbol.gesture_angle_delta).address <;> simp only []
    · split_ifs <;> simp only [State.settings, wsf_debug_log_frame, wsf_load_symbol_frame]
    · split_ifs <;> simp only [State.settings, wsf_load_symbol_frame]
  · split_ifs <;> rfl

theorem wsf_ensure_init_done (h : Host) (st : State) (hd : st.wsf_init_done = true) :
    wsf_ensure_init h st = st := by
  simp [wsf_ensure_init, hd]

theorem wsf_init_internal_done (h : Host) (st : State) (hd : st.wsf_init_done = true) :
    wsf_init_internal h st = st := by
  unfold wsf_init_internal
  rw [if_pos hd]

/-- A call made once initialization is done leaves the settings alone. -/
theorem call_run_settings (h : Host) (st : State) (c : Call) (hd : st.wsf_init_done = true) :
    (c.run h st).settings = st.settings := by
  cases c with
  | init => simp only [Call.run, wsf_init, wsf_init_internal_done h st hd]
  | axis_value event axis =>
    simp only [Call.run, axis_value_settings, wsf_ensure_init_done h st hd]
  | axis_value_discrete event axis =>
    simp only [Call.run, axis_value_discrete_settings, wsf_ensure_init_done h st hd]
  | scroll_value event axis =>
    simp only [Call.run, scroll_value_settings, wsf_ensure_init_done h st hd]
  | scroll_value_v120 event axis =>
    simp only [Call.run, scroll_value_v120_settings, wsf_ensure_init_done h st hd]
  | gesture_scale event =>
    simp only [Call.run, gesture_scale_settings, wsf_ensure_init_done h st hd]
  | gesture_angle_delta event =>
    simp only [Call.run, gesture_angle_delta_settings, wsf_ensure_init_done h st hd]

theorem run_calls_settings (st : State) (calls : List (Host × Call))
    (hd : st.wsf_init_done = true) : (run_calls st calls).settings = st.settings := by
  induction calls generalizing st with
  | nil => rfl
  | cons hc rest ih =>
    obtain ⟨h, c⟩ := hc
    have hs := call_run_settings h st c hd
    have hd' : (c.run h st).wsf_init_done = true := by
      have := congrArg (fun s => s.2.2.2.2.2) hs
      simp only [State.settings] at this
      rw [this, hd]
    simp only [run_calls]
    rw [ih _ hd', hs]

/-- Claim C20. Once `wsf_init_done` is set, `wsf_init_internal`, `wsf_ensure_init` and
`wsf_init` return the state they were given (the trace included: no query of the
configuration or of the process identity), and no sequence of calls changes the four
installed factors or the activation flag; every initialization ends with `wsf_init_done`
set. -/
theorem init_idempotent_and_immutable (st : State) (hd : st.wsf_init_done = true) :
    (∀ h : Host, wsf_init_internal h st = st ∧ wsf_ensure_init h st = st ∧ wsf_init h st = st) ∧
    (∀ calls : List (Host × Call),
      (run_calls st calls).wsf_scroll_vertical_factor = st.wsf_scroll_vertical_factor ∧
      (run_calls st calls).wsf_scroll_horizontal_factor = st.wsf_scroll_horizontal_factor ∧
      (run_calls st calls).wsf_pinch_zoom_factor = st.wsf_pinch_zoom_factor ∧
      (run_calls st calls).wsf_pinch_rotate_factor = st.wsf_pinch_rotate_factor ∧
      (run_calls st calls).wsf_active = st.wsf_active ∧
      (run_calls st calls).wsf_init_done = true) ∧
    (∀ (h : Host) (st0 : State), (wsf_init_internal h st0).wsf_init_done = true) := by
  refine ⟨?_, ?_, ?_⟩
  · intro h
    exact ⟨wsf_init_internal_done h st hd, wsf_ensure_init_done h st hd,
      wsf_init_internal_done h st hd⟩
  · intro calls
    have hs := run_calls_settings st calls hd
    simp only [State.settings, Prod.mk.injEq] at hs
    obtain ⟨h1, h2, h3, h4, h5, h6⟩ := hs
    exact ⟨h2, h3, h4, h5, h1, h6.trans hd⟩
  · intro h st0
    cases hd0 : st0.wsf_init_done
    · obtain ⟨t, ht⟩ := wsf_init_internal_eq h st0 hd0
      rw [ht]
    · rw [wsf_init_internal_done h st0 hd0, hd0]

/-! ## Witnesses of the claims on factor resolution and initialization -/

/-- Witness of C11: store `scroll_vertical_factor=2.0` with `WSF_FACTOR=3.0` gives 3, 3 and
the legacy flag. -/
theorem legacy_override_sets_both_scroll_factors_witness :
    (wsf_effective_factors_fn legacy_override_world false).2.scroll_vertical = 3 ∧
    (wsf_effective_factors_fn legacy_override_world false).2.scroll_horizontal = 3 ∧
    (wsf_effective_factors_fn legacy_override_world false).2.used_legacy_factor = true :=
  legacy_override_sets_both_scroll_factors legacy_override_world false 3
    (by with_unfolding_all decide)
    ⟨"3.0".toList, rfl, by decide, by with_unfolding_all rfl, by with_unfolding_all rfl⟩
    rfl rfl

/-- Witness of C12: each specific override set to `0.5` over the store `factor=1.5` puts
1/2 in its own field. -/
theorem specific_override_own_field_only_witness :
    (wsf_effective_factors_fn (specific_override_world "WSF_SCROLL_VERTICAL_FACTOR")
      false).2.scroll_vertical = 1 / 2 ∧
    (wsf_effective_factors_fn (specific_override_world "WSF_SCROLL_HORIZONTAL_FACTOR")
      false).2.scroll_horizontal = 1 / 2 ∧
    (wsf_effective_factors_fn (specific_override_world "WSF_PINCH_ZOOM_FACTOR")
      false).2.pinch_zoom = 1 / 2 ∧
    (wsf_effective_factors_fn (specific_override_world "WSF_PINCH_ROTATE_FACTOR")
      false).2.pinch_rotate = 1 / 2 :=
  ⟨((specific_override_own_field_only (specific_override_world "WSF_SCROLL_VERTICAL_FACTOR")
      false (1 / 2) (by with_unfolding_all decide)).1
      ⟨"0.5".toList, rfl, by decide, by with_unfolding_all rfl, by with_unfolding_all rfl⟩).1,
   ((specific_override_own_field_only (specific_override_world "WSF_SCROLL_HORIZONTAL_FACTOR")
      false (1 / 2) (by with_unfolding_all decide)).2.1
      ⟨"0.5".toList, rfl, by decide, by with_unfolding_all rfl, by with_unfolding_all rfl⟩).1,
   ((specific_override_own_field_only (specific_override_world "WSF_PINCH_ZOOM_FACTOR")
      false (1 / 2) (by with_unfolding_all decide)).2.2.1
      ⟨"0.5".toList, rfl, by decide, by with_unfolding_all rfl, by with_unfolding_all rfl⟩).1,
   ((specific_override_own_field_only (specific_override_world "WSF_PINCH_ROTATE_FACTOR")
      false (1 / 2) (by with_unfolding_all decide)).2.2.2
      ⟨"0.5".toList, rfl, by decide, by with_unfolding_all rfl, by with_unfolding_all rfl⟩).1⟩

/-- Witness of C14: the flag is set by a valid `WSF_FACTOR` and by a valid `factor` key. -/
theorem used_legacy_factor_iff_witness :
    (wsf_effective_factors_fn legacy_override_world false).2.used_legacy_factor = true ∧
    (wsf_effective_factors_fn legacy_key_world false).2.used_legacy_factor = true :=
  ⟨(used_legacy_factor_iff legacy_override_world false (by with_unfolding_all decide)).1.2
      (Or.inr ⟨3, "3.0".toList, rfl, by decide, by with_unfolding_all rfl,
        by with_unfolding_all rfl⟩),
   (used_legacy_factor_iff legacy_key_world false (by with_unfolding_all decide)).1.2
      (Or.inl (by with_unfolding_all rfl))⟩

/-- Witness of C15: `WSF_FACTOR=9.9` changes nothing. -/
theorem invalid_override_ignored_witness :
    wsf_effective_factors_fn invalid_override_world false =
      wsf_effective_factors_fn (invalid_override_world.unsetenv "WSF_FACTOR") false :=
  invalid_override_ignored invalid_override_world false "WSF_FACTOR" (Or.inl rfl)
    ⟨"9.9".toList, rfl,
      Or.inr (Or.inr ⟨by with_unfolding_all rfl, by with_unfolding_all rfl⟩)⟩

/-- Witness of C16: the vertical factor installed in the sample process is in range. -/
theorem factors_always_in_range_witness :
    InRange (wsf_init_internal (host_in legacy_override_world sample_host)
      {}).wsf_scroll_vertical_factor :=
  ((factors_always_in_range legacy_override_world true).2
    (host_in legacy_override_world sample_host) {} rfl rfl).1

/-- The code does not do what C17 states: in the store `pinch_zoom_factor=2.0` followed
by `pinch_zoom_factor=9.9` the second line is a bad entry for `pinch_zoom_factor`, yet the
key is reported present (with value 2) and not reverted to its default. -/
theorem bad_entry_reverts_key_counterexample :
    ¬ ∀ (w : World) (dbg : Bool) (path : c_string) (pre post : List (List Char))
      (bad : List Char) (key : c_string),
      wsf_config_path w = some path →
      w.fopen_r path = .stream (pre ++ bad :: post) →
      key ∈ recognized_keys → bad_entry w key bad = true →
      (wsf_config_read w dbg).1 = .WSF_CONFIG_INVALID ∧
      ((wsf_config_read w dbg).2.has key = false ∧
        (wsf_config_read w dbg).2.value key = 1) ∧
      ∀ k ∈ recognized_keys, k ≠ key →
        (wsf_config_read w dbg).2.has k =
          (wsf_config_read (w.with_store (pre ++ post)) dbg).2.has k ∧
        (wsf_config_read w dbg).2.value k =
          (wsf_config_read (w.with_store (pre ++ post)) dbg).2.value k := by
  intro hall
  have hclaim := hall repeated_key_world false
    "/home/u/.config/wayland-scroll-factor/config".toList
    ["pinch_zoom_factor=2.0\n".toList] [] "pinch_zoom_factor=9.9\n".toList
    KEY_PINCH_ZOOM_FACTOR rfl rfl (by simp [recognized_keys]) (by with_unfolding_all rfl)
  have hhas : (wsf_config_read repeated_key_world false).2.has KEY_PINCH_ZOOM_FACTOR = true := by
    with_unfolding_all rfl
  rw [hclaim.2.1.1] at hhas
  exact Bool.noConfusion hhas

/-- Claim C17, the code at the failing input. In the store `pinch_zoom_factor=2.0`
followed by `pinch_zoom_factor=9.9` the second line gives the key an out-of-range value:
`wsf_config_read` returns Invalid, yet it reports the key present with value 2, and the
effective pinch-zoom factor is 2, not the default 1. -/
theorem bad_entry_keeps_earlier_value :
    bad_entry repeated_key_world KEY_PINCH_ZOOM_FACTOR "pinch_zoom_factor=9.9\n".toList = true ∧
    (wsf_config_read repeated_key_world false).1 = .WSF_CONFIG_INVALID ∧
    (wsf_config_read repeated_key_world false).2.has_pinch_zoom = true ∧
    (wsf_config_read repeated_key_world false).2.pinch_zoom_factor = 2 ∧
    (wsf_effective_factors_fn repeated_key_world false).2.pinch_zoom = 2 :=
  ⟨by with_unfolding_all rfl, by with_unfolding_all rfl, by with_unfolding_all rfl,
    by with_unfolding_all rfl, by with_unfolding_all rfl⟩

/-- The scenario of the spec: the store `pinch_zoom_factor=9.9` gives Invalid, the key
absent with value 1, and the effective pinch-zoom factor 1. -/
theorem bad_entry_is_skipped_witness :
    (wsf_config_read invalid_store_world false).1 = .WSF_CONFIG_INVALID ∧
    (wsf_config_read invalid_store_world false).2.has KEY_PINCH_ZOOM_FACTOR = false ∧
    (wsf_config_read invalid_store_world false).2.value KEY_PINCH_ZOOM_FACTOR = 1 ∧
    (wsf_effective_factors_fn invalid_store_world false).2.pinch_zoom = 1 :=
  have hw := bad_entry_is_skipped invalid_store_world false
    "/home/u/.config/wayland-scroll-factor/config".toList [] []
    "pinch_zoom_factor=9.9\n".toList KEY_PINCH_ZOOM_FACTOR rfl rfl
    (by simp [recognized_keys]) (by with_unfolding_all rfl)
  ⟨hw.1, (hw.2.2 (fun _ hl => absurd hl (List.not_mem_nil _))).1,
    (hw.2.2 (fun _ hl => absurd hl (List.not_mem_nil _))).2, by with_unfolding_all rfl⟩

/-- Witness of C18: without `HOME` the result is Error with all defaults although
`WSF_FACTOR=3.0` is set, and initialization installs 1; with a missing store the status
is Missing and `WSF_PINCH_ZOOM_FACTOR=0.5` is applied. -/
theorem read_error_gives_defaults_witness :
    wsf_effective_factors_fn no_home_world false =
      (.WSF_CONFIG_ERROR,
        { scroll_vertical := 1, scroll_horizontal := 1, pinch_zoom := 1, pinch_rotate := 1,
          used_legacy_factor := false }) ∧
    (wsf_init_internal (host_in no_home_world sample_host) {}).wsf_scroll_vertical_factor = 1 ∧
    (wsf_effective_factors_fn
      (sample_world (setenv "WSF_PINCH_ZOOM_FACTOR" "0.5") .enoent) false).1 =
        .WSF_CONFIG_MISSING ∧
    (wsf_effective_factors_fn
      (sample_world (setenv "WSF_PINCH_ZOOM_FACTOR" "0.5") .enoent) false).2.pinch_zoom =
        1 / 2 :=
  ⟨((read_error_gives_defaults no_home_world false).1
      ((read_error_gives_defaults no_home_world false).2.2 (Or.inl rfl))).1,
   (((read_error_gives_defaults no_home_world false).1
      ((read_error_gives_defaults no_home_world false).2.2 (Or.inl rfl))).2
      (host_in no_home_world sample_host) {} rfl rfl).1,
   ((read_error_gives_defaults (sample_world (setenv "WSF_PINCH_ZOOM_FACTOR" "0.5") .enoent)
      false).2.1 (Or.inl rfl)).1.trans rfl,
   ((read_error_gives_defaults (sample_world (setenv "WSF_PINCH_ZOOM_FACTOR" "0.5") .enoent)
      false).2.1 (Or.inl rfl)).2.2.2.1 (1 / 2)
      ⟨"0.5".toList, rfl, by decide, by with_unfolding_all rfl, by with_unfolding_all rfl⟩⟩

/-- Witness of C19: `3.0 # fast` is accepted with value 3; `2.0 x` and the empty string
are rejected and leave the output 7 in place. -/
theorem parse_factor_str_accepts_iff_witness :
    wsf_parse_factor_str no_home_world (some "3.0 # fast".toList) 7 = (true, 3) ∧
    wsf_parse_factor_str no_home_world (some "2.0 x".toList) 7 = (false, 7) ∧
    wsf_parse_factor_str no_home_world (some []) 7 = (false, 7) :=
  ⟨Prod.ext
      ((parse_factor_str_accepts_iff no_home_world "3.0 # fast".toList 7).1.2
        ⟨by decide, rfl, Or.inr (Or.inr rfl)⟩)
      (((parse_factor_str_accepts_iff no_home_world "3.0 # fast".toList 7).2.1
        (by with_unfolding_all rfl)).trans (by with_unfolding_all rfl)),
   Prod.ext (by with_unfolding_all rfl)
      ((parse_factor_str_accepts_iff no_home_world "2.0 x".toList 7).2.2
        (by with_unfolding_all rfl)),
   Prod.ext (by with_unfolding_all rfl)
      ((parse_factor_str_accepts_iff no_home_world [] 7).2.2 (by with_unfolding_all rfl))⟩

/-- Witness of C20: after the sample initialization, a later trigger with another
environment changes nothing, and three further calls leave vertical factor 2 and the
activation flag in place. -/
theorem init_idempotent_and_immutable_witness :
    wsf_init_internal other_host (wsf_init sample_host {}) = wsf_init sample_host {} ∧
    (run_calls (wsf_init sample_host {})
      [(bare_host, .axis_value 5 0), (other_host, .init),
        (sample_host, .gesture_scale 7)]).wsf_scroll_vertical_factor = 2 ∧
    (run_calls (wsf_init sample_host {})
      [(bare_host, .axis_value 5 0), (other_host, .init),
        (sample_host, .gesture_scale 7)]).wsf_active = true :=
  ⟨((init_idempotent_and_immutable (wsf_init sample_host {}) rfl).1 other_host).1,
   ((init_idempotent_and_immutable (wsf_init sample_host {}) rfl).2.1 _).1.trans rfl,
   ((init_idempotent_and_immutable (wsf_init sample_host {}) rfl).2.1 _).2.2.2.2.1.trans rfl⟩

/-! ## Lemmas on the lines of the store -/

/-- Effect of one line on the locals `found` and `invalid`. -/
theorem wsf_config_read_line_flags (w : World) (line : List Char)
    (l : wsf_config_read_locals) :
    (wsf_config_read_line w line l).found =
        (l.found || recognized_keys.any (fun k => (entry_value w k line).isSome)) ∧
    (wsf_config_read_line w line l).invalid =
        (l.invalid || recognized_keys.any (fun k => bad_entry w k line)) := by
  obtain ⟨n1, n2, n3, n4, n5, n6, n7, n8, n9, n10⟩ := keys_ne
  have m1 := Ne.symm n1
  have m2 := Ne.symm n2
  have m3 := Ne.symm n3
  have m4 := Ne.symm n4
  have m5 := Ne.symm n5
  have m6 := Ne.symm n6
  have m7 := Ne.symm n7
  have m8 := Ne.symm n8
  have m9 := Ne.symm n9
  have m10 := Ne.symm n10
  unfold wsf_config_read_line entry_value bad_entry
  cases hkv : wsf_config_read_key_value line with
  | none => simp [recognized_keys]
  | some kv =>
    obtain ⟨k, value⟩ := kv
    simp only []
    generalize wsf_parse_factor_str w (some value) 0 = p
    obtain ⟨b, v⟩ := p
    have hb : ∀ a : c_string, (k == a) = decide (k = a) := fun a => by
      by_cases h : k = a <;> simp [h]
    simp only [hb, recognized_keys, List.any_cons, List.any_nil, Bool.or_false]
    by_cases h1 : k = KEY_FACTOR
    · subst h1
      cases b <;> cases hr : wsf_factor_in_range v <;> simp_all
    by_cases h2 : k = KEY_SCROLL_VERTICAL_FACTOR
    · subst h2
      cases b <;> cases hr : wsf_factor_in_range v <;> simp_all
    by_cases h3 : k = KEY_SCROLL_HORIZONTAL_FACTOR
    · subst h3
      cases b <;> cases hr : wsf_factor_in_range v <;> simp_all
    by_cases h4 : k = KEY_PINCH_ZOOM_FACTOR
    · subst h4
      cases b <;> cases hr : wsf_factor_in_range v <;> simp_all
    by_cases h5 : k = KEY_PINCH_ROTATE_FACTOR
    · subst h5
      cases b <;> cases hr : wsf_factor_in_range v <;> simp_all
    · simp_all

theorem wsf_config_read_loop_flags (w : World) (lines : List (List Char))
    (l : wsf_config_read_locals) :
    (wsf_config_read_loop w lines l).found =
        (l.found || lines.any (fun line =>
          recognized_keys.any (fun k => (entry_value w k line).isSome))) ∧
    (wsf_config_read_loop w lines l).invalid =
        (l.invalid || lines.any (fun line =>
          recognized_keys.any (fun k => bad_entry w k line))) := by
  induction lines generalizing l with
  | nil => simp [wsf_config_read_loop_nil]
  | cons line lines ih =>
    rw [wsf_config_read_loop_cons, (ih _).1, (ih _).2,
      (wsf_config_read_line_flags w line l).1, (wsf_config_read_line_flags w line l).2]
    simp [Bool.or_assoc]

theorem dropWhile_eq_nil_of_all (p : Char → Bool) (s : List Char)
    (h : ∀ c ∈ s, p c = true) : s.dropWhile p = [] := by
  induction s with
  | nil => rfl
  | cons c t ih =>
    have hc := h c (List.mem_cons_self _ _)
    simp only [List.dropWhile_cons, hc, if_true]
    exact ih (fun x hx => h x (List.mem_cons_of_mem _ hx))

theorem mem_of_mem_dropWhile (p : Char → Bool) (s : List Char) (c : Char)
    (h : c ∈ s.dropWhile p) : c ∈ s :=
  (List.dropWhile_sublist p).subset h

theorem wsf_config_read_line_ignored (w : World) (line : List Char)
    (l : wsf_config_read_locals) (hi : IgnoredLine line) :
    wsf_config_read_line w line l = l := by
  have hnone : wsf_config_read_key_value line = none → wsf_config_read_line w line l = l := by
    intro hn
    unfold wsf_config_read_line
    rw [hn]
  rcases hi with hb | hc | he | ⟨key, value, hkv, hk⟩
  · apply hnone
    unfold wsf_config_read_key_value
    simp only [dropWhile_eq_nil_of_all isspace _ hb]
  · apply hnone
    unfold wsf_config_read_key_value
    cases hcur : (c_str line).dropWhile isspace with
    | nil => rfl
    | cons c t =>
      rw [hcur] at hc
      simp only [List.head?_cons, Option.some.injEq] at hc
      simp [hc]
  · apply hnone
    unfold wsf_config_read_key_value
    cases hcur : (c_str line).dropWhile isspace with
    | nil => rfl
    | cons c t =>
      have hno : ((c :: t).contains '=') = false := by
        rw [← hcur]
        cases hcon : ((c_str line).dropWhile isspace).contains '=' with
        | false => rfl
        | true =>
          exfalso
          apply he
          apply mem_of_mem_dropWhile isspace
          simpa using hcon
      simp only [hno]
      split_ifs with h1 h2
      · rfl
      · rfl
      · exact absurd rfl h2
  · unfold wsf_config_read_line
    rw [hkv]
    simp only [recognized_keys, List.mem_cons, List.mem_singleton, List.not_mem_nil,
      or_false, not_or] at hk
    obtain ⟨k1, k2, k3, k4, k5⟩ := hk
    simp [k1, k2, k3, k4, k5]

theorem wsf_config_read_with_store_eq (w : World) (dbg : Bool) (path : c_string)
    (lines : List (List Char)) (hp : wsf_config_path w = some path) :
    wsf_config_read (w.with_store lines) dbg =
      ((if (wsf_config_read_loop w lines
            { out_values := wsf_config_values_init, found := false, invalid := false }).invalid
        then .WSF_CONFIG_INVALID
        else if !(wsf_config_read_loop w lines
            { out_values := wsf_config_values_init, found := false, invalid := false }).found
        then .WSF_CONFIG_MISSING
        else .WSF_CONFIG_OK),
        (wsf_config_read_loop w lines
          { out_values := wsf_config_values_init, found := false,
            invalid := false }).out_values) := by
  have hp' : wsf_config_path (w.with_store lines) = some path := hp
  rw [wsf_config_read_stream (w.with_store lines) dbg path lines hp' rfl]
  rfl

/-- Claim C21. Removing from a readable store one line that is blank, whose first
non-blank character is `#`, that has no `=`, or whose key is none of the five recognized
ones, wherever the line stands, changes nothing in what `wsf_config_read` returns: the
status, the values and the presence flags are the same (and so inserting one changes
nothing either). -/
theorem ignored_lines_change_nothing (w : World) (dbg : Bool) (path : c_string)
    (pre post : List (List Char)) (line : List Char)
    (hp : wsf_config_path w = some path)
    (hf : w.fopen_r path = .stream (pre ++ line :: post))
    (hi : IgnoredLine line) :
    wsf_config_read w dbg = wsf_config_read (w.with_store (pre ++ post)) dbg := by
  have hl : ∀ l, wsf_config_read_loop w (pre ++ line :: post) l =
      wsf_config_read_loop w (pre ++ post) l := by
    intro l
    rw [wsf_config_read_loop_append, wsf_config_read_loop_cons,
      wsf_config_read_line_ignored w line _ hi, wsf_config_read_loop_append]
  rw [wsf_config_read_stream w dbg path _ hp hf, wsf_config_read_with_store_eq w dbg path _ hp,
    hl]

/-- Counterexample to C22 as stated: the store of `comment_only_world` exists and opens,
it holds one comment line, and `wsf_config_read` returns Missing, neither Ok nor
Invalid. -/
theorem opened_store_missing_counterexample :
    ¬ ∀ (w : World) (dbg : Bool) (path : c_string) (lines : List (List Char)),
      wsf_config_path w = some path → w.fopen_r path = .stream lines →
      (wsf_config_read w dbg).1 = .WSF_CONFIG_OK ∨
        (wsf_config_read w dbg).1 = .WSF_CONFIG_INVALID := by
  intro hall
  have h1 := hall comment_only_world false
    "/home/u/.config/wayland-scroll-factor/config".toList ["# scroll settings\n".toList]
    rfl rfl
  have e : (wsf_config_read comment_only_world false).1 = .WSF_CONFIG_MISSING := by
    with_unfolding_all rfl
  rw [e] at h1
  rcases h1 with h | h <;> cases h

/-- Claim C22, amended. With a configuration path, `wsf_config_read` returns Missing
when the store is absent, and also when the store opens but no line gives a recognized
key a valid value and none gives one a bad value.  A store that opens yields Invalid
exactly when some line gives a recognized key an unparsable or out-of-range value, and Ok
exactly when no line does and some line gives a recognized key a valid value. -/
theorem read_status_of_store (w : World) (dbg : Bool) (path : c_string)
    (hp : wsf_config_path w = some path) :
    (w.fopen_r path = .enoent → (wsf_config_read w dbg).1 = .WSF_CONFIG_MISSING) ∧
    (∀ lines, w.fopen_r path = .stream lines →
      ((wsf_config_read w dbg).1 = .WSF_CONFIG_INVALID ↔
        ∃ line ∈ lines, ∃ key ∈ recognized_keys, bad_entry w key line = true) ∧
      ((wsf_config_read w dbg).1 = .WSF_CONFIG_OK ↔
        (¬ ∃ line ∈ lines, ∃ key ∈ recognized_keys, bad_entry w key line = true) ∧
        ∃ line ∈ lines, ∃ key ∈ recognized_keys, ∃ v, entry_value w key line = some v) ∧
      ((wsf_config_read w dbg).1 = .WSF_CONFIG_MISSING ↔
        (¬ ∃ line ∈ lines, ∃ key ∈ recognized_keys, bad_entry w key line = true) ∧
        ¬ ∃ line ∈ lines, ∃ key ∈ recognized_keys, ∃ v, entry_value w key line = some v)) := by
  constructor
  · intro hf
    simp [wsf_config_read, hp, hf]
  · intro lines hf
    obtain ⟨hfound, hinv⟩ := wsf_config_read_loop_flags w lines
      { out_values := wsf_config_values_init, found := false, invalid := false }
    simp only [Bool.false_or] at hfound hinv
    have hI : (wsf_config_read_loop w lines
        { out_values := wsf_config_values_init, found := false, invalid := false }).invalid =
          true ↔
        ∃ line ∈ lines, ∃ key ∈ recognized_keys, bad_entry w key line = true := by
      rw [hinv]
      simp [List.any_eq_true]
    have hF : (wsf_config_read_loop w lines
        { out_values := wsf_config_values_init, found := false, invalid := false }).found =
          true ↔
        ∃ line ∈ lines, ∃ key ∈ recognized_keys, ∃ v, entry_value w key line = some v := by
      rw [hfound]
      simp [List.any_eq_true, Option.isSome_iff_exists]
    rw [wsf_config_read_stream w dbg path lines hp hf, ← hI, ← hF]
    cases (wsf_config_read_loop w lines
        { out_values := wsf_config_values_init, found := false, invalid := false }).invalid <;>
      cases (wsf_config_read_loop w lines
        { out_values := wsf_config_values_init, found := false, invalid := false }).found <;>
      simp

/-! ## The sign of the gesture scale -/

/-- Counterexample to C26 as stated: in `shrink_host` the factor is 5 and the raw scale
is 1/10, and the value returned is `1 + (1/10 - 1) * 5 = -7/2`. -/
theorem gesture_scale_positive_counterexample :
    ¬ ∀ (h : Host) (st : State) (event : libinput_event_gesture)
      (real : wsf_gesture_value_fn),
      Resolved h .gesture_scale (wsf_ensure_init h st).wsf_real_gesture_scale real →
      InRange (wsf_ensure_init h st).wsf_pinch_zoom_factor →
      0 < real event →
      0 < (libinput_event_gesture_get_scale h st event).1 := by
  intro hall
  have hpos := hall shrink_host {} 7 (fun _ => 1 / 10) (Or.inl rfl)
    ⟨by with_unfolding_all decide, by with_unfolding_all decide⟩ (by norm_num)
  revert hpos
  with_unfolding_all decide

/-- Claim C26, amended. For a raw gesture scale above 0 and a pinch-zoom factor in
[0.05, 5.0], the value `libinput_event_gesture_get_scale` returns is above 0 when the
factor is at most 1, when the process is not active, or when the raw scale is at least 1;
in an active process with a factor above 1 the value is `1 + (scale - 1) * factor`,
whatever its sign. -/
theorem gesture_scale_sign (h : Host) (st : State) (event : libinput_event_gesture)
    (real : wsf_gesture_value_fn)
    (hres : Resolved h .gesture_scale (wsf_ensure_init h st).wsf_real_gesture_scale real)
    (hf : InRange (wsf_ensure_init h st).wsf_pinch_zoom_factor)
    (hs : 0 < real event) :
    ((wsf_ensure_init h st).wsf_pinch_zoom_factor ≤ 1 →
      0 < (libinput_event_gesture_get_scale h st event).1) ∧
    ((wsf_ensure_init h st).wsf_active = false →
      0 < (libinput_event_gesture_get_scale h st event).1) ∧
    (1 ≤ real event →
      0 < (libinput_event_gesture_get_scale h st event).1) ∧
    ((wsf_ensure_init h st).wsf_active = true →
      1 < (wsf_ensure_init h st).wsf_pinch_zoom_factor →
      (libinput_event_gesture_get_scale h st event).1 =
        1 + (real event - 1) * (wsf_ensure_init h st).wsf_pinch_zoom_factor) := by
  rw [gesture_scale_fst, (resolved_iff _ _ _ _).1 hres]
  simp only []
  generalize (wsf_ensure_init h st).wsf_pinch_zoom_factor = f at hf ⊢
  generalize (wsf_ensure_init h st).wsf_active = a
  generalize real event = s at hs ⊢
  have hfpos : 0 < f := by
    have := hf.1
    unfold WSF_FACTOR_MIN at this
    linarith
  refine ⟨?_, ?_, ?_, ?_⟩
  · intro hle
    split_ifs
    · exact hs
    · have e : 1 + (s - 1) * f = (1 - f) + s * f := by ring
      have hp := mul_pos hs hfpos
      rw [e]
      linarith
  · intro ha
    simp [ha, hs]
  · intro h1
    split_ifs
    · exact hs
    · have hp : 0 ≤ (s - 1) * f := mul_nonneg (sub_nonneg.2 h1) hfpos.le
      exact lt_of_lt_of_le one_pos (le_add_of_nonneg_right hp)
  · intro ha h1
    have hne : f ≠ 1 := ne_of_gt h1
    simp only [ha, Bool.not_true, Bool.false_or, beq_iff_eq, hne, if_false]

/-! ## Lemmas on the symbol cache -/

theorem Evolves.refl (h : Host) (st : State) : Evolves h st st :=
  ⟨rfl, rfl, fun _ => Or.inl rfl, fun _ _ => rfl, fun _ hm => hm⟩

theorem Evolves.trans {h : Host} {a b c : State} (hab : Evolves h a b) (hbc : Evolves h b c) :
    Evolves h a c := by
  obtain ⟨s1, d1, c1, l1, o1⟩ := hab
  obtain ⟨s2, d2, c2, l2, o2⟩ := hbc
  refine ⟨s2.trans s1, d2.trans d1, ?_, ?_, fun m hm => o2 m (o1 m hm)⟩
  · intro s
    rcases c1 s with h1 | ⟨h1, h1'⟩ <;> rcases c2 s with h2 | ⟨h2, h2'⟩
    · exact Or.inl (h2.trans h1)
    · exact Or.inr ⟨h1 ▸ h2, h2'⟩
    · exact Or.inr ⟨h1, h2.trans h1'⟩
    · exact Or.inr ⟨h1, h2'⟩
  · intro s hs
    have hb : b.cached s ≠ none := by
      rcases c1 s with h1 | ⟨h1, _⟩
      · rw [h1]; exact hs
      · exact absurd h1 hs
    rw [l2 s hb, l1 s hs]

theorem wsf_debug_log_trace (fmt : String) (args : List LogArg) (st : State) :
    (wsf_debug_log fmt args st).trace =
      st.trace ++ (if st.wsf_debug then [Effect.stderr fmt args] else []) := by
  unfold wsf_debug_log State.emit
  cases st.wsf_debug <;> simp

theorem wsf_load_symbol_lookups (h : Host) (s s' : Symbol) (st : State) :
    lookups s' (wsf_load_symbol h s st).2.trace =
      lookups s' st.trace + (if s = s' then 1 else 0) := by
  unfold wsf_load_symbol lookups
  cases h.dlsym s <;>
    simp only [State.emit, wsf_debug_log_trace, List.count_append, List.count_cons,
      List.count_nil] <;>
    (try split_ifs) <;> simp_all

theorem wsf_load_symbol_emitted (h : Host) (s : Symbol) (m : Missing) (st : State) :
    emitted m (wsf_load_symbol h s st).2.trace = emitted m st.trace := by
  unfold wsf_load_symbol emitted
  cases h.dlsym s <;>
    simp only [State.emit, wsf_debug_log_trace, List.count_append, List.count_cons,
      List.count_nil] <;>
    (try split_ifs) <;> simp_all

theorem wsf_debug_log_flags (fmt : String) (args : List LogArg) (st : State) :
    (wsf_debug_log fmt args st).wsf_logged_missing_scroll = st.wsf_logged_missing_scroll ∧
    (wsf_debug_log fmt args st).wsf_logged_missing_scroll_v120 =
      st.wsf_logged_missing_scroll_v120 ∧
    (wsf_debug_log fmt args st).wsf_logged_missing_axis_value =
      st.wsf_logged_missing_axis_value ∧
    (wsf_debug_log fmt args st).wsf_logged_missing_axis_value_discrete =
      st.wsf_logged_missing_axis_value_discrete ∧
    (wsf_debug_log fmt args st).wsf_logged_missing_axis_source =
      st.wsf_logged_missing_axis_source ∧
    (wsf_debug_log fmt args st).wsf_logged_missing_gesture_scale =
      st.wsf_logged_missing_gesture_scale ∧
    (wsf_debug_log fmt args st).wsf_logged_missing_gesture_angle =
      st.wsf_logged_missing_gesture_angle ∧
    (wsf_debug_log fmt args st).wsf_init_done = st.wsf_init_done := by
  obtain ⟨t, ht⟩ := wsf_debug_log_eq fmt args st
  rw [ht]
  simp

theorem wsf_load_symbol_flags (h : Host) (s : Symbol) (st : State) :
    (wsf_load_symbol h s st).2.wsf_logged_missing_scroll = st.wsf_logged_missing_scroll ∧
    (wsf_load_symbol h s st).2.wsf_logged_missing_scroll_v120 =
      st.wsf_logged_missing_scroll_v120 ∧
    (wsf_load_symbol h s st).2.wsf_logged_missing_axis_value =
      st.wsf_logged_missing_axis_value ∧
    (wsf_load_symbol h s st).2.wsf_logged_missing_axis_value_discrete =
      st.wsf_logged_missing_axis_value_discrete ∧
    (wsf_load_symbol h s st).2.wsf_logged_missing_axis_source =
      st.wsf_logged_missing_axis_source ∧
    (wsf_load_symbol h s st).2.wsf_logged_missing_gesture_scale =
      st.wsf_logged_missing_gesture_scale ∧
    (wsf_load_symbol h s st).2.wsf_logged_missing_gesture_angle =
      st.wsf_logged_missing_gesture_angle ∧
    (wsf_load_symbol h s st).2.wsf_init_done = st.wsf_init_done := by
  obtain ⟨t, ht⟩ := wsf_load_symbol_snd h s st
  rw [ht]
  simp

theorem emit_call_evolves (h : Host) (st : State) (s : Symbol) :
    Evolves h st (st.emit (.call s)) := by
  refine ⟨rfl, rfl, fun _ => Or.inl ?_, fun s' _ => ?_, fun m hm => ?_⟩
  · rename_i s'
    cases s' <;> rfl
  · simp [lookups, State.emit, List.count_append]
  · unfold OneShot at hm ⊢
    have e : emitted m (st.emit (.call s)).trace = emitted m st.trace := by
      simp [emitted, State.emit, List.count_append]
    have e' : m.logged (st.emit (.call s)) = m.logged st := by
      cases m <;> rfl
    rw [e, e']
    exact hm

theorem lazy_scroll_value_evolves (h : Host) (st : State) :
    Evolves h st
      (if st.wsf_real_scroll_value.isNone then
        { (wsf_load_symbol h .scroll_value st).2 with
          wsf_real_scroll_value := (wsf_load_symbol h .scroll_value st).1 }
      else st) := by
  cases hc : st.wsf_real_scroll_value
  · simp only [Option.isNone_none, if_true]
    refine ⟨?_, ?_, ?_, ?_, ?_⟩
    · simp [State.settings, wsf_load_symbol_frame, wsf_load_symbol_flags]
    · simp [wsf_load_symbol_frame]
    · intro s
      cases s <;> simp [State.cached, wsf_load_symbol_frame, wsf_load_symbol_fst, hc]
    · intro s hs
      cases s <;> simp_all [State.cached, wsf_load_symbol_lookups]
    · intro m hm
      unfold OneShot at hm ⊢
      simp only [wsf_load_symbol_emitted]
      cases m <;> simpa [Missing.logged, wsf_load_symbol_flags] using hm
  · simp only [Option.isNone_some]
    exact Evolves.refl h st

theorem lazy_scroll_value_v120_evolves (h : Host) (st : State) :
    Evolves h st
      (if st.wsf_real_scroll_value_v120.isNone then
        { (wsf_load_symbol h .scroll_value_v120 st).2 with
          wsf_real_scroll_value_v120 := (wsf_load_symbol h .scroll_value_v120 st).1 }
      else st) := by
  cases hc : st.wsf_real_scroll_value_v120
  · simp only [Option.isNone_none, if_true]
    refine ⟨?_, ?_, ?_, ?_, ?_⟩
    · simp [State.settings, wsf_load_symbol_frame, wsf_load_symbol_flags]
    · simp [wsf_load_symbol_frame]
    · intro s
      cases s <;> simp [State.cached, wsf_load_symbol_frame, wsf_load_symbol_fst, hc]
    · intro s hs
      cases s <;> simp_all [State.cached, wsf_load_symbol_lookups]
    · intro m hm
      unfold OneShot at hm ⊢
      simp only [wsf_load_symbol_emitted]
      cases m <;> simpa [Missing.logged, wsf_load_symbol_flags] using hm
  · simp only [Option.isNone_some]
    exact Evolves.refl h st

theorem lazy_axis_value_evolves (h : Host) (st : State) :
    Evolves h st
      (if st.wsf_real_axis_value.isNone then
        { (wsf_load_symbol h .axis_value st).2 with
          wsf_real_axis_value := (wsf_load_symbol h .axis_value st).1 }
      else st) := by
  cases hc : st.wsf_real_axis_value
  · simp only [Option.isNone_none, if_true]
    refine ⟨?_, ?_, ?_, ?_, ?_⟩
    · simp [State.settings, wsf_load_symbol_frame, wsf_load_symbol_flags]
    · simp [wsf_load_symbol_frame]
    · intro s
      cases s <;> simp [State.cached, wsf_load_symbol_frame, wsf_load_symbol_fst, hc]
    · intro s hs
      cases s <;> simp_all [State.cached, wsf_load_symbol_lookups]
    · intro m hm
      unfold OneShot at hm ⊢
      simp only [wsf_load_symbol_emitted]
      cases m <;> simpa [Missing.logged, wsf_load_symbol_flags] using hm
  · simp only [Option.isNone_some]
    exact Evolves.refl h st

theorem lazy_axis_value_discrete_evolves (h : Host) (st : State) :
    Evolves h st
      (if st.wsf_real_axis_value_discrete.isNone then
        { (wsf_load_symbol h .axis_value_discrete st).2 with
          wsf_real_axis_value_discrete := (wsf_load_symbol h .axis_value_discrete st).1 }
      else st) := by
  cases hc : st.wsf_real_axis_value_discrete
  · simp only [Option.isNone_none, if_true]
    refine ⟨?_, ?_, ?_, ?_, ?_⟩
    · simp [State.settings, wsf_load_symbol_frame, wsf_load_symbol_flags]
    · simp [wsf_load_symbol_frame]
    · intro s
      cases s <;> simp [State.cached, wsf_load_symbol_frame, wsf_load_symbol_fst, hc]
    · intro s hs
      cases s <;> simp_all [State.cached, wsf_load_symbol_lookups]
    · intro m hm
      unfold OneShot at hm ⊢
      simp only [wsf_load_symbol_emitted]
      cases m <;> simpa [Missing.logged, wsf_load_symbol_flags] using hm
  · simp only [Option.isNone_some]
    exact Evolves.refl h st

theorem lazy_axis_source_evolves (h : Host) (st : State) :
    Evolves h st
      (if st.wsf_real_axis_source.isNone then
        { (wsf_load_symbol h .axis_source st).2 with
          wsf_real_axis_source := (wsf_load_symbol h .axis_source st).1 }
      else st) := by
  cases hc : st.wsf_real_axis_source
  · simp only [Option.isNone_none, if_true]
    refine ⟨?_, ?_, ?_, ?_, ?_⟩
    · simp [State.settings, wsf_load_symbol_frame, wsf_load_symbol_flags]
    · simp [wsf_load_symbol_frame]
    · intro s
      cases s <;> simp [State.cached, wsf_load_symbol_frame, wsf_load_symbol_fst, hc]
    · intro s hs
      cases s <;> simp_all [State.cached, wsf_load_symbol_lookups]
    · intro m hm
      unfold OneShot at hm ⊢
      simp only [wsf_load_symbol_emitted]
      cases m <;> simpa [Missing.logged, wsf_load_symbol_flags] using hm
  · simp only [Option.isNone_some]
    exact Evolves.refl h st

theorem lazy_base_event_evolves (h : Host) (st : State) :
    Evolves h st
      (if st.wsf_real_base_event.isNone then
        { (wsf_load_symbol h .base_event st).2 with
          wsf_real_base_event := (wsf_load_symbol h .base_event st).1 }
      else st) := by
  cases hc : st.wsf_real_base_event
  · simp only [Option.isNone_none, if_true]
    refine ⟨?_, ?_, ?_, ?_, ?_⟩
    · simp [State.settings, wsf_load_symbol_frame, wsf_load_symbol_flags]
    · simp [wsf_load_symbol_frame]
    · intro s
      cases s <;> simp [State.cached, wsf_load_symbol_frame, wsf_load_symbol_fst, hc]
    · intro s hs
      cases s <;> simp_all [State.cached, wsf_load_symbol_lookups]
    · intro m hm
      unfold OneShot at hm ⊢
      simp only [wsf_load_symbol_emitted]
      cases m <;> simpa [Missing.logged, wsf_load_symbol_flags] using hm
  · simp only [Option.isNone_some]
    exact Evolves.refl h st

theorem lazy_event_type_evolves (h : Host) (st : State) :
    Evolves h st
      (if st.wsf_real_event_type.isNone then
        { (wsf_load_symbol h .event_type st).2 with
          wsf_real_event_type := (wsf_load_symbol h .event_type st).1 }
      else st) := by
  cases hc : st.wsf_real_event_type
  · simp only [Option.isNone_none, if_true]
    refine ⟨?_, ?_, ?_, ?_, ?_⟩
    · simp [State.settings, wsf_load_symbol_frame, wsf_load_symbol_flags]
    · simp [wsf_load_symbol_frame]
    · intro s
      cases s <;> simp [State.cached, wsf_load_symbol_frame, wsf_load_symbol_fst, hc]
    · intro s hs
      cases s <;> simp_all [State.cached, wsf_load_symbol_lookups]
    · intro m hm
      unfold OneShot at hm ⊢
      simp only [wsf_load_symbol_emitted]
      cases m <;> simpa [Missing.logged, wsf_load_symbol_flags] using hm
  · simp only [Option.isNone_some]
    exact Evolves.refl h st

theorem lazy_gesture_scale_evolves (h : Host) (st : State) :
    Evolves h st
      (if st.wsf_real_gesture_scale.isNone then
        { (wsf_load_symbol h .gesture_scale st).2 with
          wsf_real_gesture_scale := (wsf_load_symbol h .gesture_scale st).1 }
      else st) := by
  cases hc : st.wsf_real_gesture_scale
  · simp only [Option.isNone_none, if_true]
    refine ⟨?_, ?_, ?_, ?_, ?_⟩
    · simp [State.settings, wsf_load_symbol_frame, wsf_load_symbol_flags]
    · simp [wsf_load_symbol_frame]
    · intro s
      cases s <;> simp [State.cached, wsf_load_symbol_frame, wsf_load_symbol_fst, hc]
    · intro s hs
      cases s <;> simp_all [State.cached, wsf_load_symbol_lookups]
    · intro m hm
      unfold OneShot at hm ⊢
      simp only [wsf_load_symbol_emitted]
      cases m <;> simpa [Missing.logged, wsf_load_symbol_flags] using hm
  · simp only [Option.isNone_some]
    exact Evolves.refl h st

theorem lazy_gesture_angle_delta_evolves (h : Host) (st : State) :
    Evolves h st
      (if st.wsf_real_gesture_angle_delta.isNone then
        { (wsf_load_symbol h .gesture_angle_delta st).2 with
          wsf_real_gesture_angle_delta := (wsf_load_symbol h .gesture_angle_delta st).1 }
      else st) := by
  cases hc : st.wsf_real_gesture_angle_delta
  · simp only [Option.isNone_none, if_true]
    refine ⟨?_, ?_, ?_, ?_, ?_⟩
    · simp [State.settings, wsf_load_symbol_frame, wsf_load_symbol_flags]
    · simp [wsf_load_symbol_frame]
    · intro s
      cases s <;> simp [State.cached, wsf_load_symbol_frame, wsf_load_symbol_fst, hc]
    · intro s hs
      cases s <;> simp_all [State.cached, wsf_load_symbol_lookups]
    · intro m hm
      unfold OneShot at hm ⊢
      simp only [wsf_load_symbol_emitted]
      cases m <;> simpa [Missing.logged, wsf_load_symbol_flags] using hm
  · simp only [Option.isNone_some]
    exact Evolves.refl h st

theorem once_scroll_evolves (h : Host) (st : State) :
    Evolves h st
      (if st.wsf_debug && !st.wsf_logged_missing_scroll then
        { wsf_debug_log "scroll_value symbol missing; returning 0" [] st with
          wsf_logged_missing_scroll := true }
      else st) := by
  split_ifs with hc
  · simp only [Bool.and_eq_true, Bool.not_eq_true'] at hc
    refine ⟨?_, ?_, ?_, ?_, ?_⟩
    · simp [State.settings, wsf_debug_log_frame, wsf_debug_log_flags]
    · simp [wsf_debug_log_frame]
    · intro s
      cases s <;> simp [State.cached, wsf_debug_log_frame]
    · intro s _
      simp [lookups, wsf_debug_log_trace, hc.1, List.count_append]
    · intro m hm
      unfold OneShot at hm ⊢
      cases m <;>
        simp_all [Missing.logged, wsf_debug_log_flags, emitted, wsf_debug_log_trace,
          List.count_append, Missing.fmt]
  · exact Evolves.refl h st

theorem once_scroll_v120_evolves (h : Host) (st : State) :
    Evolves h st
      (if st.wsf_debug && !st.wsf_logged_missing_scroll_v120 then
        { wsf_debug_log "scroll_value_v120 symbol missing; returning 0" [] st with
          wsf_logged_missing_scroll_v120 := true }
      else st) := by
  split_ifs with hc
  · simp only [Bool.and_eq_true, Bool.not_eq_true'] at hc
    refine ⟨?_, ?_, ?_, ?_, ?_⟩
    · simp [State.settings, wsf_debug_log_frame, wsf_debug_log_flags]
    · simp [wsf_debug_log_frame]
    · intro s
      cases s <;> simp [State.cached, wsf_debug_log_frame]
    · intro s _
      simp [lookups, wsf_debug_log_trace, hc.1, List.count_append]
    · intro m hm
      unfold OneShot at hm ⊢
      cases m <;>
        simp_all [Missing.logged, wsf_debug_log_flags, emitted, wsf_debug_log_trace,
          List.count_append, Missing.fmt]
  · exact Evolves.refl h st

theorem once_axis_value_evolves (h : Host) (st : State) :
    Evolves h st
      (if st.wsf_debug && !st.wsf_logged_missing_axis_value then
        { wsf_debug_log "axis_value symbol missing; returning 0" [] st with
          wsf_logged_missing_axis_value := true }
      else st) := by
  split_ifs with hc
  · simp only [Bool.and_eq_true, Bool.not_eq_true'] at hc
    refine ⟨?_, ?_, ?_, ?_, ?_⟩
    · simp [State.settings, wsf_debug_log_frame, wsf_debug_log_flags]
    · simp [wsf_debug_log_frame]
    · intro s
      cases s <;> simp [State.cached, wsf_debug_log_frame]
    · intro s _
      simp [lookups, wsf_debug_log_trace, hc.1, List.count_append]
    · intro m hm
      unfold OneShot at hm ⊢
      cases m <;>
        simp_all [Missing.logged, wsf_debug_log_flags, emitted, wsf_debug_log_trace,
          List.count_append, Missing.fmt]
  · exact Evolves.refl h st

theorem once_axis_value_discrete_evolves (h : Host) (st : State) :
    Evolves h st
      (if st.wsf_debug && !st.wsf_logged_missing_axis_value_discrete then
        { wsf_debug_log "axis_value_discrete symbol missing; returning 0" [] st with
          wsf_logged_missing_axis_value_discrete := true }
      else st) := by
  split_ifs with hc
  · simp only [Bool.and_eq_true, Bool.not_eq_true'] at hc
    refine ⟨?_, ?_, ?_, ?_, ?_⟩
    · simp [State.settings, wsf_debug_log_frame, wsf_debug_log_flags]
    · simp [wsf_debug_log_frame]
    · intro s
      cases s <;> simp [State.cached, wsf_debug_log_frame]
    · intro s _
      simp [lookups, wsf_debug_log_trace, hc.1, List.count_append]
    · intro m hm
      unfold OneShot at hm ⊢
      cases m <;>
        simp_all [Missing.logged, wsf_debug_log_flags, emitted, wsf_debug_log_trace,
          List.count_append, Missing.fmt]
  · exact Evolves.refl h st

theorem once_axis_source_evolves (h : Host) (st : State) :
    Evolves h st
      (if st.wsf_debug && !st.wsf_logged_missing_axis_source then
        { wsf_debug_log "axis_source symbol missing; scroll scaling disabled" [] st with
          wsf_logged_missing_axis_source := true }
      else st) := by
  split_ifs with hc
  · simp only [Bool.and_eq_true, Bool.not_eq_true'] at hc
    refine ⟨?_, ?_, ?_, ?_, ?_⟩
    · simp [State.settings, wsf_debug_log_frame, wsf_debug_log_flags]
    · simp [wsf_debug_log_frame]
    · intro s
      cases s <;> simp [State.cached, wsf_debug_log_frame]
    · intro s _
      simp [lookups, wsf_debug_log_trace, hc.1, List.count_append]
    · intro m hm
      unfold OneShot at hm ⊢
      cases m <;>
        simp_all [Missing.logged, wsf_debug_log_flags, emitted, wsf_debug_log_trace,
          List.count_append, Missing.fmt]
  · exact Evolves.refl h st

theorem once_gesture_scale_evolves (h : Host) (st : State) :
    Evolves h st
      (if st.wsf_debug && !st.wsf_logged_missing_gesture_scale then
        { wsf_debug_log "gesture scale symbol missing; returning 1.0" [] st with
          wsf_logged_missing_gesture_scale := true }
      else st) := by
  split_ifs with hc
  · simp only [Bool.and_eq_true, Bool.not_eq_true'] at hc
    refine ⟨?_, ?_, ?_, ?_, ?_⟩
    · simp [State.settings, wsf_debug_log_frame, wsf_debug_log_flags]
    · simp [wsf_debug_log_frame]
    · intro s
      cases s <;> simp [State.cached, wsf_debug_log_frame]
    · intro s _
      simp [lookups, wsf_debug_log_trace, hc.1, List.count_append]
    · intro m hm
      unfold OneShot at hm ⊢
      cases m <;>
        simp_all [Missing.logged, wsf_debug_log_flags, emitted, wsf_debug_log_trace,
          List.count_append, Missing.fmt]
  · exact Evolves.refl h st

theorem once_gesture_angle_evolves (h : Host) (st : State) :
    Evolves h st
      (if st.wsf_debug && !st.wsf_logged_missing_gesture_angle then
        { wsf_debug_log "gesture angle symbol missing; returning 0" [] st with
          wsf_logged_missing_gesture_angle := true }
      else st) := by
  split_ifs with hc
  · simp only [Bool.and_eq_true, Bool.not_eq_true'] at hc
    refine ⟨?_, ?_, ?_, ?_, ?_⟩
    · simp [State.settings, wsf_debug_log_frame, wsf_debug_log_flags]
    · simp [wsf_debug_log_frame]
    · intro s
      cases s <;> simp [State.cached, wsf_debug_log_frame]
    · intro s _
      simp [lookups, wsf_debug_log_trace, hc.1, List.count_append]
    · intro m hm
      unfold OneShot at hm ⊢
      cases m <;>
        simp_all [Missing.logged, wsf_debug_log_flags, emitted, wsf_debug_log_trace,
          List.count_append, Missing.fmt]
  · exact Evolves.refl h st

theorem by_source_evolves (h : Host) (st : State) (event : libinput_event_pointer) :
    Evolves h st (wsf_should_scale_scroll_by_source h st event).2 := by
  unfold wsf_should_scale_scroll_by_source
  simp only []
  have hA := lazy_axis_source_evolves h st
  generalize (if st.wsf_real_axis_source.isNone then
        { (wsf_load_symbol h .axis_source st).2 with
          wsf_real_axis_source := (wsf_load_symbol h .axis_source st).1 }
      else st) = A at hA ⊢
  cases hc : A.wsf_real_axis_source
  · exact hA.trans (once_axis_source_evolves h A)
  · simp only []
    split_ifs
    · exact hA.trans (emit_call_evolves h A _)
    · exact hA.trans (emit_call_evolves h A _)

theorem should_scale_evolves (h : Host) (st : State) (event : libinput_event_pointer)
    (factor : Double) : Evolves h st (wsf_should_scale_scroll h st event factor).2 := by
  unfold wsf_should_scale_scroll
  by_cases hg : (!st.wsf_active || factor == 1) = true
  · rw [if_pos hg]
    exact Evolves.refl h st
  · rw [if_neg hg]
    simp only []
    have hA := lazy_base_event_evolves h st
    generalize (if st.wsf_real_base_event.isNone then
          { (wsf_load_symbol h .base_event st).2 with
            wsf_real_base_event := (wsf_load_symbol h .base_event st).1 }
        else st) = A at hA ⊢
    have hB := hA.trans (lazy_event_type_evolves h A)
    generalize (if A.wsf_real_event_type.isNone then
          { (wsf_load_symbol h .event_type A).2 with
            wsf_real_event_type := (wsf_load_symbol h .event_type A).1 }
        else A) = B at hB ⊢
    have hsrc : ∀ C, Evolves h B C →
        Evolves h st (wsf_should_scale_scroll_by_source h C event).2 :=
      fun C hC => (hB.trans hC).trans (by_source_evolves h C event)
    cases hb : B.wsf_real_base_event <;> cases ht : B.wsf_real_event_type
    · exact hsrc B (Evolves.refl h B)
    · exact hsrc B (Evolves.refl h B)
    · exact hsrc B (Evolves.refl h B)
    · simp only []
      have h1 := emit_call_evolves h B .base_event
      have h2 := h1.trans (emit_call_evolves h (B.emit (.call .base_event)) .event_type)
      split_ifs
      · exact hB.trans h2
      · exact hB.trans h2
      · exact hB.trans h2
      · exact hsrc _ h2
      · exact hsrc _ h1

theorem axis_value_evolves (h : Host) (st : State) (event : libinput_event_pointer)
    (axis : wsf_axis_t) :
    Evolves h (wsf_ensure_init h st) (libinput_event_pointer_get_axis_value h st event axis).2 := by
  unfold libinput_event_pointer_get_axis_value
  simp only []
  generalize wsf_ensure_init h st = S
  have hA := lazy_axis_value_evolves h S
  generalize (if S.wsf_real_axis_value.isNone then
        { (wsf_load_symbol h .axis_value S).2 with
          wsf_real_axis_value := (wsf_load_symbol h .axis_value S).1 }
      else S) = A at hA ⊢
  cases hc : A.wsf_real_axis_value
  · exact hA.trans (once_axis_value_evolves h A)
  · simp only []
    have hB := (hA.trans (emit_call_evolves h A .axis_value)).trans
      (should_scale_evolves h (A.emit (.call .axis_value)) event
        (wsf_scroll_factor_for_axis (A.emit (.call .axis_value)) axis))
    split_ifs
    · exact hB
    · exact hB

theorem axis_value_discrete_evolves (h : Host) (st : State) (event : libinput_event_pointer)
    (axis : wsf_axis_t) :
    Evolves h (wsf_ensure_init h st) (libinput_event_pointer_get_axis_value_discrete h st event axis).2 := by
  unfold libinput_event_pointer_get_axis_value_discrete
  simp only []
  generalize wsf_ensure_init h st = S
  have hA := lazy_axis_value_discrete_evolves h S
  generalize (if S.wsf_real_axis_value_discrete.isNone then
        { (wsf_load_symbol h .axis_value_discrete S).2 with
          wsf_real_axis_value_discrete := (wsf_load_symbol h .axis_value_discrete S).1 }
      else S) = A at hA ⊢
  cases hc : A.wsf_real_axis_value_discrete
  · exact hA.trans (once_axis_value_discrete_evolves h A)
  · simp only []
    have hB := (hA.trans (emit_call_evolves h A .axis_value_discrete)).trans
      (should_scale_evolves h (A.emit (.call .axis_value_discrete)) event
        (wsf_scroll_factor_for_axis (A.emit (.call .axis_value_discrete)) axis))
    split_ifs
    · exact hB
    · exact hB

theorem scroll_value_evolves (h : Host) (st : State) (event : libinput_event_pointer)
    (axis : wsf_axis_t) :
    Evolves h (wsf_ensure_init h st) (libinput_event_pointer_get_scroll_value h st event axis).2 := by
  unfold libinput_event_pointer_get_scroll_value
  simp only []
  generalize wsf_ensure_init h st = S
  have hA := lazy_scroll_value_evolves h S
  generalize (if S.wsf_real_scroll_value.isNone then
        { (wsf_load_symbol h .scroll_value S).2 with
          wsf_real_scroll_value := (wsf_load_symbol h .scroll_value S).1 }
      else S) = A at hA ⊢
  cases hc : A.wsf_real_scroll_value
  · exact hA.trans (once_scroll_evolves h A)
  · simp only []
    have hB := (hA.trans (emit_call_evolves h A .scroll_value)).trans
      (should_scale_evolves h (A.emit (.call .scroll_value)) event
        (wsf_scroll_factor_for_axis (A.emit (.call .scroll_value)) axis))
    split_ifs
    · exact hB
    · exact hB

theorem scroll_value_v120_evolves (h : Host) (st : State) (event : libinput_event_pointer)
    (axis : wsf_axis_t) :
    Evolves h (wsf_ensure_init h st) (libinput_event_pointer_get_scroll_value_v120 h st event axis).2 := by
  unfold libinput_event_pointer_get_scroll_value_v120
  simp only []
  generalize wsf_ensure_init h st = S
  have hA := lazy_scroll_value_v120_evolves h S
  generalize (if S.wsf_real_scroll_value_v120.isNone then
        { (wsf_load_symbol h .scroll_value_v120 S).2 with
          wsf_real_scroll_value_v120 := (wsf_load_symbol h .scroll_value_v120 S).1 }
      else S) = A at hA ⊢
  cases hc : A.wsf_real_scroll_value_v120
  · exact hA.trans (once_scroll_v120_evolves h A)
  · simp only []
    have hB := (hA.trans (emit_call_evolves h A .scroll_value_v120)).trans
      (should_scale_evolves h (A.emit (.call .scroll_value_v120)) event
        (wsf_scroll_factor_for_axis (A.emit (.call .scroll_value_v120)) axis))
    split_ifs
    · exact hB
    · exact hB

theorem gesture_scale_evolves (h : Host) (st : State) (event : libinput_event_gesture) :
    Evolves h (wsf_ensure_init h st) (libinput_event_gesture_get_scale h st event).2 := by
  unfold libinput_event_gesture_get_scale
  simp only []
  generalize wsf_ensure_init h st = S
  have hA := lazy_gesture_scale_evolves h S
  generalize (if S.wsf_real_gesture_scale.isNone then
        { (wsf_load_symbol h .gesture_scale S).2 with
          wsf_real_gesture_scale := (wsf_load_symbol h .gesture_scale S).1 }
      else S) = A at hA ⊢
  cases hc : A.wsf_real_gesture_scale
  · exact hA.trans (once_gesture_scale_evolves h A)
  · simp only []
    have hB := hA.trans (emit_call_evolves h A .gesture_scale)
    split_ifs
    · exact hB
    · exact hB

theorem gesture_angle_delta_evolves (h : Host) (st : State) (event : libinput_event_gesture) :
    Evolves h (wsf_ensure_init h st) (libinput_event_gesture_get_angle_delta h st event).2 := by
  unfold libinput_event_gesture_get_angle_delta
  simp only []
  generalize wsf_ensure_init h st = S
  have hA := lazy_gesture_angle_delta_evolves h S
  generalize (if S.wsf_real_gesture_angle_delta.isNone then
        { (wsf_load_symbol h .gesture_angle_delta S).2 with
          wsf_real_gesture_angle_delta := (wsf_load_symbol h .gesture_angle_delta S).1 }
      else S) = A at hA ⊢
  cases hc : A.wsf_real_gesture_angle_delta
  · exact hA.trans (once_gesture_angle_evolves h A)
  · simp only []
    have hB := hA.trans (emit_call_evolves h A .gesture_angle_delta)
    split_ifs
    · exact hB
    · exact hB

theorem wsf_ensure_init_sets_done (h : Host) (st : State) :
    (wsf_ensure_init h st).wsf_init_done = true := by
  cases hd : st.wsf_init_done
  · unfold wsf_ensure_init
    simp only [hd, Bool.not_false, if_true]
    obtain ⟨t, ht⟩ := wsf_init_internal_eq h st hd
    rw [ht]
  · rw [wsf_ensure_init_done h st hd, hd]

theorem Evolves.resolve_eq {h : Host} {a b : State} (hev : Evolves h a b) (s : Symbol) :
    resolve h s (b.cached s) = resolve h s (a.cached s) := by
  rcases hev.2.2.1 s with e | ⟨e1, e2⟩
  · rw [e]
  · rw [e1, e2]
    unfold resolve
    cases hd : (h.dlsym s).address <;> rfl

theorem Evolves.should_scale_eq {h : Host} {a b : State} (hev : Evolves h a b)
    (event : libinput_event_pointer) (factor : Double) :
    (wsf_should_scale_scroll h b event factor).1 =
      (wsf_should_scale_scroll h a event factor).1 := by
  have hs := hev.1
  simp only [State.settings, Prod.mk.injEq] at hs
  have hb := hev.resolve_eq .base_event
  have he := hev.resolve_eq .event_type
  have ha := hev.resolve_eq .axis_source
  simp only [State.cached] at hb he ha
  rw [should_scale_fst, should_scale_fst, by_source_fst, by_source_fst, hs.1, hb, he, ha]

theorem Evolves.scroll_factor_eq {h : Host} {a b : State} (hev : Evolves h a b)
    (axis : wsf_axis_t) :
    wsf_scroll_factor_for_axis b axis = wsf_scroll_factor_for_axis a axis := by
  have hs := hev.1
  simp only [State.settings, Prod.mk.injEq] at hs
  unfold wsf_scroll_factor_for_axis
  rw [hs.2.1, hs.2.2.1]

theorem Evolves.ensure_init_eq {h : Host} {a b : State} (hev : Evolves h a b)
    (hd : a.wsf_init_done = true) : wsf_ensure_init h b = b := by
  have hs := hev.1
  simp only [State.settings, Prod.mk.injEq] at hs
  exact wsf_ensure_init_done h b (hs.2.2.2.2.2.trans hd)

theorem axis_value_twice (h : Host) (st : State) (event : libinput_event_pointer)
    (axis : wsf_axis_t) :
    (libinput_event_pointer_get_axis_value h (libinput_event_pointer_get_axis_value h st event axis).2 event axis).1 =
      (libinput_event_pointer_get_axis_value h st event axis).1 := by
  have hev := axis_value_evolves h st event axis
  have hr := hev.resolve_eq .axis_value
  simp only [State.cached] at hr
  rw [axis_value_fst h _ event axis, axis_value_fst h st event axis,
    hev.ensure_init_eq (wsf_ensure_init_sets_done h st), hr, hev.should_scale_eq,
    hev.scroll_factor_eq]

theorem axis_value_discrete_twice (h : Host) (st : State) (event : libinput_event_pointer)
    (axis : wsf_axis_t) :
    (libinput_event_pointer_get_axis_value_discrete h (libinput_event_pointer_get_axis_value_discrete h st event axis).2 event axis).1 =
      (libinput_event_pointer_get_axis_value_discrete h st event axis).1 := by
  have hev := axis_value_discrete_evolves h st event axis
  have hr := hev.resolve_eq .axis_value_discrete
  simp only [State.cached] at hr
  rw [axis_value_discrete_fst h _ event axis, axis_value_discrete_fst h st event axis,
    hev.ensure_init_eq (wsf_ensure_init_sets_done h st), hr, hev.should_scale_eq,
    hev.scroll_factor_eq]

theorem scroll_value_twice (h : Host) (st : State) (event : libinput_event_pointer)
    (axis : wsf_axis_t) :
    (libinput_event_pointer_get_scroll_value h (libinput_event_pointer_get_scroll_value h st event axis).2 event axis).1 =
      (libinput_event_pointer_get_scroll_value h st event axis).1 := by
  have hev := scroll_value_evolves h st event axis
  have hr := hev.resolve_eq .scroll_value
  simp only [State.cached] at hr
  rw [scroll_value_fst h _ event axis, scroll_value_fst h st event axis,
    hev.ensure_init_eq (wsf_ensure_init_sets_done h st), hr, hev.should_scale_eq,
    hev.scroll_factor_eq]

theorem scroll_value_v120_twice (h : Host) (st : State) (event : libinput_event_pointer)
    (axis : wsf_axis_t) :
    (libinput_event_pointer_get_scroll_value_v120 h (libinput_event_pointer_get_scroll_value_v120 h st event axis).2 event axis).1 =
      (libinput_event_pointer_get_scroll_value_v120 h st event axis).1 := by
  have hev := scroll_value_v120_evolves h st event axis
  have hr := hev.resolve_eq .scroll_value_v120
  simp only [State.cached] at hr
  rw [scroll_value_v120_fst h _ event axis, scroll_value_v120_fst h st event axis,
    hev.ensure_init_eq (wsf_ensure_init_sets_done h st), hr, hev.should_scale_eq,
    hev.scroll_factor_eq]

theorem gesture_scale_twice (h : Host) (st : State) (event : libinput_event_gesture) :
    (libinput_event_gesture_get_scale h (libinput_event_gesture_get_scale h st event).2 event).1 =
      (libinput_event_gesture_get_scale h st event).1 := by
  have hev := gesture_scale_evolves h st event
  have hr := hev.resolve_eq .gesture_scale
  have hs := hev.1
  simp only [State.settings, Prod.mk.injEq] at hs
  simp only [State.cached] at hr
  rw [gesture_scale_fst h _ event, gesture_scale_fst h st event,
    hev.ensure_init_eq (wsf_ensure_init_sets_done h st), hr, hs.1, hs.2.2.2.1]

theorem gesture_angle_delta_twice (h : Host) (st : State) (event : libinput_event_gesture) :
    (libinput_event_gesture_get_angle_delta h
        (libinput_event_gesture_get_angle_delta h st event).2 event).1 =
      (libinput_event_gesture_get_angle_delta h st event).1 := by
  have hev := gesture_angle_delta_evolves h st event
  have hr := hev.resolve_eq .gesture_angle_delta
  have hs := hev.1
  simp only [State.settings, Prod.mk.injEq] at hs
  simp only [State.cached] at hr
  rw [gesture_angle_delta_fst h _ event, gesture_angle_delta_fst h st event,
    hev.ensure_init_eq (wsf_ensure_init_sets_done h st), hr, hs.1, hs.2.2.2.2.1]

theorem wsf_load_symbol_trace (h : Host) (s : Symbol) (st : State) :
    (wsf_load_symbol h s st).2.trace =
      st.trace ++ Effect.dlsym s ::
        (match h.dlsym s with
        | .error msg =>
          if st.wsf_debug then
            [Effect.stderr "symbol %s not found: %s" [.str s.name, .str msg]]
          else []
        | _ => []) := by
  unfold wsf_load_symbol
  cases h.dlsym s <;> simp [State.emit, wsf_debug_log_trace]

theorem address_none_of_unresolved {h : Host} {s : Symbol} {cached : Option s.fn}
    (hu : Unresolved h s cached) : cached = none ∧ (h.dlsym s).address = none := by
  refine ⟨hu.1, ?_⟩
  cases hd : h.dlsym s with
  | symbol f => exact absurd hd (hu.2 f)
  | null => rfl
  | error msg => rfl

theorem axis_value_unresolved_trace (h : Host) (st : State) (event : libinput_event_pointer)
    (axis : wsf_axis_t)
    (hd : st.wsf_init_done = true) (hn : st.wsf_real_axis_value = none)
    (ha : (h.dlsym .axis_value).address = none) :
    (libinput_event_pointer_get_axis_value h st event axis).2.wsf_real_axis_value = none ∧
    (libinput_event_pointer_get_axis_value h st event axis).2.trace =
      (wsf_load_symbol h .axis_value st).2.trace ++
        (if st.wsf_debug && !st.wsf_logged_missing_axis_value then
          [Effect.stderr "axis_value symbol missing; returning 0" []]
        else []) := by
  unfold libinput_event_pointer_get_axis_value
  rw [wsf_ensure_init_done h st hd]
  simp only [hn, Option.isNone_none, if_true, wsf_load_symbol_fst, ha, wsf_load_symbol_frame,
    wsf_load_symbol_flags]
  split_ifs with hc
  · simp only [Bool.and_eq_true] at hc
    simp [wsf_debug_log_frame, wsf_debug_log_trace, wsf_load_symbol_fst, ha,
      wsf_load_symbol_frame, hc.1]
  · simp [wsf_load_symbol_fst, ha]

theorem axis_value_discrete_unresolved_trace (h : Host) (st : State) (event : libinput_event_pointer)
    (axis : wsf_axis_t)
    (hd : st.wsf_init_done = true) (hn : st.wsf_real_axis_value_discrete = none)
    (ha : (h.dlsym .axis_value_discrete).address = none) :
    (libinput_event_pointer_get_axis_value_discrete h st event axis).2.wsf_real_axis_value_discrete = none ∧
    (libinput_event_pointer_get_axis_value_discrete h st event axis).2.trace =
      (wsf_load_symbol h .axis_value_discrete st).2.trace ++
        (if st.wsf_debug && !st.wsf_logged_missing_axis_value_discrete then
          [Effect.stderr "axis_value_discrete symbol missing; returning 0" []]
        else []) := by
  unfold libinput_event_pointer_get_axis_value_discrete
  rw [wsf_ensure_init_done h st hd]
  simp only [hn, Option.isNone_none, if_true, wsf_load_symbol_fst, ha, wsf_load_symbol_frame,
    wsf_load_symbol_flags]
  split_ifs with hc
  · simp only [Bool.and_eq_true] at hc
    simp [wsf_debug_log_frame, wsf_debug_log_trace, wsf_load_symbol_fst, ha,
      wsf_load_symbol_frame, hc.1]
  · simp [wsf_load_symbol_fst, ha]

theorem scroll_value_unresolved_trace (h : Host) (st : State) (event : libinput_event_pointer)
    (axis : wsf_axis_t)
    (hd : st.wsf_init_done = true) (hn : st.wsf_real_scroll_value = none)
    (ha : (h.dlsym .scroll_value).address = none) :
    (libinput_event_pointer_get_scroll_value h st event axis).2.wsf_real_scroll_value = none ∧
    (libinput_event_pointer_get_scroll_value h st event axis).2.trace =
      (wsf_load_symbol h .scroll_value st).2.trace ++
        (if st.wsf_debug && !st.wsf_logged_missing_scroll then
          [Effect.stderr "scroll_value symbol missing; returning 0" []]
        else []) := by
  unfold libinput_event_pointer_get_scroll_value
  rw [wsf_ensure_init_done h st hd]
  simp only [hn, Option.isNone_none, if_true, wsf_load_symbol_fst, ha, wsf_load_symbol_frame,
    wsf_load_symbol_flags]
  split_ifs with hc
  · simp only [Bool.and_eq_true] at hc
    simp [wsf_debug_log_frame, wsf_debug_log_trace, wsf_load_symbol_fst, ha,
      wsf_load_symbol_frame, hc.1]
  · simp [wsf_load_symbol_fst, ha]

theorem scroll_value_v120_unresolved_trace (h : Host) (st : State) (event : libinput_event_pointer)
    (axis : wsf_axis_t)
    (hd : st.wsf_init_done = true) (hn : st.wsf_real_scroll_value_v120 = none)
    (ha : (h.dlsym .scroll_value_v120).address = none) :
    (libinput_event_pointer_get_scroll_value_v120 h st event axis).2.wsf_real_scroll_value_v120 = none ∧
    (libinput_event_pointer_get_scroll_value_v120 h st event axis).2.trace =
      (wsf_load_symbol h .scroll_value_v120 st).2.trace ++
        (if st.wsf_debug && !st.wsf_logged_missing_scroll_v120 then
          [Effect.stderr "scroll_value_v120 symbol missing; returning 0" []]
        else []) := by
  unfold libinput_event_pointer_get_scroll_value_v120
  rw [wsf_ensure_init_done h st hd]
  simp only [hn, Option.isNone_none, if_true, wsf_load_symbol_fst, ha, wsf_load_symbol_frame,
    wsf_load_symbol_flags]
  split_ifs with hc
  · simp only [Bool.and_eq_true] at hc
    simp [wsf_debug_log_frame, wsf_debug_log_trace, wsf_load_symbol_fst, ha,
      wsf_load_symbol_frame, hc.1]
  · simp [wsf_load_symbol_fst, ha]

theorem gesture_scale_unresolved_trace (h : Host) (st : State) (event : libinput_event_gesture)
    (hd : st.wsf_init_done = true) (hn : st.wsf_real_gesture_scale = none)
    (ha : (h.dlsym .gesture_scale).address = none) :
    (libinput_event_gesture_get_scale h st event).2.wsf_real_gesture_scale = none ∧
    (libinput_event_gesture_get_scale h st event).2.trace =
      (wsf_load_symbol h .gesture_scale st).2.trace ++
        (if st.wsf_debug && !st.wsf_logged_missing_gesture_scale then
          [Effect.stderr "gesture scale symbol missing; returning 1.0" []]
        else []) := by
  unfold libinput_event_gesture_get_scale
  rw [wsf_ensure_init_done h st hd]
  simp only [hn, Option.isNone_none, if_true, wsf_load_symbol_fst, ha, wsf_load_symbol_frame,
    wsf_load_symbol_flags]
  split_ifs with hc
  · simp only [Bool.and_eq_true] at hc
    simp [wsf_debug_log_frame, wsf_debug_log_trace, wsf_load_symbol_fst, ha,
      wsf_load_symbol_frame, hc.1]
  · simp [wsf_load_symbol_fst, ha]

theorem gesture_angle_delta_unresolved_trace (h : Host) (st : State) (event : libinput_event_gesture)
    (hd : st.wsf_init_done = true) (hn : st.wsf_real_gesture_angle_delta = none)
    (ha : (h.dlsym .gesture_angle_delta).address = none) :
    (libinput_event_gesture_get_angle_delta h st event).2.wsf_real_gesture_angle_delta = none ∧
    (libinput_event_gesture_get_angle_delta h st event).2.trace =
      (wsf_load_symbol h .gesture_angle_delta st).2.trace ++
        (if st.wsf_debug && !st.wsf_logged_missing_gesture_angle then
          [Effect.stderr "gesture angle symbol missing; returning 0" []]
        else []) := by
  unfold libinput_event_gesture_get_angle_delta
  rw [wsf_ensure_init_done h st hd]
  simp only [hn, Option.isNone_none, if_true, wsf_load_symbol_fst, ha, wsf_load_symbol_frame,
    wsf_load_symbol_flags]
  split_ifs with hc
  · simp only [Bool.and_eq_true] at hc
    simp [wsf_debug_log_frame, wsf_debug_log_trace, wsf_load_symbol_fst, ha,
      wsf_load_symbol_frame, hc.1]
  · simp [wsf_load_symbol_fst, ha]

theorem call_run_evolves (h : Host) (st : State) (c : Call) (hd : st.wsf_init_done = true) :
    Evolves h st (c.run h st) := by
  have e := wsf_ensure_init_done h st hd
  cases c with
  | init =>
    show Evolves h st (wsf_init_internal h st)
    rw [wsf_init_internal_done h st hd]
    exact Evolves.refl h st
  | axis_value event axis =>
    have := axis_value_evolves h st event axis
    rwa [e] at this
  | axis_value_discrete event axis =>
    have := axis_value_discrete_evolves h st event axis
    rwa [e] at this
  | scroll_value event axis =>
    have := scroll_value_evolves h st event axis
    rwa [e] at this
  | scroll_value_v120 event axis =>
    have := scroll_value_v120_evolves h st event axis
    rwa [e] at this
  | gesture_scale event =>
    have := gesture_scale_evolves h st event
    rwa [e] at this
  | gesture_angle_delta event =>
    have := gesture_angle_delta_evolves h st event
    rwa [e] at this

theorem Evolves.done {h : Host} {a b : State} (hev : Evolves h a b)
    (hd : a.wsf_init_done = true) : b.wsf_init_done = true := by
  have hs := hev.1
  simp only [State.settings, Prod.mk.injEq] at hs
  exact hs.2.2.2.2.2.trans hd

theorem Evolves.keeps {h : Host} {a b : State} (hev : Evolves h a b) (s : Symbol) (f : s.fn)
    (hc : a.cached s = some f) :
    b.cached s = some f ∧ lookups s b.trace = lookups s a.trace := by
  refine ⟨?_, hev.2.2.2.1 s (by rw [hc]; exact Option.some_ne_none f)⟩
  rcases hev.2.2.1 s with e | ⟨e, _⟩
  · rw [e, hc]
  · rw [hc] at e
    exact absurd e (Option.some_ne_none f)

theorem run_calls_keeps (st : State) (calls : List (Host × Call))
    (hd : st.wsf_init_done = true) (s : Symbol) (f : s.fn) (hc : st.cached s = some f) :
    (run_calls st calls).cached s = some f ∧
      lookups s (run_calls st calls).trace = lookups s st.trace := by
  induction calls generalizing st with
  | nil => exact ⟨hc, rfl⟩
  | cons p rest ih =>
    obtain ⟨h, c⟩ := p
    have hev := call_run_evolves h st c hd
    have hk := hev.keeps s f hc
    have := ih (c.run h st) (hev.done hd) hk.1
    exact ⟨this.1, this.2.trans hk.2⟩

theorem wsf_init_internal_sets_done (h : Host) (st : State) :
    (wsf_init_internal h st).wsf_init_done = true := by
  cases hd : st.wsf_init_done
  · obtain ⟨t, ht⟩ := wsf_init_internal_eq h st hd
    rw [ht]
  · rw [wsf_init_internal_done h st hd, hd]

theorem call_run_sets_done (h : Host) (st : State) (c : Call) :
    (c.run h st).wsf_init_done = true := by
  have e := wsf_ensure_init_sets_done h st
  cases c with
  | init => exact wsf_init_internal_sets_done h st
  | axis_value event axis => exact (axis_value_evolves h st event axis).done e
  | axis_value_discrete event axis => exact (axis_value_discrete_evolves h st event axis).done e
  | scroll_value event axis => exact (scroll_value_evolves h st event axis).done e
  | scroll_value_v120 event axis => exact (scroll_value_v120_evolves h st event axis).done e
  | gesture_scale event => exact (gesture_scale_evolves h st event).done e
  | gesture_angle_delta event => exact (gesture_angle_delta_evolves h st event).done e

theorem run_calls_done (st : State) (calls : List (Host × Call))
    (hd : st.wsf_init_done = true) : (run_calls st calls).wsf_init_done = true := by
  induction calls generalizing st with
  | nil => exact hd
  | cons p rest ih => exact ih _ (call_run_sets_done p.1 st p.2)

theorem reachable_cached_done (calls : List (Host × Call)) (s : Symbol)
    (hc : (run_calls {} calls).cached s ≠ none) :
    (run_calls {} calls).wsf_init_done = true := by
  cases calls with
  | nil =>
    exfalso
    apply hc
    cases s <;> rfl
  | cons p rest => exact run_calls_done _ rest (call_run_sets_done p.1 _ p.2)

theorem emitted_snoc (m : Missing) (t : List Effect) (e : Effect) :
    emitted m (t ++ [e]) = emitted m t + if e = .stderr m.fmt [] then 1 else 0 := by
  unfold emitted
  rw [List.count_append, List.count_singleton]
  by_cases he : e = .stderr m.fmt []
  · simp [he]
  · have : (e == Effect.stderr m.fmt []) = false := by simpa using he
    simp [this, he]

theorem wsf_debug_log_emitted (m : Missing) (fmt : String) (a : LogArg) (args : List LogArg)
    (st : State) : emitted m (wsf_debug_log fmt (a :: args) st).trace = emitted m st.trace := by
  rw [wsf_debug_log_trace]
  cases st.wsf_debug
  · simp
  · simp only [if_true]
    rw [emitted_snoc]
    simp

theorem wsf_init_report_emitted (h : Host) (S : State) (m : Missing) :
    emitted m (match h.wsf_proc_name with
    | some proc_name =>
      wsf_init_report_rest (wsf_debug_log
        "init: process=%s active=%s scroll_vertical=%.4f scroll=%s v120=%s"
        [.str proc_name, yes_no S.wsf_active, .dbl S.wsf_scroll_vertical_factor,
          yes_no S.wsf_real_scroll_value.isSome,
          yes_no S.wsf_real_scroll_value_v120.isSome] S)
    | none =>
      wsf_init_report_rest (wsf_debug_log
        "init: process=unknown active=%s scroll_vertical=%.4f scroll=%s v120=%s"
        [yes_no S.wsf_active, .dbl S.wsf_scroll_vertical_factor,
          yes_no S.wsf_real_scroll_value.isSome,
          yes_no S.wsf_real_scroll_value_v120.isSome] S)).trace = emitted m S.trace := by
  cases h.wsf_proc_name <;>
    simp only [wsf_init_report_rest, wsf_debug_log_emitted]

theorem wsf_init_internal_emitted (h : Host) (st : State) (m : Missing) :
    emitted m (wsf_init_internal h st).trace = emitted m st.trace := by
  unfold wsf_init_internal
  by_cases hd : st.wsf_init_done = true
  · rw [if_pos hd]
  · rw [if_neg hd]
    refine (wsf_init_report_emitted h _ m).trans ?_
    simp only [State.emit, wsf_load_symbol_emitted, emitted_snoc, reduceCtorEq, if_false,
      Nat.add_zero]

theorem wsf_init_internal_logged (h : Host) (st : State) (m : Missing) :
    m.logged (wsf_init_internal h st) = m.logged st := by
  cases hd : st.wsf_init_done
  · obtain ⟨t, ht⟩ := wsf_init_internal_eq h st hd
    rw [ht]
    cases m <;> rfl
  · rw [wsf_init_internal_done h st hd]

theorem wsf_init_internal_oneShot (h : Host) (st : State) (m : Missing) (hm : OneShot m st) :
    OneShot m (wsf_init_internal h st) := by
  unfold OneShot at hm ⊢
  rw [wsf_init_internal_emitted, wsf_init_internal_logged]
  exact hm

theorem call_run_oneShot (h : Host) (st : State) (c : Call) (hm : ∀ m, OneShot m st) :
    ∀ m, OneShot m (c.run h st) := by
  have e : ∀ m, OneShot m (wsf_ensure_init h st) := by
    intro m
    unfold wsf_ensure_init
    split_ifs
    · exact wsf_init_internal_oneShot h st m (hm m)
    · exact hm m
  intro m
  cases c with
  | init => exact wsf_init_internal_oneShot h st m (hm m)
  | axis_value event axis => exact (axis_value_evolves h st event axis).2.2.2.2 m (e m)
  | axis_value_discrete event axis =>
    exact (axis_value_discrete_evolves h st event axis).2.2.2.2 m (e m)
  | scroll_value event axis => exact (scroll_value_evolves h st event axis).2.2.2.2 m (e m)
  | scroll_value_v120 event axis =>
    exact (scroll_value_v120_evolves h st event axis).2.2.2.2 m (e m)
  | gesture_scale event => exact (gesture_scale_evolves h st event).2.2.2.2 m (e m)
  | gesture_angle_delta event =>
    exact (gesture_angle_delta_evolves h st event).2.2.2.2 m (e m)

theorem run_calls_oneShot (st : State) (calls : List (Host × Call)) (hm : ∀ m, OneShot m st) :
    ∀ m, OneShot m (run_calls st calls) := by
  induction calls generalizing st with
  | nil => exact hm
  | cons p rest ih => exact ih _ (call_run_oneShot p.1 st p.2 hm)

theorem oneShot_initial (m : Missing) : OneShot m {} :=
  ⟨by simp [emitted], fun _ => by simp [emitted]⟩

theorem unresolved_trace_counts (h : Host) (s : Symbol) (st : State) (fmt : String)
    (b : Bool) :
    lookups s ((wsf_load_symbol h s st).2.trace ++
      (if b then [Effect.stderr fmt []] else [])) = lookups s st.trace + 1 ∧
    ∀ msg, h.dlsym s = .error msg →
      not_found s msg ((wsf_load_symbol h s st).2.trace ++
        (if b then [Effect.stderr fmt []] else [])) =
          not_found s msg st.trace + (if st.wsf_debug then 1 else 0) := by
  constructor
  · rw [wsf_load_symbol_trace]
    unfold lookups
    cases h.dlsym s <;> cases b <;> cases st.wsf_debug <;> simp [List.count_append]
  · intro msg hm
    rw [wsf_load_symbol_trace, hm]
    unfold not_found
    cases b <;> cases st.wsf_debug <;> simp [List.count_append]

theorem call_unresolved_step (h : Host) (st : State) (c : Call) (s : Symbol)
    (hs : c.symbol = some s) (hd : st.wsf_init_done = true)
    (hu : Unresolved h s (st.cached s)) :
    (c.run h st).cached s = none ∧
    lookups s (c.run h st).trace = lookups s st.trace + 1 ∧
    ∀ msg, h.dlsym s = .error msg →
      not_found s msg (c.run h st).trace =
        not_found s msg st.trace + (if st.wsf_debug then 1 else 0) := by
  obtain ⟨hn, ha⟩ := address_none_of_unresolved hu
  cases c with
  | init => simp [Call.symbol] at hs
  | axis_value event axis =>
    simp only [Call.symbol, Option.some.injEq] at hs
    subst hs
    obtain ⟨h1, h2⟩ := axis_value_unresolved_trace h st event axis hd hn ha
    have hc := unresolved_trace_counts h .axis_value st
    simp only [Call.run, State.cached]
    rw [h2]
    exact ⟨h1, (hc _ _).1, (hc _ _).2⟩
  | axis_value_discrete event axis =>
    simp only [Call.symbol, Option.some.injEq] at hs
    subst hs
    obtain ⟨h1, h2⟩ := axis_value_discrete_unresolved_trace h st event axis hd hn ha
    have hc := unresolved_trace_counts h .axis_value_discrete st
    simp only [Call.run, State.cached]
    rw [h2]
    exact ⟨h1, (hc _ _).1, (hc _ _).2⟩
  | scroll_value event axis =>
    simp only [Call.symbol, Option.some.injEq] at hs
    subst hs
    obtain ⟨h1, h2⟩ := scroll_value_unresolved_trace h st event axis hd hn ha
    have hc := unresolved_trace_counts h .scroll_value st
    simp only [Call.run, State.cached]
    rw [h2]
    exact ⟨h1, (hc _ _).1, (hc _ _).2⟩
  | scroll_value_v120 event axis =>
    simp only [Call.symbol, Option.some.injEq] at hs
    subst hs
    obtain ⟨h1, h2⟩ := scroll_value_v120_unresolved_trace h st event axis hd hn ha
    have hc := unresolved_trace_counts h .scroll_value_v120 st
    simp only [Call.run, State.cached]
    rw [h2]
    exact ⟨h1, (hc _ _).1, (hc _ _).2⟩
  | gesture_scale event =>
    simp only [Call.symbol, Option.some.injEq] at hs
    subst hs
    obtain ⟨h1, h2⟩ := gesture_scale_unresolved_trace h st event hd hn ha
    have hc := unresolved_trace_counts h .gesture_scale st
    simp only [Call.run, State.cached]
    rw [h2]
    exact ⟨h1, (hc _ _).1, (hc _ _).2⟩
  | gesture_angle_delta event =>
    simp only [Call.symbol, Option.some.injEq] at hs
    subst hs
    obtain ⟨h1, h2⟩ := gesture_angle_delta_unresolved_trace h st event hd hn ha
    have hc := unresolved_trace_counts h .gesture_angle_delta st
    simp only [Call.run, State.cached]
    rw [h2]
    exact ⟨h1, (hc _ _).1, (hc _ _).2⟩

theorem replicate_unresolved (h : Host) (c : Call) (s : Symbol) (hs : c.symbol = some s)
    (n : Nat) (st : State) (hd : st.wsf_init_done = true)
    (hu : Unresolved h s (st.cached s)) :
    lookups s (run_calls st (List.replicate n (h, c))).trace = lookups s st.trace + n ∧
    ∀ msg, h.dlsym s = .error msg → st.wsf_debug = true →
      not_found s msg (run_calls st (List.replicate n (h, c))).trace =
        not_found s msg st.trace + n := by
  induction n generalizing st with
  | zero => exact ⟨rfl, fun _ _ _ => rfl⟩
  | succ n ih =>
    obtain ⟨h1, h2, h3⟩ := call_unresolved_step h st c s hs hd hu
    have hev := call_run_evolves h st c hd
    have ih' := ih (c.run h st) (hev.done hd) ⟨h1, hu.2⟩
    simp only [List.replicate_succ, run_calls]
    refine ⟨?_, ?_⟩
    · rw [ih'.1, h2]
      omega
    · intro msg hm hdbg
      rw [ih'.2 msg hm (hev.2.1.trans hdbg), h3 msg hm, hdbg]
      simp only [if_true]
      omega

/-! ## The claims on the symbol cache -/

/-- Counterexample to C24 as stated: when the next object exports no symbol, an
initialization followed by two calls of `libinput_event_pointer_get_axis_value` looks
that name up more than once, and writes the "not found" line for it more than once. -/
theorem single_lookup_counterexample :
    ¬ (∀ (calls : List (Host × Call)) (s : Symbol),
        lookups s (run_calls {} calls).trace ≤ 1) ∧
    ¬ (∀ (calls : List (Host × Call)) (s : Symbol) (msg : String),
        not_found s msg (run_calls {} calls).trace ≤ 1) := by
  have hd : (wsf_init bare_host {}).wsf_init_done = true :=
    wsf_init_internal_sets_done bare_host {}
  have hu : Unresolved bare_host .axis_value ((wsf_init bare_host {}).cached .axis_value) :=
    ⟨rfl, (bare_host_unresolved .axis_value).2⟩
  have hr := replicate_unresolved bare_host (.axis_value 0 0) .axis_value rfl 2
    (wsf_init bare_host {}) hd hu
  constructor
  · intro hall
    have h2 : lookups .axis_value (run_calls (wsf_init bare_host {})
        (List.replicate 2 (bare_host, .axis_value 0 0))).trace ≤ 1 :=
      hall ((bare_host, .init) :: List.replicate 2 (bare_host, .axis_value 0 0)) .axis_value
    rw [hr.1] at h2
    omega
  · intro hall
    have h2 : not_found .axis_value "undefined symbol" (run_calls (wsf_init bare_host {})
        (List.replicate 2 (bare_host, .axis_value 0 0))).trace ≤ 1 :=
      hall ((bare_host, .init) :: List.replicate 2 (bare_host, .axis_value 0 0)) .axis_value
        "undefined symbol"
    rw [hr.2 "undefined symbol" rfl rfl] at h2
    omega

/-- Claim C24, amended. A failed lookup is not cached: after initialization, a getter
whose symbol cannot be resolved leaves the pointer NULL and looks the name up once more,
so `n` such calls in a row make `n` further lookups; when the linker reports an error and
debugging is on, each of them writes the line of `wsf_load_symbol` again.  Only the
getter's own "symbol missing" line is one-shot: over any sequence of calls from the
initial state it is written at most once. -/
theorem failed_lookup_is_retried (h : Host) (st : State) (c : Call) (s : Symbol)
    (hs : c.symbol = some s) (hd : st.wsf_init_done = true)
    (hu : Unresolved h s (st.cached s)) :
    (c.run h st).cached s = none ∧
    lookups s (c.run h st).trace = lookups s st.trace + 1 ∧
    (∀ n, lookups s (run_calls st (List.replicate n (h, c))).trace =
      lookups s st.trace + n) ∧
    (∀ msg, h.dlsym s = .error msg → st.wsf_debug = true →
      ∀ n, not_found s msg (run_calls st (List.replicate n (h, c))).trace =
        not_found s msg st.trace + n) ∧
    (∀ (calls : List (Host × Call)) (m : Missing),
      emitted m (run_calls {} calls).trace ≤ 1) :=
  ⟨(call_unresolved_step h st c s hs hd hu).1, (call_unresolved_step h st c s hs hd hu).2.1,
    fun n => (replicate_unresolved h c s hs n st hd hu).1,
    fun msg hm hdbg n => (replicate_unresolved h c s hs n st hd hu).2 msg hm hdbg,
    fun calls m => (run_calls_oneShot {} calls oneShot_initial m).1⟩

/-- Claim C25. In every state the program can reach, a cached function address that is
non-null stays what it is, and no further lookup of its name is made, whatever calls
follow (the initialization entry point and the six getters, each under any environment),
and whatever event and factor the classifier or its source fallback is run on. -/
theorem resolved_symbol_cached_permanently (before : List (Host × Call)) (s : Symbol)
    (f : s.fn) (hc : (run_calls {} before).cached s = some f) :
    (∀ calls : List (Host × Call),
      (run_calls (run_calls {} before) calls).cached s = some f ∧
      lookups s (run_calls (run_calls {} before) calls).trace =
        lookups s (run_calls {} before).trace) ∧
    (∀ (h : Host) (event : libinput_event_pointer) (factor : Double),
      (wsf_should_scale_scroll h (run_calls {} before) event factor).2.cached s = some f ∧
      lookups s (wsf_should_scale_scroll h (run_calls {} before) event factor).2.trace =
        lookups s (run_calls {} before).trace) ∧
    (∀ (h : Host) (event : libinput_event_pointer),
      (wsf_should_scale_scroll_by_source h (run_calls {} before) event).2.cached s = some f ∧
      lookups s (wsf_should_scale_scroll_by_source h (run_calls {} before) event).2.trace =
        lookups s (run_calls {} before).trace) ∧
    (∀ h : Host, wsf_ensure_init h (run_calls {} before) = run_calls {} before) := by
  have hd := reachable_cached_done before s (by rw [hc]; exact Option.some_ne_none f)
  exact ⟨fun calls => run_calls_keeps _ calls hd s f hc,
    fun h event factor => (should_scale_evolves h _ event factor).keeps s f hc,
    fun h event => (by_source_evolves h _ event).keeps s f hc,
    fun h => wsf_ensure_init_done h _ hd⟩

/-- Claim C27. Calling a getter twice in succession on the same arguments, the
environment answering the same way both times, returns the same value both times, from
any state: what the first call changes (cached pointers, log flags, the trace) does not
enter the second result. -/
theorem repeated_call_same_value (h : Host) (st : State) :
    (∀ event axis,
      (libinput_event_pointer_get_axis_value h
        (libinput_event_pointer_get_axis_value h st event axis).2 event axis).1 =
      (libinput_event_pointer_get_axis_value h st event axis).1) ∧
    (∀ event axis,
      (libinput_event_pointer_get_axis_value_discrete h
        (libinput_event_pointer_get_axis_value_discrete h st event axis).2 event axis).1 =
      (libinput_event_pointer_get_axis_value_discrete h st event axis).1) ∧
    (∀ event axis,
      (libinput_event_pointer_get_scroll_value h
        (libinput_event_pointer_get_scroll_value h st event axis).2 event axis).1 =
      (libinput_event_pointer_get_scroll_value h st event axis).1) ∧
    (∀ event axis,
      (libinput_event_pointer_get_scroll_value_v120 h
        (libinput_event_pointer_get_scroll_value_v120 h st event axis).2 event axis).1 =
      (libinput_event_pointer_get_scroll_value_v120 h st event axis).1) ∧
    (∀ event,
      (libinput_event_gesture_get_scale h
        (libinput_event_gesture_get_scale h st event).2 event).1 =
      (libinput_event_gesture_get_scale h st event).1) ∧
    (∀ event,
      (libinput_event_gesture_get_angle_delta h
        (libinput_event_gesture_get_angle_delta h st event).2 event).1 =
      (libinput_event_gesture_get_angle_delta h st event).1) :=
  ⟨axis_value_twice h st, axis_value_discrete_twice h st, scroll_value_twice h st,
    scroll_value_v120_twice h st, gesture_scale_twice h st, gesture_angle_delta_twice h st⟩

/-! ## Lemmas on the writing functions -/

theorem wsf_config_write_updates_rejects (w : World) (d : Disk) (debug : Bool)
    (updates : wsf_config_values)
    (hbad : (updates.has_factor = true ∧ wsf_factor_in_range updates.factor = false) ∨
      (updates.has_scroll_vertical = true ∧
        wsf_factor_in_range updates.scroll_vertical_factor = false) ∨
      (updates.has_scroll_horizontal = true ∧
        wsf_factor_in_range updates.scroll_horizontal_factor = false) ∨
      (updates.has_pinch_zoom = true ∧
        wsf_factor_in_range updates.pinch_zoom_factor = false) ∨
      (updates.has_pinch_rotate = true ∧
        wsf_factor_in_range updates.pinch_rotate_factor = false)) :
    wsf_config_write_updates w d updates debug = (-1, []) := by
  unfold wsf_config_write_updates
  rcases hbad with ⟨a, b⟩ | ⟨a, b⟩ | ⟨a, b⟩ | ⟨a, b⟩ | ⟨a, b⟩ <;>
    simp only [a, b, Bool.not_false, Bool.and_true, Bool.true_and, if_true] <;>
    (try split_ifs) <;> rfl

theorem wsf_config_values_key (v : wsf_config_values) :
    (v.has KEY_FACTOR = v.has_factor ∧ v.value KEY_FACTOR = v.factor) ∧
    (v.has KEY_SCROLL_VERTICAL_FACTOR = v.has_scroll_vertical ∧
      v.value KEY_SCROLL_VERTICAL_FACTOR = v.scroll_vertical_factor) ∧
    (v.has KEY_SCROLL_HORIZONTAL_FACTOR = v.has_scroll_horizontal ∧
      v.value KEY_SCROLL_HORIZONTAL_FACTOR = v.scroll_horizontal_factor) ∧
    (v.has KEY_PINCH_ZOOM_FACTOR = v.has_pinch_zoom ∧
      v.value KEY_PINCH_ZOOM_FACTOR = v.pinch_zoom_factor) ∧
    (v.has KEY_PINCH_ROTATE_FACTOR = v.has_pinch_rotate ∧
      v.value KEY_PINCH_ROTATE_FACTOR = v.pinch_rotate_factor) := by
  obtain ⟨n1, n2, n3, n4, n5, n6, n7, n8, n9, n10⟩ := keys_ne
  unfold wsf_config_values.has wsf_config_values.value
  refine ⟨⟨?_, ?_⟩, ⟨?_, ?_⟩, ⟨?_, ?_⟩, ⟨?_, ?_⟩, ⟨?_, ?_⟩⟩
  · rw [if_pos rfl]
  · rw [if_pos rfl]
  · rw [if_neg n1.symm, if_pos rfl]
  · rw [if_neg n1.symm, if_pos rfl]
  · rw [if_neg n2.symm, if_neg n5.symm, if_pos rfl]
  · rw [if_neg n2.symm, if_neg n5.symm, if_pos rfl]
  · rw [if_neg n3.symm, if_neg n6.symm, if_neg n8.symm, if_pos rfl]
  · rw [if_neg n3.symm, if_neg n6.symm, if_neg n8.symm, if_pos rfl]
  · rw [if_neg n4.symm, if_neg n7.symm, if_neg n9.symm, if_neg n10.symm, if_pos rfl]
  · rw [if_neg n4.symm, if_neg n7.symm, if_neg n9.symm, if_neg n10.symm, if_pos rfl]

/-- Claim C28. When some field flagged present in the update is outside [0.05, 5.0],
`wsf_config_write_updates` returns -1 and changes nothing in the file system, whatever
the other fields hold and whatever the store and the disk answer; `wsf_config_write` does
the same for a factor outside the range. -/
theorem write_rejects_out_of_range (w : World) (d : Disk) (debug : Bool) :
    (∀ (updates : wsf_config_values) (key : c_string), key ∈ recognized_keys →
      updates.has key = true → ¬ InRange (updates.value key) →
      wsf_config_write_updates w d updates debug = (-1, [])) ∧
    (∀ factor : Double, ¬ InRange factor → wsf_config_write w d factor debug = (-1, [])) := by
  constructor
  · intro updates key hkey hhas hbad
    rw [← wsf_factor_in_range_iff, Bool.not_eq_true] at hbad
    simp only [recognized_keys, List.mem_cons, List.mem_singleton, List.not_mem_nil,
      or_false] at hkey
    obtain ⟨k1, k2, k3, k4, k5⟩ := wsf_config_values_key updates
    apply wsf_config_write_updates_rejects
    rcases hkey with rfl | rfl | rfl | rfl | rfl
    · exact Or.inl ⟨k1.1 ▸ hhas, k1.2 ▸ hbad⟩
    · exact Or.inr (Or.inl ⟨k2.1 ▸ hhas, k2.2 ▸ hbad⟩)
    · exact Or.inr (Or.inr (Or.inl ⟨k3.1 ▸ hhas, k3.2 ▸ hbad⟩))
    · exact Or.inr (Or.inr (Or.inr (Or.inl ⟨k4.1 ▸ hhas, k4.2 ▸ hbad⟩)))
    · exact Or.inr (Or.inr (Or.inr (Or.inr ⟨k5.1 ▸ hhas, k5.2 ▸ hbad⟩)))
  · intro factor hbad
    rw [← wsf_factor_in_range_iff, Bool.not_eq_true] at hbad
    unfold wsf_config_write
    rw [hbad]
    rfl

/-! ## Witnesses of the claims on the store, the symbol cache and the writing functions -/

/-- Witness of C21: the comment line that opens the store of `commented_store_world`
can be removed without changing what is read. -/
theorem ignored_lines_change_nothing_witness :
    wsf_config_read commented_store_world false =
      wsf_config_read (commented_store_world.with_store ["factor=1.5\n".toList]) false :=
  ignored_lines_change_nothing commented_store_world false
    "/home/u/.config/wayland-scroll-factor/config".toList [] ["factor=1.5\n".toList]
    "# scroll settings\n".toList rfl rfl (Or.inr (Or.inl (by with_unfolding_all rfl)))

/-- Witness of C22: an absent store gives Missing, and the store of `invalid_store_world`
gives Invalid because one of its lines is a bad entry. -/
theorem read_status_of_store_witness :
    (wsf_config_read (sample_world no_env .enoent) false).1 = .WSF_CONFIG_MISSING ∧
    ∃ line ∈ ["pinch_zoom_factor=9.9\n".toList], ∃ key ∈ recognized_keys,
      bad_entry invalid_store_world key line = true :=
  ⟨(read_status_of_store (sample_world no_env .enoent) false
      "/home/u/.config/wayland-scroll-factor/config".toList rfl).1 rfl,
    (((read_status_of_store invalid_store_world false
      "/home/u/.config/wayland-scroll-factor/config".toList rfl).2
        ["pinch_zoom_factor=9.9\n".toList] rfl).1).1 (by with_unfolding_all rfl)⟩

/-- Witness of C26: the value returned is above 0 in the sample process (factor 1/2, raw
scale 3/2) and with factor 2 and raw scale 3/2; with factor 5 and raw scale 1/10 it is
`1 + (1/10 - 1) * 5`. -/
theorem gesture_scale_sign_witness :
    0 < (libinput_event_gesture_get_scale sample_host {} 7).1 ∧
    0 < (libinput_event_gesture_get_scale zoom_host {} 7).1 ∧
    (libinput_event_gesture_get_scale shrink_host {} 7).1 = 1 + (1 / 10 - 1) * 5 :=
  ⟨(gesture_scale_sign sample_host {} 7 (fun _ => 3 / 2) (Or.inl rfl)
      ⟨by with_unfolding_all decide, by with_unfolding_all decide⟩ (by norm_num)).1
      (by with_unfolding_all decide),
    (gesture_scale_sign zoom_host {} 7 (fun _ => 3 / 2) (Or.inl rfl)
      ⟨by with_unfolding_all decide, by with_unfolding_all decide⟩ (by norm_num)).2.2.1
      (by norm_num),
    (gesture_scale_sign shrink_host {} 7 (fun _ => 1 / 10) (Or.inl rfl)
      ⟨by with_unfolding_all decide, by with_unfolding_all decide⟩ (by norm_num)).2.2.2
      rfl (by with_unfolding_all decide)⟩

/-- Witness of C24: after initialization where no symbol is exported, three calls of
`libinput_event_pointer_get_axis_value` make three further lookups of that name. -/
theorem failed_lookup_is_retried_witness :
    lookups .axis_value
      (run_calls (wsf_init bare_host {})
        (List.replicate 3 (bare_host, .axis_value 0 0))).trace =
      lookups .axis_value (wsf_init bare_host {}).trace + 3 :=
  (failed_lookup_is_retried bare_host (wsf_init bare_host {}) (.axis_value 0 0) .axis_value
    rfl rfl ⟨rfl, fun _ hf => by simp [bare_host] at hf⟩).2.2.1 3

/-- Witness of C25: the address of `libinput_event_pointer_get_axis_value` cached by the
sample initialization survives calls made where the symbol is no longer exported. -/
theorem resolved_symbol_cached_permanently_witness :
    (run_calls (run_calls {} [(sample_host, .init)])
      [(bare_host, .axis_value 5 0), (bare_host, .init)]).cached .axis_value =
        some (fun _ _ => 10) ∧
    lookups .axis_value
      (run_calls (run_calls {} [(sample_host, .init)])
        [(bare_host, .axis_value 5 0), (bare_host, .init)]).trace =
      lookups .axis_value (run_calls {} [(sample_host, .init)]).trace :=
  (resolved_symbol_cached_permanently [(sample_host, .init)] .axis_value (fun _ _ => 10)
    rfl).1 _

/-- Witness of C28: an update asking for pinch zoom 2 and pinch rotate 9 is refused and
nothing is changed, as is `wsf_config_write` of 9; writing the factor 2 alone truncates
the store, writes one line and returns 0. -/
theorem write_rejects_out_of_range_witness :
    wsf_config_write_updates legacy_key_world sample_disk mixed_update false = (-1, []) ∧
    wsf_config_write legacy_key_world sample_disk 9 false = (-1, []) ∧
    wsf_config_write (sample_world no_env .enoent) sample_disk 2 false =
      (0, [.truncate "/home/u/.config/wayland-scroll-factor/config".toList,
        .fprintf "factor=2.0000\n".toList, .fclose]) :=
  ⟨(write_rejects_out_of_range legacy_key_world sample_disk false).1 mixed_update
      KEY_PINCH_ROTATE_FACTOR (by simp [recognized_keys]) (by with_unfolding_all rfl)
      (by
        intro hr
        have h9 := hr.2
        revert h9
        with_unfolding_all decide),
    (write_rejects_out_of_range legacy_key_world sample_disk false).2 9
      (by
        intro hr
        have h9 := hr.2
        revert h9
        with_unfolding_all decide),
    by with_unfolding_all rfl⟩

/-- Witness of C27: in the sample process the vertical axis value of the event at
address 5 is the same on the first call from the initial state and on the call after. -/
theorem repeated_call_same_value_witness :
    (libinput_event_pointer_get_axis_value sample_host
      (libinput_event_pointer_get_axis_value sample_host {} 5 0).2 5 0).1 =
    (libinput_event_pointer_get_axis_value sample_host {} 5 0).1 :=
  (repeated_call_same_value sample_host {}).1 5 0

/-! ## The store keys and the legacy base -/

theorem getLast?_cons_getD (a d : Double) (l : List Double) :
    (a :: l).getLast?.getD d = l.getLast?.getD a := by
  cases l with
  | nil => rfl
  | cons b t => simp [List.getLast?_cons_cons, List.getLast?_eq_getLast]

theorem store_value_cons_getD (w : World) (key : c_string) (line : List Char)
    (lines : List (List Char)) (d : Double) :
    (store_value w key (line :: lines)).getD d =
      (store_value w key lines).getD ((entry_value w key line).getD d) := by
  unfold store_value
  cases he : entry_value w key line with
  | none => simp [List.filterMap_cons, he]
  | some v =>
    simp only [List.filterMap_cons, he, Option.getD_some]
    exact getLast?_cons_getD v d _

theorem store_value_cons_isSome (w : World) (key : c_string) (line : List Char)
    (lines : List (List Char)) :
    (store_value w key (line :: lines)).isSome =
      ((entry_value w key line).isSome || (store_value w key lines).isSome) := by
  unfold store_value
  cases he : entry_value w key line with
  | none => simp [List.filterMap_cons, he]
  | some v =>
    simp only [List.filterMap_cons, he, Option.isSome_some, Bool.true_or]
    cases hl : List.filterMap (entry_value w key) lines with
    | nil => rfl
    | cons b t => simp [List.getLast?_cons_cons, List.getLast?_eq_getLast]

theorem store_value_isSome (w : World) (key : c_string) (lines : List (List Char)) :
    (store_value w key lines).isSome = lines.any (fun line => (entry_value w key line).isSome) := by
  induction lines with
  | nil => rfl
  | cons line lines ih => rw [store_value_cons_isSome, ih, List.any_cons]

/-- The value the loop leaves for a recognized key. -/
theorem wsf_config_read_loop_store_value (w : World) (lines : List (List Char))
    (l : wsf_config_read_locals) (key : c_string) (hk : key ∈ recognized_keys) :
    (wsf_config_read_loop w lines l).out_values.value key =
      (store_value w key lines).getD (l.out_values.value key) := by
  induction lines generalizing l with
  | nil => rfl
  | cons line lines ih =>
    rw [wsf_config_read_loop_cons, ih, (wsf_config_read_line_key w line l key hk).2,
      store_value_cons_getD]

/-- Presence and value of a recognized key after reading a store that opens. -/
theorem wsf_config_read_store_value (w : World) (dbg : Bool) (path : c_string)
    (lines : List (List Char)) (hp : wsf_config_path w = some path)
    (hf : w.fopen_r path = .stream lines) (key : c_string) (hk : key ∈ recognized_keys) :
    (wsf_config_read w dbg).2.has key = (store_value w key lines).isSome ∧
    (wsf_config_read w dbg).2.value key = (store_value w key lines).getD 1 := by
  have h0 : wsf_config_values_init.has key = false := by
    unfold wsf_config_values.has wsf_config_values_init
    split_ifs <;> rfl
  have h1 : wsf_config_values_init.value key = 1 := by
    unfold wsf_config_values.value wsf_config_values_init
    split_ifs <;> rfl
  rw [wsf_config_read_stream w dbg path lines hp hf]
  simp only []
  rw [wsf_config_read_loop_has w lines _ key hk, wsf_config_read_loop_store_value w lines _ key hk,
    store_value_isSome]
  simp only [h0, h1, Bool.false_or, and_self]

/-- Without overrides and with a read status other than Error, the four factors in terms
of what the read reports. -/
theorem wsf_effective_factors_fn_no_env (w : World) (dbg : Bool)
    (hs : (wsf_config_read w dbg).1 ≠ .WSF_CONFIG_ERROR)
    (h1 : w.getenv "WSF_FACTOR" = none)
    (h2 : w.getenv "WSF_SCROLL_VERTICAL_FACTOR" = none)
    (h3 : w.getenv "WSF_SCROLL_HORIZONTAL_FACTOR" = none)
    (h4 : w.getenv "WSF_PINCH_ZOOM_FACTOR" = none)
    (h5 : w.getenv "WSF_PINCH_ROTATE_FACTOR" = none) :
    (wsf_effective_factors_fn w dbg).2.scroll_vertical =
      (if (wsf_config_read w dbg).2.has_scroll_vertical then
        (wsf_config_read w dbg).2.scroll_vertical_factor
      else if (wsf_config_read w dbg).2.has_factor then (wsf_config_read w dbg).2.factor
      else 1) ∧
    (wsf_effective_factors_fn w dbg).2.scroll_horizontal =
      (if (wsf_config_read w dbg).2.has_scroll_horizontal then
        (wsf_config_read w dbg).2.scroll_horizontal_factor
      else if (wsf_config_read w dbg).2.has_factor then (wsf_config_read w dbg).2.factor
      else 1) ∧
    (wsf_effective_factors_fn w dbg).2.pinch_zoom =
      (if (wsf_config_read w dbg).2.has_pinch_zoom then
        (wsf_config_read w dbg).2.pinch_zoom_factor
      else 1) ∧
    (wsf_effective_factors_fn w dbg).2.pinch_rotate =
      (if (wsf_config_read w dbg).2.has_pinch_rotate then
        (wsf_config_read w dbg).2.pinch_rotate_factor
      else 1) := by
  rw [wsf_effective_factors_fn_eq w dbg hs, unset_none w _ h1, unset_none w _ h2,
    unset_none w _ h3, unset_none w _ h4, unset_none w _ h5]
  simp [WSF_FACTOR_DEFAULT]

/-- Without overrides, the four factors in terms of the lines of a store that opens. -/
theorem wsf_effective_factors_fn_of_store (w : World) (dbg : Bool) (path : c_string)
    (lines : List (List Char)) (hp : wsf_config_path w = some path)
    (hf : w.fopen_r path = .stream lines)
    (h1 : w.getenv "WSF_FACTOR" = none)
    (h2 : w.getenv "WSF_SCROLL_VERTICAL_FACTOR" = none)
    (h3 : w.getenv "WSF_SCROLL_HORIZONTAL_FACTOR" = none)
    (h4 : w.getenv "WSF_PINCH_ZOOM_FACTOR" = none)
    (h5 : w.getenv "WSF_PINCH_ROTATE_FACTOR" = none) :
    (wsf_effective_factors_fn w dbg).2.scroll_vertical =
      (store_value w KEY_SCROLL_VERTICAL_FACTOR lines).getD
        ((store_value w KEY_FACTOR lines).getD 1) ∧
    (wsf_effective_factors_fn w dbg).2.scroll_horizontal =
      (store_value w KEY_SCROLL_HORIZONTAL_FACTOR lines).getD
        ((store_value w KEY_FACTOR lines).getD 1) ∧
    (wsf_effective_factors_fn w dbg).2.pinch_zoom =
      (store_value w KEY_PINCH_ZOOM_FACTOR lines).getD 1 ∧
    (wsf_effective_factors_fn w dbg).2.pinch_rotate =
      (store_value w KEY_PINCH_ROTATE_FACTOR lines).getD 1 := by
  have hs : (wsf_config_read w dbg).1 ≠ .WSF_CONFIG_ERROR := by
    rw [wsf_config_read_stream w dbg path lines hp hf]
    simp only []
    split_ifs <;> simp
  obtain ⟨e1, e2, e3, e4⟩ := wsf_effective_factors_fn_no_env w dbg hs h1 h2 h3 h4 h5
  obtain ⟨k1, k2, k3, k4, k5⟩ := wsf_config_values_key (wsf_config_read w dbg).2
  have r := fun key hk => wsf_config_read_store_value w dbg path lines hp hf key hk
  have r1 := r KEY_FACTOR (by simp [recognized_keys])
  have r2 := r KEY_SCROLL_VERTICAL_FACTOR (by simp [recognized_keys])
  have r3 := r KEY_SCROLL_HORIZONTAL_FACTOR (by simp [recognized_keys])
  have r4 := r KEY_PINCH_ZOOM_FACTOR (by simp [recognized_keys])
  have r5 := r KEY_PINCH_ROTATE_FACTOR (by simp [recognized_keys])
  rw [k1.1, k1.2] at r1
  rw [k2.1, k2.2] at r2
  rw [k3.1, k3.2] at r3
  rw [k4.1, k4.2] at r4
  rw [k5.1, k5.2] at r5
  rw [e1, e2, e3, e4, r1.1, r1.2, r2.1, r2.2, r3.1, r3.2, r4.1, r4.2, r5.1, r5.2]
  refine ⟨?_, ?_, ?_, ?_⟩
  · cases store_value w KEY_SCROLL_VERTICAL_FACTOR lines <;>
      cases store_value w KEY_FACTOR lines <;> simp
  · cases store_value w KEY_SCROLL_HORIZONTAL_FACTOR lines <;>
      cases store_value w KEY_FACTOR lines <;> simp
  · cases store_value w KEY_PINCH_ZOOM_FACTOR lines <;> simp
  · cases store_value w KEY_PINCH_ROTATE_FACTOR lines <;> simp

theorem entry_value_other_key (w : World) (key k : c_string) (value : c_string)
    (line : List Char) (hkv : wsf_config_read_key_value line = some (k, value))
    (hne : key ≠ k) : entry_value w key line = none := by
  unfold entry_value
  rw [hkv]
  simp only []
  rw [if_neg]
  intro hc
  exact hne hc.1.symm

theorem store_value_remove (w : World) (key : c_string) (pre post : List (List Char))
    (line : List Char) (hn : entry_value w key line = none) :
    store_value w key (pre ++ line :: post) = store_value w key (pre ++ post) := by
  unfold store_value
  rw [List.filterMap_append, List.filterMap_cons, hn, List.filterMap_append]

/-- Claim C13. With no environment override and a configuration path: when the store is
absent the four factors are 1; when the store opens, each scroll factor is the value the
store validly gives to its own key (its last valid line for that key), otherwise the
value the store validly gives to the legacy `factor` key, otherwise 1, and each pinch
factor is the value the store validly gives to its own key, otherwise 1; removing a
line for the legacy `factor` key from the store, whatever value it holds, changes neither
pinch factor. -/
theorem store_keys_with_legacy_base (w : World) (dbg : Bool) (path : c_string)
    (hp : wsf_config_path w = some path)
    (h1 : w.getenv "WSF_FACTOR" = none)
    (h2 : w.getenv "WSF_SCROLL_VERTICAL_FACTOR" = none)
    (h3 : w.getenv "WSF_SCROLL_HORIZONTAL_FACTOR" = none)
    (h4 : w.getenv "WSF_PINCH_ZOOM_FACTOR" = none)
    (h5 : w.getenv "WSF_PINCH_ROTATE_FACTOR" = none) :
    (w.fopen_r path = .enoent →
      (wsf_effective_factors_fn w dbg).2.scroll_vertical = 1 ∧
      (wsf_effective_factors_fn w dbg).2.scroll_horizontal = 1 ∧
      (wsf_effective_factors_fn w dbg).2.pinch_zoom = 1 ∧
      (wsf_effective_factors_fn w dbg).2.pinch_rotate = 1) ∧
    (∀ lines, w.fopen_r path = .stream lines →
      (wsf_effective_factors_fn w dbg).2.scroll_vertical =
        (store_value w KEY_SCROLL_VERTICAL_FACTOR lines).getD
          ((store_value w KEY_FACTOR lines).getD 1) ∧
      (wsf_effective_factors_fn w dbg).2.scroll_horizontal =
        (store_value w KEY_SCROLL_HORIZONTAL_FACTOR lines).getD
          ((store_value w KEY_FACTOR lines).getD 1) ∧
      (wsf_effective_factors_fn w dbg).2.pinch_zoom =
        (store_value w KEY_PINCH_ZOOM_FACTOR lines).getD 1 ∧
      (wsf_effective_factors_fn w dbg).2.pinch_rotate =
        (store_value w KEY_PINCH_ROTATE_FACTOR lines).getD 1) ∧
    (∀ (pre post : List (List Char)) (line : List Char) (value : c_string),
      w.fopen_r path = .stream (pre ++ line :: post) →
      wsf_config_read_key_value line = some (KEY_FACTOR, value) →
      (wsf_effective_factors_fn w dbg).2.pinch_zoom =
        (wsf_effective_factors_fn (w.with_store (pre ++ post)) dbg).2.pinch_zoom ∧
      (wsf_effective_factors_fn w dbg).2.pinch_rotate =
        (wsf_effective_factors_fn (w.with_store (pre ++ post)) dbg).2.pinch_rotate) := by
  obtain ⟨n1, n2, n3, n4, n5, n6, n7, n8, n9, n10⟩ := keys_ne
  refine ⟨?_, ?_, ?_⟩
  · intro hf
    have hr : wsf_config_read w dbg = (.WSF_CONFIG_MISSING, wsf_config_values_init) := by
      unfold wsf_config_read
      simp only [hp, hf]
    have hs : (wsf_config_read w dbg).1 ≠ .WSF_CONFIG_ERROR := by
      rw [hr]
      simp
    obtain ⟨e1, e2, e3, e4⟩ := wsf_effective_factors_fn_no_env w dbg hs h1 h2 h3 h4 h5
    rw [e1, e2, e3, e4, hr]
    simp [wsf_config_values_init]
  · intro lines hf
    exact wsf_effective_factors_fn_of_store w dbg path lines hp hf h1 h2 h3 h4 h5
  · intro pre post line value hf hkv
    obtain ⟨_, _, a3, a4⟩ :=
      wsf_effective_factors_fn_of_store w dbg path _ hp hf h1 h2 h3 h4 h5
    obtain ⟨_, _, b3, b4⟩ :=
      wsf_effective_factors_fn_of_store (w.with_store (pre ++ post)) dbg path (pre ++ post)
        hp rfl h1 h2 h3 h4 h5
    have c3 : store_value (w.with_store (pre ++ post)) KEY_PINCH_ZOOM_FACTOR (pre ++ post) =
        store_value w KEY_PINCH_ZOOM_FACTOR (pre ++ post) := rfl
    have c4 : store_value (w.with_store (pre ++ post)) KEY_PINCH_ROTATE_FACTOR (pre ++ post) =
        store_value w KEY_PINCH_ROTATE_FACTOR (pre ++ post) := rfl
    rw [a3, a4, b3, b4, c3, c4,
      store_value_remove w _ pre post line
        (entry_value_other_key w _ _ value line hkv n3.symm),
      store_value_remove w _ pre post line
        (entry_value_other_key w _ _ value line hkv n4.symm)]
    exact ⟨rfl, rfl⟩

/-- Witness of C13: the store `factor=1.5` alone gives horizontal 3/2 and pinch zoom 1,
and its pinch zoom is that of the empty store. -/
theorem store_keys_with_legacy_base_witness :
    (wsf_effective_factors_fn legacy_key_world false).2.scroll_horizontal = 3 / 2 ∧
    (wsf_effective_factors_fn legacy_key_world false).2.pinch_zoom = 1 ∧
    (wsf_effective_factors_fn legacy_key_world false).2.pinch_zoom =
      (wsf_effective_factors_fn (legacy_key_world.with_store []) false).2.pinch_zoom :=
  ⟨((store_keys_with_legacy_base legacy_key_world false
      "/home/u/.config/wayland-scroll-factor/config".toList rfl rfl rfl rfl rfl rfl).2.1
        ["factor=1.5\n".toList] rfl).2.1.trans (by with_unfolding_all rfl),
   ((store_keys_with_legacy_base legacy_key_world false
      "/home/u/.config/wayland-scroll-factor/config".toList rfl rfl rfl rfl rfl rfl).2.1
        ["factor=1.5\n".toList] rfl).2.2.1.trans (by with_unfolding_all rfl),
   ((store_keys_with_legacy_base legacy_key_world false
      "/home/u/.config/wayland-scroll-factor/config".toList rfl rfl rfl rfl rfl rfl).2.2
        [] [] "factor=1.5\n".toList _ rfl (by with_unfolding_all rfl)).1⟩

end Wsf
